import Mathlib

/-!
# CarbonFoot API: estimation and scoring engine

Shallow embedding of `eco-shipping-tracker/server/index.js`.

Conventions of the embedding.

* A JavaScript number is a `JSNum`: a finite IEEE-754 double, held as the
  rational it denotes, an infinity or `NaN`. The operators `*`, `-` and `/`
  round their exact result to the nearest double, ties to even, with
  underflow to zero and overflow to an infinity (`roundDouble`). A decimal
  literal of the source such as `0.161` is the double nearest to it. The sign
  of zero is not represented. A number of a request is a double as well; the
  theorems range over all rationals, the doubles among them.
* A request body is a record whose fields are optional; an absent field is
  JavaScript `undefined`. Numeric fields hold JSON numbers, text fields hold
  JSON strings (this is what the bundled client sends). The elements of the
  `destinations` array are arbitrary JSON values, since the handler tests
  them itself.
* A handler returns a `Response`: the status code together with the JSON
  body. The `calculatedAt` time stamp is left out.
-/

namespace CarbonFoot

/-! ## JavaScript numbers -/

/-- A JavaScript number: a finite double (the rational it denotes), an
infinity with its sign, or `NaN`. -/
inductive JSNum where
  | fin (q : ℚ)
  | inf (negative : Bool)
  | nan
  deriving DecidableEq

/-- Rounding to the nearest integer, a tie going to the even neighbour. -/
def roundHalfEven (x : ℚ) : ℤ :=
  if x + 1 / 2 = (⌊x + 1 / 2⌋ : ℤ) ∧ ⌊x + 1 / 2⌋ % 2 ≠ 0 then ⌊x + 1 / 2⌋ - 1 else ⌊x + 1 / 2⌋

/-- The binary exponent `e` with `2^e ≤ |q| < 2^(e+1)`, not below the exponent
-1022 of the subnormal doubles. -/
def binade (q : ℚ) : ℤ := max (Int.log 2 |q|) (-1022)

/-- The double nearest to the rational `q` (IEEE-754 binary64, round to
nearest, ties to even): 53 significant bits, spacing `2^-1074` near zero, and
an infinity once the rounded magnitude reaches `2^1024`. -/
def roundDouble (q : ℚ) : JSNum :=
  let ulp : ℚ := 2 ^ (binade q - 52)
  let r : ℚ := roundHalfEven (q / ulp) * ulp
  if 2 ^ 1024 ≤ |r| then JSNum.inf (decide (r < 0)) else JSNum.fin r

namespace JSNum

/-- The operator `a * b` on doubles. -/
def mul : JSNum → JSNum → JSNum
  | fin a, fin b => roundDouble (a * b)
  | fin a, inf t => if a = 0 then nan else inf (xor t (decide (a < 0)))
  | inf s, fin b => if b = 0 then nan else inf (xor s (decide (b < 0)))
  | inf s, inf t => inf (xor s t)
  | _, _ => nan

/-- The operator `a - b` on doubles. -/
def sub : JSNum → JSNum → JSNum
  | fin a, fin b => roundDouble (a - b)
  | fin _, inf t => inf (!t)
  | inf s, fin _ => inf s
  | inf s, inf t => if s = t then nan else inf s
  | _, _ => nan

/-- The operator `a / b` on doubles. A zero divisor is taken as `+0`: in this
program a zero divisor arises only as `currentEmissions`, and the dividend is
then zero as well. -/
def div : JSNum → JSNum → JSNum
  | fin a, fin b =>
    if b = 0 then (if a = 0 then nan else inf (decide (a < 0))) else roundDouble (a / b)
  | fin _, inf _ => fin 0
  | inf s, fin b => inf (xor s (decide (b < 0)))
  | _, _ => nan

/-- The product of `analyzeRoutes`, formed without rounding. Its operands
there are an array length n (below 2^32) and the literals 800, 0.16, 0.75,
2.5 and 100, and the double results are the exact values 800n, 128n, 96n,
600n, 80n and 25 (`analyzeRoutesDouble_eq`). -/
def mulExact : JSNum → JSNum → JSNum
  | fin a, fin b => fin (a * b)
  | _, _ => nan

/-- The difference `currentCO2 - optimizedCO2` of `analyzeRoutes`: 128n - 96n,
exact in doubles. -/
def subExact : JSNum → JSNum → JSNum
  | fin a, fin b => fin (a - b)
  | _, _ => nan

/-- The quotients `savings / currentCO2` (32n / 128n, or `0 / 0`, which is
`NaN`) and `locations.length / 2`, exact in doubles (`analyzeRoutesDouble_eq`,
`div_two_exact`). -/
def divExact : JSNum → JSNum → JSNum
  | fin a, fin b => if b = 0 then nan else fin (a / b)
  | _, _ => nan

/-- The operator `a > b`; every comparison with `NaN` is false. -/
def gt : JSNum → JSNum → Bool
  | fin a, fin b => decide (b < a)
  | inf false, fin _ => true
  | inf false, inf true => true
  | fin _, inf true => true
  | _, _ => false

/-- Truthiness of a number: `!x` holds for `0` and for `NaN`. -/
def truthy : JSNum → Bool
  | fin q => decide (q ≠ 0)
  | inf _ => true
  | nan => false

/-- The call `Math.round(x)`: the nearest integer, halves going up. -/
def round : JSNum → JSNum
  | fin q => fin (⌊q + 1 / 2⌋ : ℤ)
  | inf s => inf s
  | nan => nan

/-- The call `Math.max(a, b)`. -/
def max : JSNum → JSNum → JSNum
  | fin a, fin b => fin (Max.max a b)
  | nan, _ => nan
  | _, nan => nan
  | inf false, _ => inf false
  | _, inf false => inf false
  | inf true, b => b
  | a, inf true => a

/-- A number that is not negative: a finite value at least 0, or `+∞`. -/
def NonNeg : JSNum → Prop
  | fin q => 0 ≤ q
  | inf s => s = false
  | nan => False

end JSNum

/-- The integer `n` chosen by `Number.prototype.toFixed(f)` for a value of
magnitude `|q|`: `n / 10^f` is as close to `|q|` as possible, the larger `n`
winning a tie. -/
def fixedScaled (f : Nat) (q : ℚ) : ℕ := ⌊|q| * 10 ^ f + 1 / 2⌋.toNat

/-- Left-pads a digit string with zeros up to width `w`. -/
def padZeros (w : Nat) (s : String) : String :=
  String.mk (List.replicate (w - s.length) '0') ++ s

/-- Decimal rendering of `n / 10^f` with exactly `f` fraction digits. -/
def renderFixed (f n : Nat) : String :=
  if f = 0 then Nat.repr n
  else Nat.repr (n / 10 ^ f) ++ "." ++ padZeros f (Nat.repr (n % 10 ^ f))

/-- Exponent form of the integer `s × 10^p`: the first digit of `s`, the other
digits after a point, and the decimal exponent. -/
def exponentForm (s p : Nat) : String :=
  let digits := (Nat.repr s).data
  String.mk (digits.take 1) ++
    (if (digits.drop 1).isEmpty then "" else "." ++ String.mk (digits.drop 1)) ++
    "e+" ++ Nat.repr (p + digits.length - 1)

/-- The digits `s` of length `k` (and the power `p` of ten) for which
`s × 10^p` rounds to the double `x`, if there are such: the one nearest to
`x`, the even one at a tie. -/
def shortestCandidate (x : ℚ) (k : Nat) : Option (Nat × Nat) :=
  let p := Nat.log 10 ⌊x⌋₊ + 1 - k
  let lo := ⌊x / 10 ^ p⌋₊
  let okLo := decide (roundDouble ((lo : ℚ) * 10 ^ p) = JSNum.fin x)
  let okHi := decide (roundDouble (((lo + 1 : ℕ) : ℚ) * 10 ^ p) = JSNum.fin x)
  let dLo := x - (lo : ℚ) * 10 ^ p
  let dHi := ((lo + 1 : ℕ) : ℚ) * 10 ^ p - x
  let pick : Option Nat :=
    if okLo && okHi then
      (if dLo < dHi then some lo else if dHi < dLo then some (lo + 1)
        else if lo % 2 = 0 then some lo else some (lo + 1))
    else if okLo then some lo
    else if okHi then some (lo + 1)
    else none
  pick.map (fun s => if s = 10 ^ k then (1, p + k) else (s, p))

/-- The shortest digits that denote the double `x ≥ 10^21`, as
`Number::toString` chooses them (17 digits always suffice). -/
def shortestDigits (x : ℚ) : Nat × Nat :=
  match (List.range 17).findSome? (fun i => shortestCandidate x (i + 1)) with
  | some sp => sp
  | none => (⌊x / 10 ^ (Nat.log 10 ⌊x⌋₊ - 16)⌋₊, Nat.log 10 ⌊x⌋₊ - 16)

/-- The string of a double `x ≥ 10^21` (`Number::toString`): exponent form
with the shortest digits that read back as `x`. -/
def largeToString (x : ℚ) : String :=
  exponentForm (shortestDigits x).1 (shortestDigits x).2

/-- The call `x.toFixed(f)`: below `10^21` the string with `f` digits after
the point, the exact value of the double rounded half up in magnitude; from
`10^21` on the exponent form of the number itself. -/
def toFixed (f : Nat) : JSNum → String
  | JSNum.nan => "NaN"
  | JSNum.inf negative => if negative then "-Infinity" else "Infinity"
  | JSNum.fin q =>
    if 10 ^ 21 ≤ |q| then
      (if q < 0 then "-" ++ largeToString |q| else largeToString |q|)
    else if q < 0 then "-" ++ renderFixed f (fixedScaled f q)
    else renderFixed f (fixedScaled f q)

/-- The call `parseFloat(x.toFixed(f))`: the double that the string denotes.
From `10^21` on the string reads back as the number itself. -/
def parseFloatToFixed (f : Nat) : JSNum → JSNum
  | JSNum.nan => JSNum.nan
  | JSNum.inf negative => JSNum.inf negative
  | JSNum.fin q =>
    if 10 ^ 21 ≤ |q| then JSNum.fin q
    else if q < 0 then roundDouble (-((fixedScaled f q : ℚ) / 10 ^ f))
    else roundDouble ((fixedScaled f q : ℚ) / 10 ^ f)

/-- The call `s.includes(pat)` on character lists. -/
def includesChars : List Char → List Char → Bool
  | [], pat => pat.isEmpty
  | c :: cs, pat => pat.isPrefixOf (c :: cs) || includesChars cs pat

/-- The call `s.includes(pat)` for strings. -/
def includes (s pat : String) : Bool := includesChars s.data pat.data

/-! ## Responses -/

/-- Outcome of a handler: `res.json(body)` (status 200), `res.status(400)` or
`res.status(500)` with the error text. -/
inductive Response (α : Type) where
  | ok (body : α)
  | badRequest (error : String)
  | serverError (error : String)

/-! ## Emission factors and their lookup -/

/-- The constant `emissionFactors`: per mode, the factor of each fuel. -/
def emissionFactors : List (String × List (String × ℚ)) :=
  [ ("truck", [("diesel", 161 / 1000), ("electric", 53 / 1000), ("hybrid", 95 / 1000)]),
    ("air", [("jet", 57 / 100), ("biofuel", 34 / 100)]),
    ("ship", [("heavy", 14 / 1000), ("lng", 8 / 1000)]),
    ("train", [("diesel", 41 / 1000), ("electric", 6 / 1000)]) ]

/-- What a property read can produce in the factor lookup. Objects and
functions other than the fuel tables are not told apart: each is truthy and
converts to `NaN`. -/
inductive JSVal where
  | undefined
  | null
  | number (x : ℚ)
  | string (s : String)
  | object
  deriving DecidableEq

/-- Truthiness of a value. -/
def JSVal.truthy : JSVal → Bool
  | .undefined => false
  | .null => false
  | .number x => decide (x ≠ 0)
  | .string s => decide (s ≠ "")
  | .object => true

/-- Numeric conversion of a value used as an operand of `*`; a number of the
factor table is the double nearest to its decimal literal. The strings that
reach it are names of built-in functions, none of which is numeric. -/
def JSVal.toNumber : JSVal → JSNum
  | .undefined => JSNum.nan
  | .null => JSNum.fin 0
  | .number x => roundDouble x
  | .string s => if s = "" then JSNum.fin 0 else JSNum.nan
  | .object => JSNum.nan

/-- The methods of `Object.prototype` with their `length` (ECMAScript 2022,
Annex B included). The entries `constructor` and `__proto__` are handled
where they are read. -/
def objectPrototypeMethods : List (String × Nat) :=
  [ ("hasOwnProperty", 1), ("isPrototypeOf", 1), ("propertyIsEnumerable", 1),
    ("toLocaleString", 0), ("toString", 0), ("valueOf", 0),
    ("__defineGetter__", 2), ("__defineSetter__", 2),
    ("__lookupGetter__", 1), ("__lookupSetter__", 1) ]

/-- The function-valued own properties of the `Object` constructor. -/
def objectStaticMethods : List String :=
  [ "assign", "create", "defineProperties", "defineProperty", "entries", "freeze",
    "fromEntries", "getOwnPropertyDescriptor", "getOwnPropertyDescriptors",
    "getOwnPropertyNames", "getOwnPropertySymbols", "getPrototypeOf", "hasOwn", "is",
    "isExtensible", "isFrozen", "isSealed", "keys", "preventExtensions", "seal",
    "setPrototypeOf", "values" ]

/-- The function-valued properties of `Function.prototype`. -/
def functionPrototypeMethods : List String :=
  [ "apply", "bind", "call", "toString", "constructor" ]

/-- The value of `emissionFactors[mode]`. -/
inductive ModeEntry where
  | fuels (table : List (String × ℚ))
  | objectPrototype
  | objectConstructor
  | method (name : String) (length : Nat)
  | undefined

/-- The read `emissionFactors[mode]`: an own property, else one inherited from
`Object.prototype`, else `undefined`. -/
def lookupMode (mode : String) : ModeEntry :=
  match emissionFactors.lookup mode with
  | some table => .fuels table
  | none =>
    if mode = "constructor" then .objectConstructor
    else if mode = "__proto__" then .objectPrototype
    else match objectPrototypeMethods.lookup mode with
      | some len => .method mode len
      | none => .undefined

/-- A property of `Object.prototype` read through an object that inherits
from it; `protoOfReceiver` is what the `__proto__` getter returns. -/
def inheritedFromObject (key : String) (protoOfReceiver : JSVal) : JSVal :=
  if key = "constructor" then .object
  else if key = "__proto__" then protoOfReceiver
  else if (objectPrototypeMethods.lookup key).isSome then .object
  else .undefined

/-- A property read on a built-in function with the given `name` and
`length`; `statics` are its further own properties. The accessors `caller`
and `arguments` of `Function.prototype` throw a `TypeError`. -/
def functionProperty (name : String) (length : Nat) (statics : List String)
    (key : String) : Except Unit JSVal :=
  if key = "length" then .ok (.number length)
  else if key = "name" then .ok (.string name)
  else if key ∈ statics then .ok .object
  else if key ∈ functionPrototypeMethods then .ok .object
  else if key = "caller" ∨ key = "arguments" then .error ()
  else .ok (inheritedFromObject key .object)

/-- The read `emissionFactors[transportMode]?.[fuelType]`; `Except.error` is a
thrown exception. -/
def lookupFactor (transportMode fuelType : String) : Except Unit JSVal :=
  match lookupMode transportMode with
  | .undefined => .ok .undefined
  | .fuels table =>
    match table.lookup fuelType with
    | some factor => .ok (.number factor)
    | none => .ok (inheritedFromObject fuelType .object)
  | .objectPrototype => .ok (inheritedFromObject fuelType .null)
  | .objectConstructor => functionProperty "Object" 1 ("prototype" :: objectStaticMethods) fuelType
  | .method name len => functionProperty name len [] fuelType

/-! ## POST /api/calculate-carbon -/

/-- One entry of the `suggestions` array. -/
structure Suggestion where
  type : String
  suggestion : String
  reduction : String
  newEmissions : String
  deriving DecidableEq

/-- The function `generateCarbonSuggestions`. -/
def generateCarbonSuggestions (currentEmissions : JSNum) (mode : String)
    (distance weight : JSNum) : List Suggestion :=
  let truck : List Suggestion :=
    if mode = "truck" then
      let electricEmissions := (distance.mul weight).mul (roundDouble (53 / 1000))
      [{ type := "Vehicle Type",
         suggestion := "Switch to electric trucks",
         reduction := toFixed 1 (((currentEmissions.sub electricEmissions).div
            currentEmissions).mul (JSNum.fin 100)) ++ "% reduction",
         newEmissions := toFixed 2 electricEmissions }]
    else []
  let air : List Suggestion :=
    if mode = "air" then
      let shipEmissions := (distance.mul weight).mul (roundDouble (14 / 1000))
      [{ type := "Transport Mode",
         suggestion := "Consider sea freight for non-urgent shipments",
         reduction := toFixed 1 (((currentEmissions.sub shipEmissions).div
            currentEmissions).mul (JSNum.fin 100)) ++ "% reduction",
         newEmissions := toFixed 2 shipEmissions }]
    else []
  truck ++ air ++
    [{ type := "Route Optimization",
       suggestion := "Consolidate shipments and optimize routes",
       reduction := "15-25% potential reduction",
       newEmissions := toFixed 2 (currentEmissions.mul (roundDouble (8 / 10))) }]

/-- Body of a calculate-carbon request. -/
structure CarbonRequest where
  distance : Option ℚ
  weight : Option ℚ
  transportMode : Option String
  fuelType : Option String

/-- Body of a successful calculate-carbon response. -/
structure CarbonResult where
  carbonFootprint : JSNum
  carEquivalent : JSNum
  suggestions : List Suggestion
  deriving DecidableEq

/-- The handler of `POST /api/calculate-carbon`. -/
def calculateCarbon (req : CarbonRequest) : Response CarbonResult :=
  match req.distance, req.weight, req.transportMode, req.fuelType with
  | some distance, some weight, some transportMode, some fuelType =>
    if distance = 0 ∨ weight = 0 ∨ transportMode = "" ∨ fuelType = "" then
      .badRequest "Missing required fields: distance, weight, transportMode, fuelType"
    else
      match lookupFactor transportMode fuelType with
      | .error _ => .serverError "Internal server error during carbon calculation"
      | .ok factor =>
        if !factor.truthy then
          .badRequest "Invalid transport mode or fuel type combination"
        else
          let emissions := ((JSNum.fin distance).mul (JSNum.fin weight)).mul factor.toNumber
          let suggestions :=
            generateCarbonSuggestions emissions transportMode (JSNum.fin distance) (JSNum.fin weight)
          .ok { carbonFootprint := parseFloatToFixed 2 emissions,
                carEquivalent := (emissions.div (roundDouble (404 / 1000))).round,
                suggestions := suggestions }
  | _, _, _, _ =>
    .badRequest "Missing required fields: distance, weight, transportMode, fuelType"

/-! ## POST /api/packaging-recommendations -/

/-- One value of the constant `packagingOptions`. -/
structure PackagingOption where
  name : String
  sustainability : Nat
  cost : String
  recyclable : Bool
  biodegradable : Bool
  co2Impact : ℚ
  bestFor : List String
  deriving DecidableEq

/-- The constant `packagingOptions`, as `Object.entries` lists it (insertion
order of the keys). -/
def packagingOptions : List (String × PackagingOption) :=
  [ ("cardboard",
      { name := "Recycled Cardboard", sustainability := 85, cost := "Low",
        recyclable := true, biodegradable := true, co2Impact := 5 / 10,
        bestFor := ["electronics", "clothing", "documents"] }),
    ("biodegradable",
      { name := "Biodegradable Plastic", sustainability := 75, cost := "Medium",
        recyclable := false, biodegradable := true, co2Impact := 8 / 10,
        bestFor := ["food", "cosmetics", "fragile"] }),
    ("mushroom",
      { name := "Mushroom Packaging", sustainability := 95, cost := "High",
        recyclable := true, biodegradable := true, co2Impact := 2 / 10,
        bestFor := ["fragile", "electronics", "luxury"] }),
    ("recyclePaper",
      { name := "Recycled Paper Padding", sustainability := 80, cost := "Low",
        recyclable := true, biodegradable := true, co2Impact := 3 / 10,
        bestFor := ["clothing", "documents", "lightweight"] }),
    ("cornstarch",
      { name := "Cornstarch Packing Peanuts", sustainability := 90, cost := "Medium",
        recyclable := false, biodegradable := true, co2Impact := 4 / 10,
        bestFor := ["fragile", "electronics", "irregular"] }) ]

/-- The function `calculatePackagingScore`. -/
def calculatePackagingScore (option : PackagingOption) (volume weight : JSNum)
    (fragility : String) : Nat :=
  let score := option.sustainability
  let score := if fragility = "high" ∧ includes option.name "Mushroom" then score + 10 else score
  let score := if volume.gt (JSNum.fin 1000) ∧ option.cost = "Low" then score + 5 else score
  let score := if weight.gt (JSNum.fin 5) ∧ includes option.name "Cardboard" then score + 5 else score
  score

/-- The local constant `baseCosts` of `calculatePackagingCost`, read as a
number: a key it does not own yields `undefined` or an inherited function,
either of which is `NaN` in the product. -/
def baseCosts (cost : String) : JSNum :=
  match [("Low", (2 : ℚ)), ("Medium", 5), ("High", 12)].lookup cost with
  | some c => JSNum.fin c
  | none => JSNum.nan

/-- The function `calculatePackagingCost`. -/
def calculatePackagingCost (option : PackagingOption) (volume weight : JSNum) : String :=
  let volumeFactor := JSNum.max (JSNum.fin 1) (volume.div (JSNum.fin 1000))
  let weightFactor := JSNum.max (JSNum.fin 1) (weight.div (JSNum.fin 2))
  toFixed 2 (((baseCosts option.cost).mul volumeFactor).mul weightFactor)

/-- An element of `scored`: the option's fields with `key`, `score` and
`estimatedCost` added. -/
structure ScoredOption extends PackagingOption where
  key : String
  score : Nat
  estimatedCost : String
  deriving DecidableEq

/-- The field `dimensions` of a packaging request. -/
structure Dimensions where
  length : Option ℚ
  width : Option ℚ
  height : Option ℚ

/-- Body of a packaging-recommendations request. -/
structure PackagingRequest where
  dimensions : Option Dimensions
  weight : Option ℚ
  itemType : Option String
  fragility : Option String

/-- Body of a successful packaging-recommendations response. -/
structure PackagingResult where
  recommendations : List ScoredOption
  volume : JSNum
  deriving DecidableEq

/-- A dimension as an operand of `*`: an absent one is `undefined`, hence `NaN`. -/
def dimensionValue : Option ℚ → JSNum
  | some q => JSNum.fin q
  | none => JSNum.nan

/-- The constant `volume` of the handler:
`dimensions.length * dimensions.width * dimensions.height`. -/
def dimensionsVolume (dimensions : Dimensions) : JSNum :=
  ((dimensionValue dimensions.length).mul (dimensionValue dimensions.width)).mul
    (dimensionValue dimensions.height)

/-- The array `suitable`: the entries whose `bestFor` includes the item type. -/
def suitable (itemType : String) : List (String × PackagingOption) :=
  packagingOptions.filter (fun entry => decide (itemType ∈ entry.2.bestFor))

/-- The array `scored` before it is sorted. -/
def scored (itemType : String) (volume weight : JSNum) (fragility : String) :
    List ScoredOption :=
  (suitable itemType).map (fun entry =>
    { toPackagingOption := entry.2,
      key := entry.1,
      score := calculatePackagingScore entry.2 volume weight fragility,
      estimatedCost := calculatePackagingCost entry.2 volume weight })

/-- The order that `(a, b) => b.score - a.score` allows: `a` may stand before
`b` when the comparator is not positive. -/
def scoreOrder (a b : ScoredOption) : Prop := b.score ≤ a.score

instance : DecidableRel scoreOrder := fun a b => Nat.decLe b.score a.score

instance : IsTotal ScoredOption scoreOrder := ⟨fun a b => Nat.le_total b.score a.score⟩

instance : IsTrans ScoredOption scoreOrder := ⟨fun _ _ _ hab hbc => Nat.le_trans hbc hab⟩

/-- The call `scored.sort((a, b) => b.score - a.score)`. `Array.prototype.sort`
is stable (ECMAScript 2019); it is rendered as an insertion sort, which is. -/
def sortByScore (l : List ScoredOption) : List ScoredOption :=
  l.insertionSort scoreOrder

/-- The handler of `POST /api/packaging-recommendations`. -/
def packagingRecommendations (req : PackagingRequest) : Response PackagingResult :=
  match req.dimensions, req.weight, req.itemType, req.fragility with
  | some dimensions, some weight, some itemType, some fragility =>
    if weight = 0 ∨ itemType = "" ∨ fragility = "" then
      .badRequest "Missing required fields: dimensions, weight, itemType, fragility"
    else
      let volume := dimensionsVolume dimensions
      let sorted := sortByScore (scored itemType volume (JSNum.fin weight) fragility)
      .ok { recommendations := sorted.take 3, volume := volume.round }
  | _, _, _, _ =>
    .badRequest "Missing required fields: dimensions, weight, itemType, fragility"

/-! ## Route heuristic -/

/-- One entry of the route `recommendations` array. -/
structure RouteRecommendation where
  type : String
  description : String
  impact : String
  implementation : String
  deriving DecidableEq

/-- The function `generateRouteRecommendations`. -/
def generateRouteRecommendations (locations : List String) : List RouteRecommendation :=
  (if locations.length > 3 then
      [{ type := "Hub Consolidation",
         description := "Use regional distribution hubs to reduce individual trips",
         impact := "30-40% emission reduction",
         implementation := "Medium" }]
    else []) ++
  [{ type := "Load Optimization",
     description := "Combine multiple shipments going to nearby locations",
     impact := "20-25% emission reduction",
     implementation := "Easy" },
   { type := "Route Sequencing",
     description := "Optimize stop order to minimize backtracking",
     impact := "15-20% emission reduction",
     implementation := "Easy" }] ++
  (if locations.length > 2 then
      [{ type := "Multi-Modal Transport",
         description := "Use rail or sea freight for long-distance segments",
         impact := "50-60% emission reduction",
         implementation := "Hard" }]
    else [])

/-- The object returned by `analyzeRoutes`. -/
structure RouteAnalysis where
  originalDistance : JSNum
  optimizedDistance : JSNum
  originalCO2 : JSNum
  optimizedCO2 : JSNum
  co2Savings : JSNum
  costSavings : JSNum
  timeSaved : String
  efficiency : JSNum
  stops : List String
  recommendations : List RouteRecommendation
  deriving DecidableEq

/-- The function `analyzeRoutes`. Its arithmetic is written without rounding:
for an array (length n below 2^32) every double that the source computes is
the exact value 800n, 128n, 96n, 600n, 32n, 80n, 0.25 or 25, and `0 / 0` for
the empty list; `analyzeRoutesDouble_eq` proves the agreement with
`analyzeRoutesDouble`. -/
def analyzeRoutes (locations : List String) : RouteAnalysis :=
  let totalLocations : JSNum := JSNum.fin locations.length
  let estimatedDistance := totalLocations.mulExact (JSNum.fin 800)
  let currentCO2 := estimatedDistance.mulExact (JSNum.fin (16 / 100))
  let optimizedCO2 := currentCO2.mulExact (JSNum.fin (75 / 100))
  let savings := currentCO2.subExact optimizedCO2
  { originalDistance := estimatedDistance,
    optimizedDistance := (estimatedDistance.mulExact (JSNum.fin (75 / 100))).round,
    originalCO2 := currentCO2.round,
    optimizedCO2 := optimizedCO2.round,
    co2Savings := savings.round,
    costSavings := (savings.mulExact (JSNum.fin (25 / 10))).round,
    timeSaved := "0.5-1 day",
    efficiency := ((savings.divExact currentCO2).mulExact (JSNum.fin 100)).round,
    stops := locations,
    recommendations := generateRouteRecommendations locations }

/-- The function `analyzeRoutes` with every operation rounded to a double and
every literal read as a double, as the source computes it. -/
def analyzeRoutesDouble (locations : List String) : RouteAnalysis :=
  let totalLocations : JSNum := JSNum.fin locations.length
  let estimatedDistance := totalLocations.mul (JSNum.fin 800)
  let currentCO2 := estimatedDistance.mul (roundDouble (16 / 100))
  let optimizedCO2 := currentCO2.mul (roundDouble (75 / 100))
  let savings := currentCO2.sub optimizedCO2
  { originalDistance := estimatedDistance,
    optimizedDistance := (estimatedDistance.mul (roundDouble (75 / 100))).round,
    originalCO2 := currentCO2.round,
    optimizedCO2 := optimizedCO2.round,
    co2Savings := savings.round,
    costSavings := (savings.mul (roundDouble (25 / 10))).round,
    timeSaved := "0.5-1 day",
    efficiency := ((savings.div currentCO2).mul (JSNum.fin 100)).round,
    stops := locations,
    recommendations := generateRouteRecommendations locations }

/-- The call `Math.ceil(x)`. -/
def JSNum.ceil : JSNum → JSNum
  | JSNum.fin q => JSNum.fin (⌈q⌉ : ℤ)
  | JSNum.inf s => JSNum.inf s
  | JSNum.nan => JSNum.nan

/-- An integer-valued number inside a template literal: its decimal digits,
with a minus sign when negative. -/
def intToString (z : ℤ) : String :=
  if z < 0 then "-" ++ Nat.repr z.natAbs else Nat.repr z.toNat

/-- One entry of the `consolidationOptions` array. -/
structure ConsolidationOption where
  type : String
  description : String
  savings : String
  shipments : JSNum
  timeline : String
  deriving DecidableEq

/-- The function `findConsolidationOpportunities`. -/
def findConsolidationOpportunities (locations : List String) : List ConsolidationOption :=
  [ { type := "Regional Grouping",
      description := "Group " ++ intToString ((locations.length : ℤ) - 1) ++
        " destinations by region",
      savings := "25% cost reduction, 30% CO₂ reduction",
      shipments := ((JSNum.fin locations.length).divExact (JSNum.fin 2)).ceil,
      timeline := "Add 1 day for consolidation" },
    { type := "Carrier Partnership",
      description := "Partner with other shippers for shared routes",
      savings := "40% cost reduction, 35% CO₂ reduction",
      shipments := JSNum.fin 1,
      timeline := "Add 2-3 days for coordination" } ]

/-! ## POST /api/optimize-route -/

/-- The code points that `String.prototype.trim` strips: the ECMAScript
white space characters and line terminators. -/
def trimCodePoints : List Nat :=
  [ 0x09, 0x0A, 0x0B, 0x0C, 0x0D, 0x20, 0xA0, 0x1680,
    0x2000, 0x2001, 0x2002, 0x2003, 0x2004, 0x2005, 0x2006, 0x2007, 0x2008, 0x2009, 0x200A,
    0x2028, 0x2029, 0x202F, 0x205F, 0x3000, 0xFEFF ]

/-- Whether `trim` strips the character. -/
def isTrimChar (c : Char) : Bool := decide (c.toNat ∈ trimCodePoints)

/-- The call `s.trim()` on character lists. -/
def trimChars (cs : List Char) : List Char :=
  ((cs.dropWhile isTrimChar).reverse.dropWhile isTrimChar).reverse

/-- The call `s.trim()`. -/
def trim (s : String) : String := String.mk (trimChars s.data)

/-- An element of the `destinations` array as JSON delivers it; `compound`
is an array or an object. -/
inductive JsonEntry where
  | null
  | bool (b : Bool)
  | number (q : ℚ)
  | string (s : String)
  | compound
  deriving DecidableEq

/-- Truthiness of an array element. -/
def JsonEntry.truthy : JsonEntry → Bool
  | .null => false
  | .bool b => b
  | .number q => decide (q ≠ 0)
  | .string s => decide (s ≠ "")
  | .compound => true

/-- The call `destinations.filter(dest => dest && dest.trim())`. A falsy
element is dropped; a string is kept, as it is, when its trimmed form is not
empty; on any other truthy element `dest.trim` is not a function and the
call throws (`Except.error`). -/
def filterDestinations : List JsonEntry → Except Unit (List String)
  | [] => .ok []
  | .string s :: rest =>
    if s ≠ "" ∧ trim s ≠ "" then
      match filterDestinations rest with
      | .ok kept => .ok (s :: kept)
      | .error e => .error e
    else filterDestinations rest
  | dest :: rest =>
    if dest.truthy then .error () else filterDestinations rest

/-- The field `destinations` of a request: an array, or some other JSON value. -/
inductive DestinationsField where
  | list (items : List JsonEntry)
  | notList

/-- Body of an optimize-route request. -/
structure RouteRequest where
  origin : Option String
  destinations : Option DestinationsField

/-- Body of a successful optimize-route response. -/
structure RouteResult where
  optimizedRoute : RouteAnalysis
  consolidationOptions : List ConsolidationOption
  totalLocations : Nat
  deriving DecidableEq

/-- The handler of `POST /api/optimize-route`. -/
def optimizeRoute (req : RouteRequest) : Response RouteResult :=
  match req.origin, req.destinations with
  | some origin, some (.list destinations) =>
    if origin = "" then
      .badRequest "Missing required fields: origin, destinations (array)"
    else
      match filterDestinations destinations with
      | .error _ => .serverError "Internal server error during route optimization"
      | .ok validDestinations =>
        let allLocations := origin :: validDestinations
        .ok { optimizedRoute := analyzeRoutes allLocations,
              consolidationOptions := findConsolidationOpportunities allLocations,
              totalLocations := allLocations.length }
  | _, _ => .badRequest "Missing required fields: origin, destinations (array)"

/-! ## Rounding as the specification words it -/

/-- The specification's `round`: nearest integer, halves up. -/
def specRound (x : ℚ) : ℤ := ⌊x + 1 / 2⌋

/-- The specification's `round2`: nearest multiple of `1/100`, halves up. -/
def round2 (x : ℚ) : ℚ := (⌊x * 100 + 1 / 2⌋ : ℤ) / 100

/-! ## Lemmas -/

theorem roundHalfEven_eq (x : ℚ) (m : ℤ) (h1 : (m : ℚ) - 1 / 2 < x) (h2 : x < m + 1 / 2) :
    roundHalfEven x = m := by
  have hf : ⌊x + 1 / 2⌋ = m := by
    rw [Int.floor_eq_iff]
    constructor <;> linarith
  unfold roundHalfEven
  rw [hf, if_neg]
  rintro ⟨h, _⟩
  linarith

theorem roundHalfEven_le_floor (x : ℚ) : roundHalfEven x ≤ ⌊x + 1 / 2⌋ := by
  unfold roundHalfEven
  split_ifs <;> omega

theorem roundHalfEven_nonneg {x : ℚ} (hx : 0 ≤ x) : 0 ≤ roundHalfEven x := by
  have hf : 0 ≤ ⌊x + 1 / 2⌋ := Int.floor_nonneg.mpr (by linarith)
  unfold roundHalfEven
  split_ifs with h
  · obtain ⟨_, hodd⟩ := h
    omega
  · exact hf

theorem roundHalfEven_le {x : ℚ} {n : ℤ} (hx : x ≤ n) : roundHalfEven x ≤ n := by
  have h : ⌊x + 1 / 2⌋ < n + 1 := by
    rw [Int.floor_lt]
    push_cast
    linarith
  have := roundHalfEven_le_floor x
  omega

theorem binade_eq (q : ℚ) (e : ℤ) (he : -1022 ≤ e) (hq : 0 < q)
    (hlo : (2 : ℚ) ^ e ≤ q ∨ e = -1022) (hhi : q < 2 ^ (e + 1)) : binade q = e := by
  unfold binade
  rw [abs_of_pos hq]
  have hlog : Int.log 2 q < e + 1 := by
    rw [← Int.lt_zpow_iff_log_lt (by norm_num) hq]
    exact_mod_cast hhi
  rcases hlo with h | h
  · have : e ≤ Int.log 2 q := by
      rw [← Int.zpow_le_iff_le_log (by norm_num) hq]
      exact_mod_cast h
    rw [max_eq_left (by omega)]
    omega
  · subst h
    apply le_antisymm
    · exact max_le (by omega) le_rfl
    · exact le_max_right _ _

theorem roundDouble_eq (q : ℚ) (e m : ℤ) (u r : ℚ) (hu : u = 2 ^ (e - 52)) (hr : r = m * u)
    (he : -1022 ≤ e) (hm : 0 ≤ m) (hq : 0 < q) (hlo : (2 : ℚ) ^ e ≤ q ∨ e = -1022)
    (hhi : q < 2 ^ (e + 1)) (h1 : ((m : ℚ) - 1 / 2) * u < q) (h2 : q < (m + 1 / 2) * u)
    (hfin : r < 2 ^ 1024) : roundDouble q = JSNum.fin r := by
  have hb := binade_eq q e he hq hlo hhi
  have hupos : 0 < u := by rw [hu]; positivity
  have hround : roundHalfEven (q / u) = m := by
    apply roundHalfEven_eq
    · rw [lt_div_iff₀ hupos]; exact h1
    · rw [div_lt_iff₀ hupos]; exact h2
  have hr0 : 0 ≤ r := by
    rw [hr]
    exact mul_nonneg (by exact_mod_cast hm) hupos.le
  unfold roundDouble
  simp only [hb, ← hu, hround, ← hr]
  rw [if_neg]
  rw [abs_of_nonneg hr0]
  exact not_le.mpr hfin

theorem roundDouble_zero : roundDouble 0 = JSNum.fin 0 := by
  have h : roundHalfEven 0 = 0 := roundHalfEven_eq 0 0 (by norm_num) (by norm_num)
  simp [roundDouble, h]

theorem roundDouble_nonNeg {q : ℚ} (hq : 0 ≤ q) : (roundDouble q).NonNeg := by
  have hu : (0 : ℚ) < 2 ^ (binade q - 52) := by positivity
  have hz : 0 ≤ roundHalfEven (q / 2 ^ (binade q - 52)) :=
    roundHalfEven_nonneg (div_nonneg hq hu.le)
  have hr : (0 : ℚ) ≤ roundHalfEven (q / 2 ^ (binade q - 52)) * 2 ^ (binade q - 52) :=
    mul_nonneg (by exact_mod_cast hz) hu.le
  unfold roundDouble
  simp only
  split_ifs
  · simp only [JSNum.NonNeg, decide_eq_false_iff_not, not_lt]
    exact hr
  · exact hr

theorem mul_fin_nonneg {a b : JSNum} {e : ℚ} (ha : a.NonNeg) (hb : b.NonNeg)
    (h : a.mul b = JSNum.fin e) : 0 ≤ e := by
  cases a with
  | nan => exact absurd ha (by simp [JSNum.NonNeg])
  | inf s =>
    cases b with
    | nan => exact absurd hb (by simp [JSNum.NonNeg])
    | inf t => simp [JSNum.mul] at h
    | fin y =>
      by_cases hy : y = 0
      · simp [JSNum.mul, hy] at h
      · simp [JSNum.mul, hy] at h
  | fin x =>
    cases b with
    | nan => exact absurd hb (by simp [JSNum.NonNeg])
    | inf t =>
      by_cases hx : x = 0
      · simp [JSNum.mul, hx] at h
      · simp [JSNum.mul, hx] at h
    | fin y =>
      have hxy : 0 ≤ x * y := mul_nonneg ha hb
      have hn := roundDouble_nonNeg hxy
      simp only [JSNum.mul] at h
      rw [h] at hn
      exact hn

theorem binade_le_zero {q : ℚ} (hq0 : 0 < q) (hq1 : q ≤ 1) : binade q ≤ 0 := by
  unfold binade
  rw [abs_of_pos hq0]
  have hlog : Int.log 2 q < 0 + 1 := by
    rw [← Int.lt_zpow_iff_log_lt (by norm_num) hq0]
    norm_num
    linarith
  exact max_le (by omega) (by norm_num)

theorem max_one_roundDouble {q : ℚ} (hq : q ≤ 1) :
    JSNum.max (JSNum.fin 1) (roundDouble q) = JSNum.fin 1 := by
  have hu : (0 : ℚ) < 2 ^ (binade q - 52) := by positivity
  have hr : (roundHalfEven (q / 2 ^ (binade q - 52)) : ℚ) * 2 ^ (binade q - 52) ≤ 1 := by
    by_cases hq0 : q ≤ 0
    · have hz : roundHalfEven (q / 2 ^ (binade q - 52)) ≤ 0 :=
        roundHalfEven_le (by
          push_cast
          exact div_nonpos_of_nonpos_of_nonneg hq0 hu.le)
      have hzq : (roundHalfEven (q / 2 ^ (binade q - 52)) : ℚ) ≤ 0 := by exact_mod_cast hz
      have := mul_nonpos_of_nonpos_of_nonneg hzq hu.le
      linarith
    · have hq0 : 0 < q := lt_of_not_le hq0
      have hb : binade q ≤ 0 := binade_le_zero hq0 hq
      obtain ⟨k, hk⟩ : ∃ k : ℕ, (52 : ℤ) - binade q = k := ⟨(52 - binade q).toNat, by omega⟩
      have hinv : ((2 : ℚ) ^ (binade q - 52))⁻¹ = (((2 : ℤ) ^ k : ℤ) : ℚ) := by
        rw [← zpow_neg, neg_sub, hk, zpow_natCast]
        push_cast
        rfl
      have hdiv : q / 2 ^ (binade q - 52) ≤ (((2 : ℤ) ^ k : ℤ) : ℚ) := by
        rw [div_eq_mul_inv, hinv]
        have hpos : (0 : ℚ) ≤ (((2 : ℤ) ^ k : ℤ) : ℚ) := by positivity
        calc q * (((2 : ℤ) ^ k : ℤ) : ℚ) ≤ 1 * (((2 : ℤ) ^ k : ℤ) : ℚ) :=
              mul_le_mul_of_nonneg_right hq hpos
          _ = _ := one_mul _
      have hz := roundHalfEven_le hdiv
      have hzq : (roundHalfEven (q / 2 ^ (binade q - 52)) : ℚ) ≤ (((2 : ℤ) ^ k : ℤ) : ℚ) := by
        exact_mod_cast hz
      calc (roundHalfEven (q / 2 ^ (binade q - 52)) : ℚ) * 2 ^ (binade q - 52)
          ≤ (((2 : ℤ) ^ k : ℤ) : ℚ) * 2 ^ (binade q - 52) :=
            mul_le_mul_of_nonneg_right hzq hu.le
        _ = 1 := by rw [← hinv]; exact inv_mul_cancel₀ hu.ne'
  unfold roundDouble
  simp only
  split_ifs with hbig
  · have hneg : (roundHalfEven (q / 2 ^ (binade q - 52)) : ℚ) * 2 ^ (binade q - 52) < 0 := by
      by_contra hnn
      rw [abs_of_nonneg (not_lt.mp hnn)] at hbig
      have : (1 : ℚ) < 2 ^ 1024 := by norm_num
      linarith
    simp [hneg, JSNum.max]
  · simp [JSNum.max, hr]

theorem fixedScaled_of_nonneg (f : Nat) {q : ℚ} (hq : 0 ≤ q) :
    ((fixedScaled f q : ℕ) : ℚ) = ((⌊q * 10 ^ f + 1 / 2⌋ : ℤ) : ℚ) := by
  unfold fixedScaled
  rw [abs_of_nonneg hq]
  have h0 : (0 : ℤ) ≤ ⌊q * 10 ^ f + 1 / 2⌋ := by
    apply Int.floor_nonneg.mpr
    positivity
  have h := Int.toNat_of_nonneg h0
  exact_mod_cast congrArg (fun z : ℤ => (z : ℚ)) h

theorem fixedScaled_eq (f : Nat) {q : ℚ} (n : ℕ) (hq : 0 ≤ q)
    (hlo : (n : ℚ) ≤ q * 10 ^ f + 1 / 2) (hhi : q * 10 ^ f + 1 / 2 < n + 1) :
    fixedScaled f q = n := by
  have h : ⌊q * 10 ^ f + 1 / 2⌋ = (n : ℤ) := by
    rw [Int.floor_eq_iff]
    exact ⟨by exact_mod_cast hlo, by exact_mod_cast hhi⟩
  unfold fixedScaled
  rw [abs_of_nonneg hq, h, Int.toNat_ofNat]

theorem parseFloatToFixed_two_of_nonneg {q : ℚ} (hq : 0 ≤ q) (hlt : q < 10 ^ 21) :
    parseFloatToFixed 2 (JSNum.fin q) = roundDouble (round2 q) := by
  have habs : ¬ (10 : ℚ) ^ 21 ≤ |q| := by
    rw [abs_of_nonneg hq]
    exact not_le.mpr hlt
  simp only [parseFloatToFixed, round2, if_neg habs, if_neg (not_lt.mpr hq),
    fixedScaled_of_nonneg 2 hq]
  norm_num

theorem parseFloatToFixed_of_large (f : Nat) {q : ℚ} (h : 10 ^ 21 ≤ q) :
    parseFloatToFixed f (JSNum.fin q) = JSNum.fin q := by
  have habs : (10 : ℚ) ^ 21 ≤ |q| := h.trans (le_abs_self q)
  simp only [parseFloatToFixed, if_pos habs]

theorem lookupFactor_of_mem {mode fuel : String} {table : List (String × ℚ)} {factor : ℚ}
    (hm : (mode, table) ∈ emissionFactors) (hf : (fuel, factor) ∈ table) :
    lookupFactor mode fuel = .ok (.number factor) ∧ 0 < factor ∧ mode ≠ "" ∧ fuel ≠ "" := by
  simp only [emissionFactors, List.mem_cons, Prod.mk.injEq, List.mem_singleton,
    List.not_mem_nil, or_false] at hm
  rcases hm with ⟨rfl, rfl⟩ | ⟨rfl, rfl⟩ | ⟨rfl, rfl⟩ | ⟨rfl, rfl⟩
  · simp only [List.mem_cons, Prod.mk.injEq, List.not_mem_nil, or_false] at hf
    rcases hf with ⟨rfl, rfl⟩ | ⟨rfl, rfl⟩ | ⟨rfl, rfl⟩ <;>
    exact ⟨rfl, by norm_num, by decide, by decide⟩
  · simp only [List.mem_cons, Prod.mk.injEq, List.not_mem_nil, or_false] at hf
    rcases hf with ⟨rfl, rfl⟩ | ⟨rfl, rfl⟩ <;>
    exact ⟨rfl, by norm_num, by decide, by decide⟩
  · simp only [List.mem_cons, Prod.mk.injEq, List.not_mem_nil, or_false] at hf
    rcases hf with ⟨rfl, rfl⟩ | ⟨rfl, rfl⟩ <;>
    exact ⟨rfl, by norm_num, by decide, by decide⟩
  · simp only [List.mem_cons, Prod.mk.injEq, List.not_mem_nil, or_false] at hf
    rcases hf with ⟨rfl, rfl⟩ | ⟨rfl, rfl⟩ <;>
    exact ⟨rfl, by norm_num, by decide, by decide⟩

theorem packagingRecommendations_accepted (dimensions : Dimensions) (weight : ℚ)
    (itemType fragility : String) (hw : weight ≠ 0) (hi : itemType ≠ "")
    (hfr : fragility ≠ "") :
    packagingRecommendations
        { dimensions := some dimensions, weight := some weight,
          itemType := some itemType, fragility := some fragility } =
      .ok { recommendations :=
              (sortByScore (scored itemType (dimensionsVolume dimensions)
                (JSNum.fin weight) fragility)).take 3,
            volume := (dimensionsVolume dimensions).round } := by
  simp [packagingRecommendations, hw, hi, hfr]

theorem mem_scored_bestFor {itemType : String} {volume weight : JSNum} {fragility : String}
    {r : ScoredOption} (hr : r ∈ scored itemType volume weight fragility) :
    itemType ∈ r.bestFor := by
  simp only [scored, suitable, List.mem_map, List.mem_filter, decide_eq_true_eq] at hr
  obtain ⟨entry, ⟨_, hmem⟩, rfl⟩ := hr
  exact hmem

theorem scored_key_sublist (itemType : String) (volume weight : JSNum) (fragility : String) :
    List.Sublist ((scored itemType volume weight fragility).map (fun r => r.key))
      (packagingOptions.map Prod.fst) := by
  have h : (scored itemType volume weight fragility).map (fun r => r.key) =
      (suitable itemType).map Prod.fst := by
    simp [scored, Function.comp_def]
  rw [h]
  exact (List.filter_sublist _).map _

theorem sortByScore_filter_score (l : List ScoredOption) (s : Nat) :
    (sortByScore l).filter (fun r => decide (r.score = s)) =
      l.filter (fun r => decide (r.score = s)) := by
  have hpair : (l.filter (fun r => decide (r.score = s))).Pairwise scoreOrder := by
    rw [List.pairwise_iff_forall_sublist]
    intro a b hab
    have ha : a ∈ l.filter (fun r => decide (r.score = s)) := hab.subset (by simp)
    have hb : b ∈ l.filter (fun r => decide (r.score = s)) := hab.subset (by simp)
    simp only [List.mem_filter, decide_eq_true_eq] at ha hb
    show b.score ≤ a.score
    omega
  have hsub : List.Sublist (l.filter (fun r => decide (r.score = s))) (sortByScore l) :=
    List.sublist_insertionSort hpair (List.filter_sublist l)
  have hsub2 := hsub.filter (fun r => decide (r.score = s))
  rw [List.filter_filter] at hsub2
  simp only [Bool.and_self] at hsub2
  have hlen : ((sortByScore l).filter (fun r => decide (r.score = s))).length =
      (l.filter (fun r => decide (r.score = s))).length :=
    ((List.perm_insertionSort scoreOrder l).filter _).length_eq
  exact (hsub2.eq_of_length hlen.symm).symm

theorem includes_table_names {key : String} {option : PackagingOption}
    (h : (key, option) ∈ packagingOptions) :
    (includes option.name "Mushroom" = true ↔ option.name = "Mushroom Packaging") ∧
    (includes option.name "Cardboard" = true ↔ option.name = "Recycled Cardboard") := by
  simp only [packagingOptions, List.mem_cons, Prod.mk.injEq, List.not_mem_nil, or_false] at h
  rcases h with ⟨rfl, rfl⟩ | ⟨rfl, rfl⟩ | ⟨rfl, rfl⟩ | ⟨rfl, rfl⟩ | ⟨rfl, rfl⟩ <;>
  exact ⟨by decide, by decide⟩

theorem baseCosts_table {key : String} {option : PackagingOption}
    (h : (key, option) ∈ packagingOptions) :
    (option.cost = "Low" ∧ baseCosts option.cost = JSNum.fin 2) ∨
    (option.cost = "Medium" ∧ baseCosts option.cost = JSNum.fin 5) ∨
    (option.cost = "High" ∧ baseCosts option.cost = JSNum.fin 12) := by
  simp only [packagingOptions, List.mem_cons, Prod.mk.injEq, List.not_mem_nil, or_false] at h
  rcases h with ⟨rfl, rfl⟩ | ⟨rfl, rfl⟩ | ⟨rfl, rfl⟩ | ⟨rfl, rfl⟩ | ⟨rfl, rfl⟩
  · exact Or.inl ⟨rfl, rfl⟩
  · exact Or.inr (Or.inl ⟨rfl, rfl⟩)
  · exact Or.inr (Or.inr ⟨rfl, rfl⟩)
  · exact Or.inl ⟨rfl, rfl⟩
  · exact Or.inr (Or.inl ⟨rfl, rfl⟩)

theorem toFixed_two_base :
    toFixed 2 (JSNum.fin 2) = "2.00" ∧ toFixed 2 (JSNum.fin 5) = "5.00" ∧
      toFixed 2 (JSNum.fin 12) = "12.00" := by
  have h2 : fixedScaled 2 2 = 200 := fixedScaled_eq 2 200 (by norm_num) (by norm_num) (by norm_num)
  have h5 : fixedScaled 2 5 = 500 := fixedScaled_eq 2 500 (by norm_num) (by norm_num) (by norm_num)
  have h12 : fixedScaled 2 12 = 1200 :=
    fixedScaled_eq 2 1200 (by norm_num) (by norm_num) (by norm_num)
  have r2 : renderFixed 2 200 = "2.00" := by decide
  have r5 : renderFixed 2 500 = "5.00" := by decide
  have r12 : renderFixed 2 1200 = "12.00" := by decide
  have a2 : ¬ (10 : ℚ) ^ 21 ≤ |2| := by rw [abs_of_nonneg (by norm_num)]; norm_num
  have a5 : ¬ (10 : ℚ) ^ 21 ≤ |5| := by rw [abs_of_nonneg (by norm_num)]; norm_num
  have a12 : ¬ (10 : ℚ) ^ 21 ≤ |12| := by rw [abs_of_nonneg (by norm_num)]; norm_num
  refine ⟨?_, ?_, ?_⟩
  · simp only [toFixed, if_neg a2, h2, r2]; norm_num
  · simp only [toFixed, if_neg a5, h5, r5]; norm_num
  · simp only [toFixed, if_neg a12, h12, r12]; norm_num

theorem sortByScore_pair_key_sublist (itemType : String) (volume weight : JSNum)
    (fragility : String) {a b : ScoredOption}
    (hab : List.Sublist [a, b] (sortByScore (scored itemType volume weight fragility)))
    (hs : a.score = b.score) :
    List.Sublist [a.key, b.key] (packagingOptions.map Prod.fst) := by
  have h1 := hab.filter (fun r => decide (r.score = a.score))
  rw [sortByScore_filter_score] at h1
  have h2 : [a, b].filter (fun r => decide (r.score = a.score)) = [a, b] := by
    simp [hs]
  rw [h2] at h1
  have h3 := (h1.trans (List.filter_sublist _)).map (fun r => r.key)
  exact h3.trans (scored_key_sublist itemType volume weight fragility)

theorem floor_intCast_add_half (z : ℤ) : ⌊(z : ℚ) + 1 / 2⌋ = z := by
  rw [Int.floor_eq_iff]
  constructor <;> linarith

theorem trim_empty : trim "" = "" := by decide

theorem filterDestinations_strings (ds : List String) :
    filterDestinations (ds.map JsonEntry.string) =
      .ok (ds.filter (fun d => decide (trim d ≠ ""))) := by
  induction ds with
  | nil => rfl
  | cons d rest ih =>
    by_cases h : trim d = ""
    · simp [filterDestinations, ih, h]
    · have hd : d ≠ "" := fun hd => h (by rw [hd]; exact trim_empty)
      simp [filterDestinations, ih, h, hd]

theorem filterDestinations_ok (items : List JsonEntry)
    (h : ∀ e ∈ items, e.truthy = true → ∃ s, e = JsonEntry.string s) :
    ∃ kept, filterDestinations items = .ok kept := by
  induction items with
  | nil => exact ⟨[], rfl⟩
  | cons e rest ih =>
    obtain ⟨kept, hk⟩ := ih (fun e he => h e (List.mem_cons_of_mem _ he))
    cases e with
    | string s =>
      by_cases hs : s ≠ "" ∧ trim s ≠ ""
      · exact ⟨s :: kept, by simp [filterDestinations, hs, hk]⟩
      · exact ⟨kept, by simp only [filterDestinations, if_neg hs, hk]⟩
    | null => exact ⟨kept, by simp [filterDestinations, JsonEntry.truthy, hk]⟩
    | bool b =>
      cases b with
      | false => exact ⟨kept, by simp [filterDestinations, JsonEntry.truthy, hk]⟩
      | true =>
        obtain ⟨s, hs⟩ := h (.bool true) (List.mem_cons_self _ _) rfl
        cases hs
    | number q =>
      by_cases hq : q = 0
      · exact ⟨kept, by simp [filterDestinations, JsonEntry.truthy, hk, hq]⟩
      · obtain ⟨s, hs⟩ := h (.number q) (List.mem_cons_self _ _)
          (by simp [JsonEntry.truthy, hq])
        cases hs
    | compound =>
      obtain ⟨s, hs⟩ := h .compound (List.mem_cons_self _ _) rfl
      cases hs

theorem optimizeRoute_of_filter (origin : String) (items : List JsonEntry)
    (kept : List String) (ho : origin ≠ "") (hk : filterDestinations items = .ok kept) :
    optimizeRoute { origin := some origin, destinations := some (.list items) } =
      .ok { optimizedRoute := analyzeRoutes (origin :: kept),
            consolidationOptions := findConsolidationOpportunities (origin :: kept),
            totalLocations := (origin :: kept).length } := by
  simp [optimizeRoute, ho, hk]

theorem analyzeRoutes_of_ne_nil (locations : List String) (h : locations ≠ []) :
    (analyzeRoutes locations).originalCO2 = JSNum.fin (128 * (locations.length : ℚ)) ∧
    (128 * (locations.length : ℚ)) ≠ 0 ∧
    (analyzeRoutes locations).efficiency = JSNum.fin 25 := by
  have hlen : 0 < locations.length := List.length_pos.mpr h
  have hn : (0 : ℚ) < (locations.length : ℚ) := by exact_mod_cast hlen
  have hcur : (locations.length : ℚ) * 800 * (16 / 100) ≠ 0 := by positivity
  refine ⟨?_, by positivity, ?_⟩
  · have hq : (locations.length : ℚ) * 800 * (16 / 100) =
        (((128 * (locations.length : ℤ)) : ℤ) : ℚ) := by
      push_cast; ring
    simp only [analyzeRoutes, JSNum.mulExact, JSNum.round, hq, floor_intCast_add_half]
    push_cast; rfl
  · have hq : ((locations.length : ℚ) * 800 * (16 / 100) -
        (locations.length : ℚ) * 800 * (16 / 100) * (75 / 100)) /
        ((locations.length : ℚ) * 800 * (16 / 100)) * 100 = ((25 : ℤ) : ℚ) := by
      field_simp; ring
    simp only [analyzeRoutes, JSNum.mulExact, JSNum.subExact, JSNum.divExact, JSNum.round,
      if_neg hcur, hq, floor_intCast_add_half]
    push_cast; rfl

theorem ceil_half_natCast (n : ℕ) : ⌈(n : ℚ) / 2⌉ = (((n + 1) / 2 : ℕ) : ℤ) := by
  have h1 : 2 * ((n + 1) / 2) ≤ n + 1 := by omega
  have h2 : n ≤ 2 * ((n + 1) / 2) := by omega
  generalize (n + 1) / 2 = k at h1 h2
  have h1q : (2 : ℚ) * (k : ℚ) ≤ (n : ℚ) + 1 := by exact_mod_cast h1
  have h2q : (n : ℚ) ≤ 2 * (k : ℚ) := by exact_mod_cast h2
  rw [Int.ceil_eq_iff]
  constructor
  · rw [Int.cast_natCast]
    linarith
  · rw [Int.cast_natCast]
    linarith

theorem toFixed_eq (f : Nat) {q : ℚ} (n : ℕ) (hq : 0 ≤ q) (hlt : q < 10 ^ 21)
    (hlo : (n : ℚ) ≤ q * 10 ^ f + 1 / 2) (hhi : q * 10 ^ f + 1 / 2 < n + 1) :
    toFixed f (JSNum.fin q) = renderFixed f n := by
  have habs : ¬ (10 : ℚ) ^ 21 ≤ |q| := by
    rw [abs_of_nonneg hq]
    exact not_le.mpr hlt
  simp only [toFixed, if_neg habs, if_neg (not_lt.mpr hq), fixedScaled_eq f n hq hlo hhi]

theorem calculateCarbon_of_mem_ne (distance weight : ℚ) (mode fuel : String)
    (table : List (String × ℚ)) (factor : ℚ) (hd : distance ≠ 0) (hw : weight ≠ 0)
    (hm : (mode, table) ∈ emissionFactors) (hf : (fuel, factor) ∈ table) :
    calculateCarbon
        { distance := some distance, weight := some weight,
          transportMode := some mode, fuelType := some fuel } =
      .ok { carbonFootprint := parseFloatToFixed 2
              (((JSNum.fin distance).mul (JSNum.fin weight)).mul (roundDouble factor)),
            carEquivalent :=
              ((((JSNum.fin distance).mul (JSNum.fin weight)).mul (roundDouble factor)).div
                (roundDouble (404 / 1000))).round,
            suggestions := generateCarbonSuggestions
              (((JSNum.fin distance).mul (JSNum.fin weight)).mul (roundDouble factor))
              mode (JSNum.fin distance) (JSNum.fin weight) } := by
  obtain ⟨hl, hpos, hmode, hfuel⟩ := lookupFactor_of_mem hm hf
  simp [calculateCarbon, hl, hd, hw, hmode, hfuel, hpos.ne', JSVal.truthy, JSVal.toNumber]

theorem generateCarbonSuggestions_cons (emissions distance weight : JSNum) (mode : String)
    (hmode : mode = "truck" ∨ mode = "air") :
    ∃ s rest, generateCarbonSuggestions emissions mode distance weight = s :: rest ∧
      s.type = (if mode = "truck" then "Vehicle Type" else "Transport Mode") ∧
      s.reduction =
        toFixed 1 (((emissions.sub ((distance.mul weight).mul
          (roundDouble (if mode = "truck" then 53 / 1000 else 14 / 1000)))).div
            emissions).mul (JSNum.fin 100)) ++ "% reduction" := by
  rcases hmode with rfl | rfl
  · exact ⟨_, _, by simp [generateCarbonSuggestions]; exact ⟨rfl, rfl⟩, rfl, by simp⟩
  · exact ⟨_, _, by simp [generateCarbonSuggestions]; exact ⟨rfl, rfl⟩, rfl, by simp⟩

theorem generateCarbonSuggestions_getLast (emissions : JSNum) (mode : String)
    (distance weight : JSNum) :
    (generateCarbonSuggestions emissions mode distance weight).getLast? =
      some { type := "Route Optimization",
             suggestion := "Consolidate shipments and optimize routes",
             reduction := "15-25% potential reduction",
             newEmissions := toFixed 2 (emissions.mul (roundDouble (8 / 10))) } := by
  simp [generateCarbonSuggestions, List.getLast?_append]

theorem mul_fin (a b : ℚ) : (JSNum.fin a).mul (JSNum.fin b) = roundDouble (a * b) := rfl

theorem sub_fin (a b : ℚ) : (JSNum.fin a).sub (JSNum.fin b) = roundDouble (a - b) := rfl

theorem div_fin (a b : ℚ) (hb : b ≠ 0) :
    (JSNum.fin a).div (JSNum.fin b) = roundDouble (a / b) := by
  simp [JSNum.div, hb]

theorem suitable_length_le (itemType : String) : (suitable itemType).length ≤ 3 := by
  by_cases h1 : itemType = "electronics"
  · subst h1; decide
  by_cases h2 : itemType = "clothing"
  · subst h2; decide
  by_cases h3 : itemType = "documents"
  · subst h3; decide
  by_cases h4 : itemType = "food"
  · subst h4; decide
  by_cases h5 : itemType = "cosmetics"
  · subst h5; decide
  by_cases h6 : itemType = "fragile"
  · subst h6; decide
  by_cases h7 : itemType = "luxury"
  · subst h7; decide
  by_cases h8 : itemType = "lightweight"
  · subst h8; decide
  by_cases h9 : itemType = "irregular"
  · subst h9; decide
  simp [suitable, packagingOptions, h1, h2, h3, h4, h5, h6, h7, h8, h9]

theorem suitable_electronics :
    suitable "electronics" =
      [packagingOptions.get ⟨0, by decide⟩, packagingOptions.get ⟨2, by decide⟩,
        packagingOptions.get ⟨4, by decide⟩] := rfl

theorem sorted_electronics_head (volume weight : JSNum) (fragility : String) :
    ((sortByScore (scored "electronics" volume weight fragility)).take 3).head?.map
        (fun r => r.name) =
      if volume.gt (JSNum.fin 1000) = true ∧ weight.gt (JSNum.fin 5) = true ∧
          fragility ≠ "high" then some "Recycled Cardboard"
      else some "Mushroom Packaging" := by
  have hm1 : includes "Recycled Cardboard" "Mushroom" = false := by decide
  have hm2 : includes "Recycled Cardboard" "Cardboard" = true := by decide
  have hm3 : includes "Mushroom Packaging" "Mushroom" = true := by decide
  have hm4 : includes "Mushroom Packaging" "Cardboard" = false := by decide
  have hm5 : includes "Cornstarch Packing Peanuts" "Mushroom" = false := by decide
  have hm6 : includes "Cornstarch Packing Peanuts" "Cardboard" = false := by decide
  by_cases hv : volume.gt (JSNum.fin 1000) = true <;>
  by_cases hw : weight.gt (JSNum.fin 5) = true <;>
  by_cases hf : fragility = "high" <;>
  simp [scored, suitable_electronics, packagingOptions, sortByScore, scoreOrder,
    calculatePackagingScore, hm1, hm2, hm3, hm4, hm5, hm6, hv, hw, hf]

theorem roundHalfEven_tie (x : ℚ) (m k : ℤ) (hx : x = k + 1 / 2) (hpar : m % 2 = 0)
    (hmk : m = k ∨ m = k + 1) : roundHalfEven x = m := by
  have hf : ⌊x + 1 / 2⌋ = k + 1 := by
    rw [Int.floor_eq_iff, hx]
    push_cast
    constructor <;> linarith
  have hint : x + 1 / 2 = ((k + 1 : ℤ) : ℚ) := by
    rw [hx]; push_cast; ring
  unfold roundHalfEven
  rw [hf]
  rcases hmk with h | h
  · rw [if_pos ⟨hint, by omega⟩]
    omega
  · rw [if_neg (fun hc => hc.2 (by omega))]
    omega

theorem roundDouble_eq_tie (q : ℚ) (e m k : ℤ) (u r : ℚ) (hu : u = 2 ^ (e - 52))
    (hr : r = m * u) (he : -1022 ≤ e) (hm : 0 ≤ m) (hq : 0 < q)
    (hlo : (2 : ℚ) ^ e ≤ q ∨ e = -1022) (hhi : q < 2 ^ (e + 1))
    (htie : q = (k + 1 / 2) * u) (hpar : m % 2 = 0) (hmk : m = k ∨ m = k + 1)
    (hfin : r < 2 ^ 1024) : roundDouble q = JSNum.fin r := by
  have hb := binade_eq q e he hq hlo hhi
  have hupos : 0 < u := by rw [hu]; positivity
  have hround : roundHalfEven (q / u) = m := by
    apply roundHalfEven_tie _ m k _ hpar hmk
    rw [htie, mul_div_assoc, div_self hupos.ne', mul_one]
  have hr0 : 0 ≤ r := by
    rw [hr]
    exact mul_nonneg (by exact_mod_cast hm) hupos.le
  unfold roundDouble
  simp only [hb, ← hu, hround, ← hr]
  rw [if_neg]
  rw [abs_of_nonneg hr0]
  exact not_le.mpr hfin

theorem dimensionsVolume_ten_ten_twenty :
    dimensionsVolume { length := some 10, width := some 10, height := some 20 } =
      JSNum.fin 2000 := by
  have h1 : roundDouble (10 * 10) =
      JSNum.fin 100 :=
    roundDouble_eq _ (6) 7036874417766400 (1 / 2 ^ 46) _ (by norm_num) (by norm_num)
      (by norm_num) (by norm_num) (by norm_num) (Or.inl (by norm_num)) (by norm_num)
      (by norm_num) (by norm_num) (by norm_num)
  have h2 : (JSNum.fin 10).mul (JSNum.fin 10) =
      JSNum.fin 100 := by
    rw [mul_fin, h1]
  have h3 : roundDouble (100 * 20) =
      JSNum.fin 2000 :=
    roundDouble_eq _ (10) 8796093022208000 (1 / 2 ^ 42) _ (by norm_num) (by norm_num)
      (by norm_num) (by norm_num) (by norm_num) (Or.inl (by norm_num)) (by norm_num)
      (by norm_num) (by norm_num) (by norm_num)
  have h4 : (JSNum.fin 100).mul (JSNum.fin 20) =
      JSNum.fin 2000 := by
    rw [mul_fin, h3]
  simp only [dimensionsVolume, dimensionValue, h2, h4]

theorem mul_nan_right (a : JSNum) : a.mul JSNum.nan = JSNum.nan := by
  cases a <;> rfl

theorem nan_mul (b : JSNum) : JSNum.nan.mul b = JSNum.nan := by
  cases b <;> rfl

theorem calculatePackagingCost_nan (option : PackagingOption) (weight : JSNum) :
    calculatePackagingCost option JSNum.nan weight = "NaN" := by
  have hd : JSNum.nan.div (JSNum.fin 1000) = JSNum.nan := rfl
  have hmax : JSNum.max (JSNum.fin 1) JSNum.nan = JSNum.nan := rfl
  simp only [calculatePackagingCost, hd, hmax, mul_nan_right, nan_mul]
  rfl

theorem roundDouble_base :
    roundDouble 2 = JSNum.fin 2 ∧ roundDouble 5 = JSNum.fin 5 ∧
      roundDouble 12 = JSNum.fin 12 := by
  have h1 : roundDouble (2) =
      JSNum.fin 2 :=
    roundDouble_eq _ (1) 4503599627370496 (1 / 2 ^ 51) _ (by norm_num) (by norm_num)
      (by norm_num) (by norm_num) (by norm_num) (Or.inl (by norm_num)) (by norm_num)
      (by norm_num) (by norm_num) (by norm_num)
  have h2 : roundDouble (5) =
      JSNum.fin 5 :=
    roundDouble_eq _ (2) 5629499534213120 (1 / 2 ^ 50) _ (by norm_num) (by norm_num)
      (by norm_num) (by norm_num) (by norm_num) (Or.inl (by norm_num)) (by norm_num)
      (by norm_num) (by norm_num) (by norm_num)
  have h3 : roundDouble (12) =
      JSNum.fin 12 :=
    roundDouble_eq _ (3) 6755399441055744 (1 / 2 ^ 49) _ (by norm_num) (by norm_num)
      (by norm_num) (by norm_num) (by norm_num) (Or.inl (by norm_num)) (by norm_num)
      (by norm_num) (by norm_num) (by norm_num)
  exact ⟨h1, h2, h3⟩

theorem max_fin (a b : ℚ) : JSNum.max (JSNum.fin a) (JSNum.fin b) = JSNum.fin (max a b) := rfl

/-- A dyadic rational `z / 2^k` with `z < 2^53` that is not subnormal is a
double. -/
theorem roundDouble_dyadic (z k : ℕ) (hz : z < 2 ^ 53) (hk : k ≤ 1022) :
    roundDouble ((z : ℚ) / 2 ^ k) = JSNum.fin ((z : ℚ) / 2 ^ k) := by
  rcases Nat.eq_zero_or_pos z with rfl | hpos
  · simp [roundDouble_zero]
  have hzq : (1 : ℚ) ≤ z := by exact_mod_cast hpos
  have hzlt : (z : ℚ) < 2 ^ 53 := by exact_mod_cast hz
  have hk0 : (0 : ℚ) < 2 ^ k := by positivity
  have hq : (0 : ℚ) < (z : ℚ) / 2 ^ k := by positivity
  have hlo : (2 : ℚ) ^ (Int.log 2 ((z : ℚ) / 2 ^ k)) ≤ (z : ℚ) / 2 ^ k := by
    exact_mod_cast Int.zpow_log_le_self (by norm_num : 1 < 2) hq
  have hhi : (z : ℚ) / 2 ^ k < (2 : ℚ) ^ (Int.log 2 ((z : ℚ) / 2 ^ k) + 1) := by
    exact_mod_cast Int.lt_zpow_succ_log_self (by norm_num : 1 < 2) ((z : ℚ) / 2 ^ k)
  have hL1 : -1022 ≤ Int.log 2 ((z : ℚ) / 2 ^ k) := by
    rw [← Int.zpow_le_iff_le_log (by norm_num) hq]
    have h1 : ((2 : ℕ) : ℚ) ^ (-1022 : ℤ) ≤ ((2 : ℕ) : ℚ) ^ (-(k : ℤ)) :=
      zpow_le_zpow_right₀ (by norm_num) (by omega)
    have h2 : ((2 : ℕ) : ℚ) ^ (-(k : ℤ)) ≤ (z : ℚ) / 2 ^ k := by
      rw [zpow_neg, zpow_natCast, div_eq_mul_inv]
      push_cast
      exact le_mul_of_one_le_left (by positivity) hzq
    exact h1.trans h2
  have hL2 : Int.log 2 ((z : ℚ) / 2 ^ k) < 53 - k := by
    rw [← Int.lt_zpow_iff_log_lt (by norm_num) hq]
    have h1 : ((2 : ℕ) : ℚ) ^ ((53 : ℤ) - k) = 2 ^ 53 / 2 ^ k := by
      rw [zpow_sub₀ (by norm_num)]
      norm_num
    rw [h1]
    exact div_lt_div_of_pos_right hzlt hk0
  obtain ⟨j, hj⟩ : ∃ j : ℕ, (j : ℤ) = 52 - k - Int.log 2 ((z : ℚ) / 2 ^ k) :=
    ⟨(52 - k - Int.log 2 ((z : ℚ) / 2 ^ k)).toNat, by omega⟩
  have hu : (2 : ℚ) ^ j * 2 ^ (Int.log 2 ((z : ℚ) / 2 ^ k) - 52) = 1 / 2 ^ k := by
    rw [← zpow_natCast (2 : ℚ) j, ← zpow_add₀ (by norm_num), hj]
    have : 52 - (k : ℤ) - Int.log 2 ((z : ℚ) / 2 ^ k) +
        (Int.log 2 ((z : ℚ) / 2 ^ k) - 52) = -(k : ℤ) := by ring
    rw [this, zpow_neg, zpow_natCast, one_div]
  have hupos : (0 : ℚ) < 2 ^ (Int.log 2 ((z : ℚ) / 2 ^ k) - 52) := by positivity
  have hr : (z : ℚ) / 2 ^ k =
      (((z : ℤ) * 2 ^ j : ℤ) : ℚ) * 2 ^ (Int.log 2 ((z : ℚ) / 2 ^ k) - 52) := by
    push_cast
    rw [mul_assoc, hu]
    ring
  refine roundDouble_eq _ (Int.log 2 ((z : ℚ) / 2 ^ k)) ((z : ℤ) * 2 ^ j)
    (2 ^ (Int.log 2 ((z : ℚ) / 2 ^ k) - 52)) _ rfl hr hL1 (by positivity) hq (Or.inl hlo) hhi
    ?_ ?_ ?_
  · nth_rewrite 2 [hr]
    nlinarith
  · nth_rewrite 1 [hr]
    nlinarith
  · have : (z : ℚ) / 2 ^ k ≤ z := div_le_self (by positivity) (one_le_pow₀ (by norm_num))
    have h53 : (2 : ℚ) ^ 53 < 2 ^ 1024 := by norm_num
    linarith

theorem roundDouble_eq_of_nat {q r : ℚ} (z : ℕ) (hz : z < 2 ^ 53) (hq : q = z) (hr : r = z) :
    roundDouble q = JSNum.fin r := by
  have h := roundDouble_dyadic z 0 hz (by norm_num)
  simp only [pow_zero, div_one] at h
  rw [hq, hr, h]

theorem roundDouble_mul_sixteen (n : ℕ) (hn : n < 2 ^ 32) :
    roundDouble ((n : ℚ) * 800 * (5764607523034235 / 36028797018963968)) =
      JSNum.fin ((n : ℚ) * 800 * (16 / 100)) := by
  rcases Nat.eq_zero_or_pos n with rfl | hpos
  · simp [roundDouble_zero]
  have hn1 : (1 : ℚ) ≤ n := by exact_mod_cast hpos
  have hn2 : (n : ℚ) < 4294967296 := by exact_mod_cast hn
  have hqv : (n : ℚ) * 800 * (5764607523034235 / 36028797018963968) =
      128 * n + 3 * n / 2 ^ 50 := by ring
  rw [hqv]
  have hq : (0 : ℚ) < 128 * n + 3 * n / 2 ^ 50 := by positivity
  have hlo : (2 : ℚ) ^ (Int.log 2 (128 * (n : ℚ) + 3 * n / 2 ^ 50)) ≤
      128 * n + 3 * n / 2 ^ 50 := by
    exact_mod_cast Int.zpow_log_le_self (by norm_num : 1 < 2) hq
  have hhi : 128 * (n : ℚ) + 3 * n / 2 ^ 50 <
      (2 : ℚ) ^ (Int.log 2 (128 * (n : ℚ) + 3 * n / 2 ^ 50) + 1) := by
    have h : 128 * (n : ℚ) + 3 * n / 2 ^ 50 <
        ((2 : ℕ) : ℚ) ^ (Int.log 2 (128 * (n : ℚ) + 3 * n / 2 ^ 50) + 1) :=
      Int.lt_zpow_succ_log_self (by norm_num) _
    exact_mod_cast h
  have hL1 : 7 ≤ Int.log 2 (128 * (n : ℚ) + 3 * n / 2 ^ 50) := by
    rw [← Int.zpow_le_iff_le_log (by norm_num) hq]
    have h3 : (0 : ℚ) ≤ 3 * n / 2 ^ 50 := by positivity
    norm_num
    linarith
  have hL2 : Int.log 2 (128 * (n : ℚ) + 3 * n / 2 ^ 50) < 40 := by
    rw [← Int.lt_zpow_iff_log_lt (by norm_num) hq]
    have h3 : 3 * (n : ℚ) / 2 ^ 50 ≤ n := by
      rw [div_le_iff₀ (by positivity)]
      nlinarith
    norm_num
    norm_num at h3
    linarith
  obtain ⟨j, hj⟩ : ∃ j : ℕ, (j : ℤ) = 52 - Int.log 2 (128 * (n : ℚ) + 3 * n / 2 ^ 50) :=
    ⟨(52 - Int.log 2 (128 * (n : ℚ) + 3 * n / 2 ^ 50)).toNat, by omega⟩
  have hu : (2 : ℚ) ^ j * 2 ^ (Int.log 2 (128 * (n : ℚ) + 3 * n / 2 ^ 50) - 52) = 1 := by
    rw [← zpow_natCast (2 : ℚ) j, ← zpow_add₀ (by norm_num), hj]
    have : 52 - Int.log 2 (128 * (n : ℚ) + 3 * n / 2 ^ 50) +
        (Int.log 2 (128 * (n : ℚ) + 3 * n / 2 ^ 50) - 52) = 0 := by ring
    rw [this, zpow_zero]
  have hP : (2 : ℚ) ^ (Int.log 2 (128 * (n : ℚ) + 3 * n / 2 ^ 50) + 1) =
      2 ^ 53 * 2 ^ (Int.log 2 (128 * (n : ℚ) + 3 * n / 2 ^ 50) - 52) := by
    rw [← zpow_natCast (2 : ℚ) 53, ← zpow_add₀ (by norm_num)]
    congr 1
    push_cast
    ring
  have hupos : (0 : ℚ) < 2 ^ (Int.log 2 (128 * (n : ℚ) + 3 * n / 2 ^ 50) - 52) := by
    positivity
  have hr : (n : ℚ) * 800 * (16 / 100) =
      (((128 * n : ℤ) * 2 ^ j : ℤ) : ℚ) *
        2 ^ (Int.log 2 (128 * (n : ℚ) + 3 * n / 2 ^ 50) - 52) := by
    have hc : (((128 * n : ℤ) * 2 ^ j : ℤ) : ℚ) = 128 * n * 2 ^ j := by
      push_cast
      ring
    rw [hc, mul_assoc (128 * (n : ℚ)), hu]
    ring
  have hr2 : (((128 * n : ℤ) * 2 ^ j : ℤ) : ℚ) *
        2 ^ (Int.log 2 (128 * (n : ℚ) + 3 * n / 2 ^ 50) - 52) = 128 * n := by
    rw [← hr]; ring
  rw [hP] at hhi
  refine roundDouble_eq _ (Int.log 2 (128 * (n : ℚ) + 3 * n / 2 ^ 50)) ((128 * n : ℤ) * 2 ^ j)
    (2 ^ (Int.log 2 (128 * (n : ℚ) + 3 * n / 2 ^ 50) - 52)) _ rfl hr (by omega)
    (by positivity) hq (Or.inl hlo) (by rw [hP]; exact hhi) ?_ ?_ ?_
  · rw [sub_mul, hr2]
    have h3 : (0 : ℚ) ≤ 3 * n / 2 ^ 50 := by positivity
    linarith
  · rw [add_mul, hr2]
    have h3 : 3 * (n : ℚ) / 2 ^ 50 = n * (3 / 2 ^ 50) := by ring
    rw [h3] at hhi ⊢
    norm_num at hhi ⊢
    linarith
  · have : (n : ℚ) * 800 * (16 / 100) < 2 ^ 40 := by
      norm_num
      linarith
    have h40 : (2 : ℚ) ^ 40 < 2 ^ 1024 := by norm_num
    linarith

/-- For an array, whose length is below 2^32, the double computation of
`analyzeRoutes` gives the values of the computation without rounding. -/
theorem analyzeRoutesDouble_eq (locations : List String) (h : locations.length < 2 ^ 32) :
    analyzeRoutesDouble locations = analyzeRoutes locations := by
  have l1 : roundDouble (16 / 100) =
      JSNum.fin (5764607523034235 / 36028797018963968) :=
    roundDouble_eq _ (-3) 5764607523034235 (1 / 2 ^ 55) _ (by norm_num) (by norm_num) (by norm_num)
      (by norm_num) (by norm_num) (Or.inl (by norm_num)) (by norm_num) (by norm_num) (by norm_num)
      (by norm_num)
  have l2 : roundDouble (75 / 100) =
      JSNum.fin (3 / 4) :=
    roundDouble_eq _ (-1) 6755399441055744 (1 / 2 ^ 53) _ (by norm_num) (by norm_num) (by norm_num)
      (by norm_num) (by norm_num) (Or.inl (by norm_num)) (by norm_num) (by norm_num) (by norm_num)
      (by norm_num)
  have l3 : roundDouble (25 / 10) =
      JSNum.fin (5 / 2) :=
    roundDouble_eq _ (1) 5629499534213120 (1 / 2 ^ 51) _ (by norm_num) (by norm_num) (by norm_num)
      (by norm_num) (by norm_num) (Or.inl (by norm_num)) (by norm_num) (by norm_num) (by norm_num)
      (by norm_num)
  have l4 : roundDouble (1 / 4) =
      JSNum.fin (1 / 4) :=
    roundDouble_eq _ (-2) 4503599627370496 (1 / 2 ^ 54) _ (by norm_num) (by norm_num) (by norm_num)
      (by norm_num) (by norm_num) (Or.inl (by norm_num)) (by norm_num) (by norm_num) (by norm_num)
      (by norm_num)
  have l5 : roundDouble (25) =
      JSNum.fin 25 :=
    roundDouble_eq _ (4) 7036874417766400 (1 / 2 ^ 48) _ (by norm_num) (by norm_num) (by norm_num)
      (by norm_num) (by norm_num) (Or.inl (by norm_num)) (by norm_num) (by norm_num) (by norm_num)
      (by norm_num)
  have hn : ((locations.length : ℕ) : ℚ) < 2 ^ 32 := by exact_mod_cast h
  have hd : roundDouble ((locations.length : ℚ) * 800) =
      JSNum.fin ((locations.length : ℚ) * 800) :=
    roundDouble_eq_of_nat (locations.length * 800) (by omega) (by push_cast; ring)
      (by push_cast; ring)
  have hcur := roundDouble_mul_sixteen locations.length h
  have hopt : roundDouble ((locations.length : ℚ) * 800 * (16 / 100) * (3 / 4)) =
      JSNum.fin ((locations.length : ℚ) * 800 * (16 / 100) * (75 / 100)) :=
    roundDouble_eq_of_nat (locations.length * 96) (by omega) (by push_cast; ring)
      (by push_cast; ring)
  have hod : roundDouble ((locations.length : ℚ) * 800 * (3 / 4)) =
      JSNum.fin ((locations.length : ℚ) * 800 * (75 / 100)) :=
    roundDouble_eq_of_nat (locations.length * 600) (by omega) (by push_cast; ring)
      (by push_cast; ring)
  have hsav : roundDouble ((locations.length : ℚ) * 800 * (16 / 100) -
      (locations.length : ℚ) * 800 * (16 / 100) * (75 / 100)) =
      JSNum.fin ((locations.length : ℚ) * 800 * (16 / 100) -
        (locations.length : ℚ) * 800 * (16 / 100) * (75 / 100)) :=
    roundDouble_eq_of_nat (locations.length * 32) (by omega) (by push_cast; ring)
      (by push_cast; ring)
  have hcost : roundDouble (((locations.length : ℚ) * 800 * (16 / 100) -
      (locations.length : ℚ) * 800 * (16 / 100) * (75 / 100)) * (5 / 2)) =
      JSNum.fin (((locations.length : ℚ) * 800 * (16 / 100) -
        (locations.length : ℚ) * 800 * (16 / 100) * (75 / 100)) * (25 / 10)) :=
    roundDouble_eq_of_nat (locations.length * 80) (by omega) (by push_cast; ring)
      (by push_cast; ring)
  have heff : ((JSNum.fin ((locations.length : ℚ) * 800 * (16 / 100) -
      (locations.length : ℚ) * 800 * (16 / 100) * (75 / 100))).div
        (JSNum.fin ((locations.length : ℚ) * 800 * (16 / 100)))).mul (JSNum.fin 100) =
      ((JSNum.fin ((locations.length : ℚ) * 800 * (16 / 100) -
        (locations.length : ℚ) * 800 * (16 / 100) * (75 / 100))).divExact
          (JSNum.fin ((locations.length : ℚ) * 800 * (16 / 100)))).mulExact (JSNum.fin 100) := by
    by_cases h0 : ((locations.length : ℕ) : ℚ) = 0
    · simp [JSNum.div, JSNum.divExact, JSNum.mulExact, h0]
      rfl
    · have hne : (locations.length : ℚ) * 800 * (16 / 100) ≠ 0 := by
        simp [h0]
      have hquot : ((locations.length : ℚ) * 800 * (16 / 100) -
          (locations.length : ℚ) * 800 * (16 / 100) * (75 / 100)) /
            ((locations.length : ℚ) * 800 * (16 / 100)) = 1 / 4 := by
        field_simp
        ring
      rw [div_fin _ _ hne]
      simp only [JSNum.divExact, if_neg hne, JSNum.mulExact, hquot, l4, mul_fin]
      norm_num
      exact l5
  simp only [analyzeRoutesDouble, analyzeRoutes, l1, l2, l3, mul_fin, sub_fin,
    JSNum.mulExact, JSNum.subExact, hd, hcur, hopt, hod, hsav, hcost]
  rw [heff]
  simp only [JSNum.mulExact, JSNum.subExact]

/-- Halving an array length is exact in doubles. -/
theorem div_two_exact (n : ℕ) (hn : n < 2 ^ 53) :
    (JSNum.fin n).div (JSNum.fin 2) = (JSNum.fin n).divExact (JSNum.fin 2) := by
  have h := roundDouble_dyadic n 1 hn (by norm_num)
  rw [pow_one] at h
  rw [div_fin _ _ (by norm_num), h]
  simp [JSNum.divExact]

theorem shortestCandidate_none (x : ℚ) (k p lo : ℕ) (hp : Nat.log 10 ⌊x⌋₊ + 1 - k = p)
    (hlo : ⌊x / 10 ^ p⌋₊ = lo) (ha : roundDouble ((lo : ℚ) * 10 ^ p) ≠ JSNum.fin x)
    (hb : roundDouble (((lo + 1 : ℕ) : ℚ) * 10 ^ p) ≠ JSNum.fin x) :
    shortestCandidate x k = none := by
  simp only [shortestCandidate, hp, hlo, decide_eq_false ha, decide_eq_false hb]
  rfl

theorem shortestCandidate_low (x : ℚ) (k p lo : ℕ) (hp : Nat.log 10 ⌊x⌋₊ + 1 - k = p)
    (hlo : ⌊x / 10 ^ p⌋₊ = lo) (ha : roundDouble ((lo : ℚ) * 10 ^ p) = JSNum.fin x)
    (hb : roundDouble (((lo + 1 : ℕ) : ℚ) * 10 ^ p) ≠ JSNum.fin x) (hne : lo ≠ 10 ^ k) :
    shortestCandidate x k = some (lo, p) := by
  simp only [shortestCandidate, hp, hlo, decide_eq_true ha, decide_eq_false hb]
  simp [hne]

theorem findSome_fourth {α : Type} (f : ℕ → Option α) (l : List ℕ) (v : α)
    (h0 : f 0 = none) (h1 : f 1 = none) (h2 : f 2 = none) (h3 : f 3 = some v) :
    (0 :: 1 :: 2 :: 3 :: l).findSome? f = some v := by
  simp [List.findSome?, h0, h1, h2, h3]

theorem shortestDigits_four (x : ℚ) (v : ℕ × ℕ) (h1 : shortestCandidate x 1 = none)
    (h2 : shortestCandidate x 2 = none) (h3 : shortestCandidate x 3 = none)
    (h4 : shortestCandidate x 4 = some v) : shortestDigits x = v := by
  have hrange : List.range 17 = 0 :: 1 :: 2 :: 3 ::
      [4, 5, 6, 7, 8, 9, 10, 11, 12, 13, 14, 15, 16] := by
    decide
  unfold shortestDigits
  rw [hrange, findSome_fourth (fun i => shortestCandidate x (i + 1)) _ v h1 h2 h3 h4]

theorem toFixed_large (f : Nat) (x : ℚ) (s p : ℕ) (hx : 10 ^ 21 ≤ x)
    (h : shortestDigits x = (s, p)) : toFixed f (JSNum.fin x) = exponentForm s p := by
  have h0 : (0 : ℚ) ≤ x := le_trans (by norm_num) hx
  have habs : (10 : ℚ) ^ 21 ≤ |x| := by rw [abs_of_nonneg h0]; exact hx
  simp only [toFixed, if_pos habs, if_pos hx, if_neg (not_lt.mpr h0), largeToString,
    abs_of_nonneg h0, h]

/-- From 10^21 on `toFixed` prints the exponent form of the number. -/
theorem toFixed_large_example :
    toFixed 2 (JSNum.fin 1288000000000000000000) = "1.288e+21" := by
  have hfloor : ⌊(1288000000000000000000 : ℚ)⌋₊ = 1288000000000000000000 :=
    Nat.floor_ofNat _
  have hlog : Nat.log 10 1288000000000000000000 = 21 :=
    (Nat.log_eq_iff (Or.inl (by norm_num))).mpr ⟨by norm_num, by norm_num⟩
  have g1 : roundDouble (1000000000000000000000) =
      JSNum.fin 1000000000000000000000 :=
    roundDouble_eq _ (69) 7629394531250000 (2 ^ 17) _ (by norm_num) (by norm_num)
      (by norm_num) (by norm_num) (by norm_num) (Or.inl (by norm_num)) (by norm_num)
      (by norm_num) (by norm_num) (by norm_num)
  have g2 : roundDouble (2000000000000000000000) =
      JSNum.fin 2000000000000000000000 :=
    roundDouble_eq _ (70) 7629394531250000 (2 ^ 18) _ (by norm_num) (by norm_num)
      (by norm_num) (by norm_num) (by norm_num) (Or.inl (by norm_num)) (by norm_num)
      (by norm_num) (by norm_num) (by norm_num)
  have g3 : roundDouble (1200000000000000000000) =
      JSNum.fin 1200000000000000000000 :=
    roundDouble_eq _ (70) 4577636718750000 (2 ^ 18) _ (by norm_num) (by norm_num)
      (by norm_num) (by norm_num) (by norm_num) (Or.inl (by norm_num)) (by norm_num)
      (by norm_num) (by norm_num) (by norm_num)
  have g4 : roundDouble (1300000000000000000000) =
      JSNum.fin 1300000000000000000000 :=
    roundDouble_eq _ (70) 4959106445312500 (2 ^ 18) _ (by norm_num) (by norm_num)
      (by norm_num) (by norm_num) (by norm_num) (Or.inl (by norm_num)) (by norm_num)
      (by norm_num) (by norm_num) (by norm_num)
  have g5 : roundDouble (1280000000000000000000) =
      JSNum.fin 1280000000000000000000 :=
    roundDouble_eq _ (70) 4882812500000000 (2 ^ 18) _ (by norm_num) (by norm_num)
      (by norm_num) (by norm_num) (by norm_num) (Or.inl (by norm_num)) (by norm_num)
      (by norm_num) (by norm_num) (by norm_num)
  have g6 : roundDouble (1290000000000000000000) =
      JSNum.fin 1290000000000000000000 :=
    roundDouble_eq _ (70) 4920959472656250 (2 ^ 18) _ (by norm_num) (by norm_num)
      (by norm_num) (by norm_num) (by norm_num) (Or.inl (by norm_num)) (by norm_num)
      (by norm_num) (by norm_num) (by norm_num)
  have g7 : roundDouble (1288000000000000000000) =
      JSNum.fin 1288000000000000000000 :=
    roundDouble_eq _ (70) 4913330078125000 (2 ^ 18) _ (by norm_num) (by norm_num)
      (by norm_num) (by norm_num) (by norm_num) (Or.inl (by norm_num)) (by norm_num)
      (by norm_num) (by norm_num) (by norm_num)
  have g8 : roundDouble (1289000000000000000000) =
      JSNum.fin 1289000000000000000000 :=
    roundDouble_eq _ (70) 4917144775390625 (2 ^ 18) _ (by norm_num) (by norm_num)
      (by norm_num) (by norm_num) (by norm_num) (Or.inl (by norm_num)) (by norm_num)
      (by norm_num) (by norm_num) (by norm_num)
  have ha1 : roundDouble (((1 : ℕ) : ℚ) * 10 ^ 21) ≠ JSNum.fin 1288000000000000000000 := by
    rw [show (((1 : ℕ) : ℚ)) * 10 ^ 21 = 1000000000000000000000 by norm_num, g1]
    intro h
    have hq := JSNum.fin.inj h
    norm_num at hq
  have hb1 : roundDouble (((1 + 1 : ℕ) : ℚ) * 10 ^ 21) ≠
      JSNum.fin 1288000000000000000000 := by
    rw [show (((1 + 1 : ℕ) : ℚ)) * 10 ^ 21 = 2000000000000000000000 by norm_num, g2]
    intro h
    have hq := JSNum.fin.inj h
    norm_num at hq
  have hc1 : shortestCandidate 1288000000000000000000 1 = none :=
    shortestCandidate_none _ 1 21 1 (by rw [hfloor, hlog])
      (by rw [Nat.floor_eq_iff (by norm_num)]; norm_num) ha1 hb1
  have ha2 : roundDouble (((12 : ℕ) : ℚ) * 10 ^ 20) ≠ JSNum.fin 1288000000000000000000 := by
    rw [show (((12 : ℕ) : ℚ)) * 10 ^ 20 = 1200000000000000000000 by norm_num, g3]
    intro h
    have hq := JSNum.fin.inj h
    norm_num at hq
  have hb2 : roundDouble (((12 + 1 : ℕ) : ℚ) * 10 ^ 20) ≠
      JSNum.fin 1288000000000000000000 := by
    rw [show (((12 + 1 : ℕ) : ℚ)) * 10 ^ 20 = 1300000000000000000000 by norm_num, g4]
    intro h
    have hq := JSNum.fin.inj h
    norm_num at hq
  have hc2 : shortestCandidate 1288000000000000000000 2 = none :=
    shortestCandidate_none _ 2 20 12 (by rw [hfloor, hlog])
      (by rw [Nat.floor_eq_iff (by norm_num)]; norm_num) ha2 hb2
  have ha3 : roundDouble (((128 : ℕ) : ℚ) * 10 ^ 19) ≠ JSNum.fin 1288000000000000000000 := by
    rw [show (((128 : ℕ) : ℚ)) * 10 ^ 19 = 1280000000000000000000 by norm_num, g5]
    intro h
    have hq := JSNum.fin.inj h
    norm_num at hq
  have hb3 : roundDouble (((128 + 1 : ℕ) : ℚ) * 10 ^ 19) ≠
      JSNum.fin 1288000000000000000000 := by
    rw [show (((128 + 1 : ℕ) : ℚ)) * 10 ^ 19 = 1290000000000000000000 by norm_num, g6]
    intro h
    have hq := JSNum.fin.inj h
    norm_num at hq
  have hc3 : shortestCandidate 1288000000000000000000 3 = none :=
    shortestCandidate_none _ 3 19 128 (by rw [hfloor, hlog])
      (by rw [Nat.floor_eq_iff (by norm_num)]; norm_num) ha3 hb3
  have ha4 : roundDouble (((1288 : ℕ) : ℚ) * 10 ^ 18) = JSNum.fin 1288000000000000000000 := by
    rw [show (((1288 : ℕ) : ℚ)) * 10 ^ 18 = 1288000000000000000000 by norm_num, g7]
  have hb4 : roundDouble (((1288 + 1 : ℕ) : ℚ) * 10 ^ 18) ≠
      JSNum.fin 1288000000000000000000 := by
    rw [show (((1288 + 1 : ℕ) : ℚ)) * 10 ^ 18 = 1289000000000000000000 by norm_num, g8]
    intro h
    have hq := JSNum.fin.inj h
    norm_num at hq
  have hc4 : shortestCandidate 1288000000000000000000 4 = some (1288, 18) :=
    shortestCandidate_low _ 4 18 1288 (by rw [hfloor, hlog])
      (by rw [Nat.floor_eq_iff (by norm_num)]; norm_num) ha4 hb4 (by norm_num)
  rw [toFixed_large 2 _ 1288 18 (by norm_num) (shortestDigits_four _ _ hc1 hc2 hc3 hc4)]
  decide

/-! ## Claims -/

/-- C1 (counterexample): for distance 5, weight 7 and truck/diesel the double
product 5 * 7 * 0.161 lies below 5.635 and the response carries
`carbonFootprint` 5.63, whereas the real product 5.635 rounds to 5.64. -/
theorem carbonFootprint_not_rounded_real_product :
    ∃ body, calculateCarbon
        { distance := some 5, weight := some 7,
          transportMode := some "truck", fuelType := some "diesel" } = .ok body ∧
      body.carbonFootprint = roundDouble (563 / 100) ∧
      round2 (5 * 7 * (161 / 1000)) = 564 / 100 ∧
      body.carbonFootprint ≠ roundDouble (564 / 100) := by
  have h := calculateCarbon_of_mem_ne 5 7 "truck" "diesel"
    [("diesel", 161 / 1000), ("electric", 53 / 1000), ("hybrid", 95 / 1000)] (161 / 1000)
    (by norm_num) (by norm_num) (by simp [emissionFactors]) (by simp)
  have h1 : roundDouble (5 * 7) =
      JSNum.fin 35 :=
    roundDouble_eq _ (5) 4925812092436480 (1 / 2 ^ 47) _ (by norm_num) (by norm_num)
      (by norm_num) (by norm_num) (by norm_num) (Or.inl (by norm_num)) (by norm_num)
      (by norm_num) (by norm_num) (by norm_num)
  have h2 : (JSNum.fin 5).mul (JSNum.fin 7) =
      JSNum.fin 35 := by
    rw [mul_fin, h1]
  have h3 : roundDouble (161 / 1000) =
      JSNum.fin (5800636320053199 / 36028797018963968) :=
    roundDouble_eq _ (-3) 5800636320053199 (1 / 2 ^ 55) _ (by norm_num) (by norm_num)
      (by norm_num) (by norm_num) (by norm_num) (Or.inl (by norm_num)) (by norm_num)
      (by norm_num) (by norm_num) (by norm_num)
  have h4 : roundDouble (35 * (5800636320053199 / 36028797018963968)) =
      JSNum.fin (3172222987529093 / 562949953421312) :=
    roundDouble_eq _ (2) 6344445975058186 (1 / 2 ^ 50) _ (by norm_num) (by norm_num)
      (by norm_num) (by norm_num) (by norm_num) (Or.inl (by norm_num)) (by norm_num)
      (by norm_num) (by norm_num) (by norm_num)
  have h5 : (JSNum.fin 35).mul (JSNum.fin (5800636320053199 / 36028797018963968)) =
      JSNum.fin (3172222987529093 / 562949953421312) := by
    rw [mul_fin, h4]
  have h6 : round2 (3172222987529093 / 562949953421312) = (563 / 100) := by
    have hfl : ⌊((3172222987529093 / 562949953421312) : ℚ) * 100 + 1 / 2⌋ = 563 := by
      rw [Int.floor_eq_iff]; norm_num
    simp only [round2, hfl]; norm_num
  have h7 : parseFloatToFixed 2 (JSNum.fin (3172222987529093 / 562949953421312)) =
      roundDouble (563 / 100) := by
    rw [parseFloatToFixed_two_of_nonneg (by norm_num) (by norm_num), h6]
  have h8 : roundDouble (563 / 100) =
      JSNum.fin (6338816475523973 / 1125899906842624) :=
    roundDouble_eq _ (2) 6338816475523973 (1 / 2 ^ 50) _ (by norm_num) (by norm_num)
      (by norm_num) (by norm_num) (by norm_num) (Or.inl (by norm_num)) (by norm_num)
      (by norm_num) (by norm_num) (by norm_num)
  have h9 : roundDouble (564 / 100) =
      JSNum.fin (6350075474592399 / 1125899906842624) :=
    roundDouble_eq _ (2) 6350075474592399 (1 / 2 ^ 50) _ (by norm_num) (by norm_num)
      (by norm_num) (by norm_num) (by norm_num) (Or.inl (by norm_num)) (by norm_num)
      (by norm_num) (by norm_num) (by norm_num)
  have hreal : round2 (5 * 7 * (161 / 1000)) = 564 / 100 := by
    have hfl : ⌊(5 : ℚ) * 7 * (161 / 1000) * 100 + 1 / 2⌋ = 564 := by
      rw [Int.floor_eq_iff]; norm_num
    simp only [round2, hfl]; norm_num
  refine ⟨_, h, ?_, hreal, ?_⟩
  · simp only [h2, h3, h5, h7]
  · simp only [h2, h3, h5, h7, h8, h9]
    intro hne
    have hq := JSNum.fin.inj hne
    norm_num at hq

/-- C1 (amended): for positive distance and weight and a (mode, fuel) pair of
the factor table, the calculate-carbon handler succeeds; when the double
product (distance * weight) * factor is a finite number below 10^21,
`carbonFootprint` is the double nearest to that product rounded to two
decimals, and from 10^21 on it is the product itself. -/
theorem calculateCarbon_carbonFootprint (distance weight : ℚ) (mode fuel : String)
    (table : List (String × ℚ)) (factor : ℚ) (hd : 0 < distance) (hw : 0 < weight)
    (hm : (mode, table) ∈ emissionFactors) (hf : (fuel, factor) ∈ table) :
    ∃ body, calculateCarbon
        { distance := some distance, weight := some weight,
          transportMode := some mode, fuelType := some fuel } = .ok body ∧
      ∀ product : ℚ,
        ((JSNum.fin distance).mul (JSNum.fin weight)).mul (roundDouble factor) =
            JSNum.fin product →
          (product < 10 ^ 21 → body.carbonFootprint = roundDouble (round2 product)) ∧
          (10 ^ 21 ≤ product → body.carbonFootprint = JSNum.fin product) := by
  have hpos : 0 < factor := (lookupFactor_of_mem hm hf).2.1
  refine ⟨_, calculateCarbon_of_mem_ne distance weight mode fuel table factor hd.ne' hw.ne'
    hm hf, ?_⟩
  intro product hp
  have h0 : 0 ≤ product :=
    mul_fin_nonneg (roundDouble_nonNeg (mul_nonneg hd.le hw.le)) (roundDouble_nonNeg hpos.le) hp
  constructor
  · intro hlt
    show parseFloatToFixed 2
      (((JSNum.fin distance).mul (JSNum.fin weight)).mul (roundDouble factor)) = _
    rw [hp]
    exact parseFloatToFixed_two_of_nonneg h0 hlt
  · intro hge
    show parseFloatToFixed 2
      (((JSNum.fin distance).mul (JSNum.fin weight)).mul (roundDouble factor)) = _
    rw [hp]
    exact parseFloatToFixed_of_large 2 hge

theorem calculateCarbon_carbonFootprint_witness :
    (∃ body, calculateCarbon
        { distance := some 1000, weight := some 10,
          transportMode := some "truck", fuelType := some "diesel" } = .ok body ∧
      body.carbonFootprint = JSNum.fin 1610) ∧
    (∃ body, calculateCarbon
        { distance := some 100000000000, weight := some 100000000000,
          transportMode := some "truck", fuelType := some "diesel" } = .ok body ∧
      body.carbonFootprint = JSNum.fin 1610000000000000000000) := by
  constructor
  · obtain ⟨body, hb, hc⟩ := calculateCarbon_carbonFootprint 1000 10 "truck" "diesel"
      [("diesel", 161 / 1000), ("electric", 53 / 1000), ("hybrid", 95 / 1000)] (161 / 1000)
      (by norm_num) (by norm_num) (by simp [emissionFactors]) (by simp)
    have h1 : roundDouble (1000 * 10) =
        JSNum.fin 10000 :=
      roundDouble_eq _ (13) 5497558138880000 (1 / 2 ^ 39) _ (by norm_num) (by norm_num)
        (by norm_num) (by norm_num) (by norm_num) (Or.inl (by norm_num)) (by norm_num)
        (by norm_num) (by norm_num) (by norm_num)
    have h2 : (JSNum.fin 1000).mul (JSNum.fin 10) =
        JSNum.fin 10000 := by
      rw [mul_fin, h1]
    have h3 : roundDouble (161 / 1000) =
        JSNum.fin (5800636320053199 / 36028797018963968) :=
      roundDouble_eq _ (-3) 5800636320053199 (1 / 2 ^ 55) _ (by norm_num) (by norm_num)
        (by norm_num) (by norm_num) (by norm_num) (Or.inl (by norm_num)) (by norm_num)
        (by norm_num) (by norm_num) (by norm_num)
    have h4 : roundDouble (10000 * (5800636320053199 / 36028797018963968)) =
        JSNum.fin 1610 :=
      roundDouble_eq _ (10) 7080854882877440 (1 / 2 ^ 42) _ (by norm_num) (by norm_num)
        (by norm_num) (by norm_num) (by norm_num) (Or.inl (by norm_num)) (by norm_num)
        (by norm_num) (by norm_num) (by norm_num)
    have h5 : (JSNum.fin 10000).mul (JSNum.fin (5800636320053199 / 36028797018963968)) =
        JSNum.fin 1610 := by
      rw [mul_fin, h4]
    have h6 : round2 1610 = 1610 := by
      have hfl : ⌊(1610 : ℚ) * 100 + 1 / 2⌋ = 161000 := by
        rw [Int.floor_eq_iff]; norm_num
      simp only [round2, hfl]; norm_num
    have h7 : roundDouble (1610) =
        JSNum.fin 1610 :=
      roundDouble_eq _ (10) 7080854882877440 (1 / 2 ^ 42) _ (by norm_num) (by norm_num)
        (by norm_num) (by norm_num) (by norm_num) (Or.inl (by norm_num)) (by norm_num)
        (by norm_num) (by norm_num) (by norm_num)
    have hE : ((JSNum.fin 1000).mul (JSNum.fin 10)).mul (roundDouble (161 / 1000)) =
        JSNum.fin 1610 := by
      simp only [h2, h3, h5]
    refine ⟨body, hb, ((hc 1610 hE).1 (by norm_num)).trans ?_⟩
    rw [h6, h7]
  · obtain ⟨body, hb, hc⟩ := calculateCarbon_carbonFootprint 100000000000 100000000000 "truck"
      "diesel" [("diesel", 161 / 1000), ("electric", 53 / 1000), ("hybrid", 95 / 1000)]
      (161 / 1000) (by norm_num) (by norm_num) (by simp [emissionFactors]) (by simp)
    have k1 : roundDouble (100000000000 * 100000000000) =
        JSNum.fin 10000000000000000000000 :=
      roundDouble_eq _ (73) 4768371582031250 (2 ^ 21) _ (by norm_num) (by norm_num)
        (by norm_num) (by norm_num) (by norm_num) (Or.inl (by norm_num)) (by norm_num)
        (by norm_num) (by norm_num) (by norm_num)
    have k2 : (JSNum.fin 100000000000).mul (JSNum.fin 100000000000) =
        JSNum.fin 10000000000000000000000 := by
      rw [mul_fin, k1]
    have k3 : roundDouble (161 / 1000) =
        JSNum.fin (5800636320053199 / 36028797018963968) :=
      roundDouble_eq _ (-3) 5800636320053199 (1 / 2 ^ 55) _ (by norm_num) (by norm_num)
        (by norm_num) (by norm_num) (by norm_num) (Or.inl (by norm_num)) (by norm_num)
        (by norm_num) (by norm_num) (by norm_num)
    have k4 : roundDouble (10000000000000000000000 * (5800636320053199 / 36028797018963968)) =
        JSNum.fin 1610000000000000000000 :=
      roundDouble_eq _ (70) 6141662597656250 (2 ^ 18) _ (by norm_num) (by norm_num)
        (by norm_num) (by norm_num) (by norm_num) (Or.inl (by norm_num)) (by norm_num)
        (by norm_num) (by norm_num) (by norm_num)
    have k5 :
        (JSNum.fin 10000000000000000000000).mul
          (JSNum.fin (5800636320053199 / 36028797018963968)) =
        JSNum.fin 1610000000000000000000 := by
      rw [mul_fin, k4]
    have hE : ((JSNum.fin 100000000000).mul (JSNum.fin 100000000000)).mul
        (roundDouble (161 / 1000)) = JSNum.fin 1610000000000000000000 := by
      simp only [k2, k3, k5]
    exact ⟨body, hb, (hc _ hE).2 (by norm_num)⟩

/-- C2 (counterexample): for distance 34, weight 1 and train/electric the
product is about 0.204; the response carries `carbonFootprint` 0.2 and
`carEquivalent` 1, while rounding 0.2 / 0.404 gives 0. -/
theorem carEquivalent_not_from_rounded_footprint :
    ∃ body, calculateCarbon
        { distance := some 34, weight := some 1,
          transportMode := some "train", fuelType := some "electric" } = .ok body ∧
      body.carbonFootprint = roundDouble (1 / 5) ∧
      body.carEquivalent = JSNum.fin 1 ∧
      (body.carbonFootprint.div (roundDouble (404 / 1000))).round = JSNum.fin 0 ∧
      body.carEquivalent ≠ (body.carbonFootprint.div (roundDouble (404 / 1000))).round := by
  have h := calculateCarbon_of_mem_ne 34 1 "train" "electric"
    [("diesel", 41 / 1000), ("electric", 6 / 1000)] (6 / 1000)
    (by norm_num) (by norm_num) (by simp [emissionFactors]) (by simp)
  have h1 : roundDouble (34 * 1) =
      JSNum.fin 34 :=
    roundDouble_eq _ (5) 4785074604081152 (1 / 2 ^ 47) _ (by norm_num) (by norm_num)
      (by norm_num) (by norm_num) (by norm_num) (Or.inl (by norm_num)) (by norm_num)
      (by norm_num) (by norm_num) (by norm_num)
  have h2 : (JSNum.fin 34).mul (JSNum.fin 1) =
      JSNum.fin 34 := by
    rw [mul_fin, h1]
  have h3 : roundDouble (6 / 1000) =
      JSNum.fin (3458764513820541 / 576460752303423488) :=
    roundDouble_eq _ (-8) 6917529027641082 (1 / 2 ^ 60) _ (by norm_num) (by norm_num)
      (by norm_num) (by norm_num) (by norm_num) (Or.inl (by norm_num)) (by norm_num)
      (by norm_num) (by norm_num) (by norm_num)
  have h4 : roundDouble (34 * (3458764513820541 / 576460752303423488)) =
      JSNum.fin (3674937295934325 / 18014398509481984) :=
    roundDouble_eq _ (-3) 7349874591868650 (1 / 2 ^ 55) _ (by norm_num) (by norm_num)
      (by norm_num) (by norm_num) (by norm_num) (Or.inl (by norm_num)) (by norm_num)
      (by norm_num) (by norm_num) (by norm_num)
  have h5 : (JSNum.fin 34).mul (JSNum.fin (3458764513820541 / 576460752303423488)) =
      JSNum.fin (3674937295934325 / 18014398509481984) := by
    rw [mul_fin, h4]
  have h6 : round2 (3674937295934325 / 18014398509481984) = (1 / 5) := by
    have hfl : ⌊((3674937295934325 / 18014398509481984) : ℚ) * 100 + 1 / 2⌋ = 20 := by
      rw [Int.floor_eq_iff]; norm_num
    simp only [round2, hfl]; norm_num
  have h7 : parseFloatToFixed 2 (JSNum.fin (3674937295934325 / 18014398509481984)) =
      roundDouble (1 / 5) := by
    rw [parseFloatToFixed_two_of_nonneg (by norm_num) (by norm_num), h6]
  have h8 : roundDouble (404 / 1000) =
      JSNum.fin (3638908498915361 / 9007199254740992) :=
    roundDouble_eq _ (-2) 7277816997830722 (1 / 2 ^ 54) _ (by norm_num) (by norm_num)
      (by norm_num) (by norm_num) (by norm_num) (Or.inl (by norm_num)) (by norm_num)
      (by norm_num) (by norm_num) (by norm_num)
  have h9 :
      roundDouble ((3674937295934325 / 18014398509481984) / (3638908498915361 / 9007199254740992)) =
      JSNum.fin (1137047430672749 / 2251799813685248) :=
    roundDouble_eq _ (-1) 4548189722690996 (1 / 2 ^ 53) _ (by norm_num) (by norm_num)
      (by norm_num) (by norm_num) (by norm_num) (Or.inl (by norm_num)) (by norm_num)
      (by norm_num) (by norm_num) (by norm_num)
  have h10 :
      (JSNum.fin (3674937295934325 / 18014398509481984)).div
        (JSNum.fin (3638908498915361 / 9007199254740992)) =
      JSNum.fin (1137047430672749 / 2251799813685248) := by
    rw [div_fin _ _ (by norm_num), h9]
  have h11 : ⌊((1137047430672749 / 2251799813685248) : ℚ) + 1 / 2⌋ = 1 := by
    rw [Int.floor_eq_iff]; norm_num
  have h12 : (JSNum.fin (1137047430672749 / 2251799813685248)).round = JSNum.fin 1 := by
    simp only [JSNum.round, h11]; norm_num
  have h13 : roundDouble ((1 / 5)) =
      JSNum.fin (3602879701896397 / 18014398509481984) :=
    roundDouble_eq _ (-3) 7205759403792794 (1 / 2 ^ 55) _ (by norm_num) (by norm_num)
      (by norm_num) (by norm_num) (by norm_num) (Or.inl (by norm_num)) (by norm_num)
      (by norm_num) (by norm_num) (by norm_num)
  have h14 :
      roundDouble ((3602879701896397 / 18014398509481984) / (3638908498915361 / 9007199254740992)) =
      JSNum.fin (1114752383012499 / 2251799813685248) :=
    roundDouble_eq _ (-2) 8918019064099992 (1 / 2 ^ 54) _ (by norm_num) (by norm_num)
      (by norm_num) (by norm_num) (by norm_num) (Or.inl (by norm_num)) (by norm_num)
      (by norm_num) (by norm_num) (by norm_num)
  have h15 :
      (JSNum.fin (3602879701896397 / 18014398509481984)).div
        (JSNum.fin (3638908498915361 / 9007199254740992)) =
      JSNum.fin (1114752383012499 / 2251799813685248) := by
    rw [div_fin _ _ (by norm_num), h14]
  have h16 : ⌊((1114752383012499 / 2251799813685248) : ℚ) + 1 / 2⌋ = 0 := by
    rw [Int.floor_eq_iff]; norm_num
  have h17 : (JSNum.fin (1114752383012499 / 2251799813685248)).round = JSNum.fin 0 := by
    simp only [JSNum.round, h16]; norm_num
  refine ⟨_, h, ?_, ?_, ?_, ?_⟩
  · simp only [h2, h3, h5, h7, h8, h10, h12, h13, h15, h17]
  · simp only [h2, h3, h5, h7, h8, h10, h12, h13, h15, h17]
  · simp only [h2, h3, h5, h7, h8, h10, h12, h13, h15, h17]
  · simp only [h2, h3, h5, h7, h8, h10, h12, h13, h15, h17]
    intro hne
    have hq := JSNum.fin.inj hne
    norm_num at hq

/-- C2 (amended): for positive distance and weight and a (mode, fuel) pair of
the factor table, `carEquivalent` is the unrounded double product
(distance * weight) * factor divided by 0.404 and rounded to the nearest
integer. -/
theorem calculateCarbon_carEquivalent (distance weight : ℚ) (mode fuel : String)
    (table : List (String × ℚ)) (factor : ℚ) (hd : 0 < distance) (hw : 0 < weight)
    (hm : (mode, table) ∈ emissionFactors) (hf : (fuel, factor) ∈ table) :
    ∃ body, calculateCarbon
        { distance := some distance, weight := some weight,
          transportMode := some mode, fuelType := some fuel } = .ok body ∧
      body.carEquivalent =
        ((((JSNum.fin distance).mul (JSNum.fin weight)).mul (roundDouble factor)).div
          (roundDouble (404 / 1000))).round :=
  ⟨_, calculateCarbon_of_mem_ne distance weight mode fuel table factor hd.ne' hw.ne' hm hf, rfl⟩

theorem calculateCarbon_carEquivalent_witness :
    ∃ body, calculateCarbon
        { distance := some 101, weight := some 46,
          transportMode := some "truck", fuelType := some "diesel" } = .ok body ∧
      body.carEquivalent = JSNum.fin 1851 := by
  obtain ⟨body, hb, hc⟩ := calculateCarbon_carEquivalent 101 46 "truck" "diesel"
    [("diesel", 161 / 1000), ("electric", 53 / 1000), ("hybrid", 95 / 1000)] (161 / 1000)
    (by norm_num) (by norm_num) (by simp [emissionFactors]) (by simp)
  have h1 : roundDouble (101 * 46) =
      JSNum.fin 4646 :=
    roundDouble_eq _ (12) 5108331022647296 (1 / 2 ^ 40) _ (by norm_num) (by norm_num)
      (by norm_num) (by norm_num) (by norm_num) (Or.inl (by norm_num)) (by norm_num)
      (by norm_num) (by norm_num) (by norm_num)
  have h2 : (JSNum.fin 101).mul (JSNum.fin 46) =
      JSNum.fin 4646 := by
    rw [mul_fin, h1]
  have h3 : roundDouble (161 / 1000) =
      JSNum.fin (5800636320053199 / 36028797018963968) :=
    roundDouble_eq _ (-3) 5800636320053199 (1 / 2 ^ 55) _ (by norm_num) (by norm_num)
      (by norm_num) (by norm_num) (by norm_num) (Or.inl (by norm_num)) (by norm_num)
      (by norm_num) (by norm_num) (by norm_num)
  have h4 : roundDouble (4646 * (5800636320053199 / 36028797018963968)) =
      JSNum.fin (6579530357169717 / 8796093022208) :=
    roundDouble_eq _ (9) 6579530357169717 (1 / 2 ^ 43) _ (by norm_num) (by norm_num)
      (by norm_num) (by norm_num) (by norm_num) (Or.inl (by norm_num)) (by norm_num)
      (by norm_num) (by norm_num) (by norm_num)
  have h5 : (JSNum.fin 4646).mul (JSNum.fin (5800636320053199 / 36028797018963968)) =
      JSNum.fin (6579530357169717 / 8796093022208) := by
    rw [mul_fin, h4]
  have h6 : roundDouble (404 / 1000) =
      JSNum.fin (3638908498915361 / 9007199254740992) :=
    roundDouble_eq _ (-2) 7277816997830722 (1 / 2 ^ 54) _ (by norm_num) (by norm_num)
      (by norm_num) (by norm_num) (by norm_num) (Or.inl (by norm_num)) (by norm_num)
      (by norm_num) (by norm_num) (by norm_num)
  have h7 :
      roundDouble ((6579530357169717 / 8796093022208) / (3638908498915361 / 9007199254740992)) =
      JSNum.fin (8142983115309055 / 4398046511104) :=
    roundDouble_eq _ (10) 8142983115309055 (1 / 2 ^ 42) _ (by norm_num) (by norm_num)
      (by norm_num) (by norm_num) (by norm_num) (Or.inl (by norm_num)) (by norm_num)
      (by norm_num) (by norm_num) (by norm_num)
  have h8 :
      (JSNum.fin (6579530357169717 / 8796093022208)).div
        (JSNum.fin (3638908498915361 / 9007199254740992)) =
      JSNum.fin (8142983115309055 / 4398046511104) := by
    rw [div_fin _ _ (by norm_num), h7]
  have h9 : ⌊((8142983115309055 / 4398046511104) : ℚ) + 1 / 2⌋ = 1851 := by
    rw [Int.floor_eq_iff]; norm_num
  have h10 : (JSNum.fin (8142983115309055 / 4398046511104)).round = JSNum.fin 1851 := by
    simp only [JSNum.round, h9]; norm_num
  refine ⟨body, hb, hc.trans ?_⟩
  simp only [h2, h3, h5, h6, h8, h10]

/-- C3 (failing input): the pair ("constructor", "length") is not in the factor
table, yet the lookup finds the inherited `Object` constructor and its
`length` 1, and the handler answers 200 with a computed footprint. -/
theorem calculateCarbon_inherited_pair :
    calculateCarbon
        { distance := some 10, weight := some 2,
          transportMode := some "constructor", fuelType := some "length" } =
      .ok { carbonFootprint := JSNum.fin 20,
            carEquivalent := JSNum.fin 50,
            suggestions :=
              [{ type := "Route Optimization",
                 suggestion := "Consolidate shipments and optimize routes",
                 reduction := "15-25% potential reduction",
                 newEmissions := "16.00" }] } ∧
      ∀ table, ("constructor", table) ∉ emissionFactors := by
  constructor
  · have hl : lookupFactor "constructor" "length" = .ok (.number 1) := rfl
    have h1 : roundDouble (10 * 2) =
        JSNum.fin 20 :=
      roundDouble_eq _ (4) 5629499534213120 (1 / 2 ^ 48) _ (by norm_num) (by norm_num)
        (by norm_num) (by norm_num) (by norm_num) (Or.inl (by norm_num)) (by norm_num)
        (by norm_num) (by norm_num) (by norm_num)
    have h2 : (JSNum.fin 10).mul (JSNum.fin 2) =
        JSNum.fin 20 := by
      rw [mul_fin, h1]
    have h3 : roundDouble (1) =
        JSNum.fin 1 :=
      roundDouble_eq _ (0) 4503599627370496 (1 / 2 ^ 52) _ (by norm_num) (by norm_num)
        (by norm_num) (by norm_num) (by norm_num) (Or.inl (by norm_num)) (by norm_num)
        (by norm_num) (by norm_num) (by norm_num)
    have h4 : roundDouble (20 * 1) =
        JSNum.fin 20 :=
      roundDouble_eq _ (4) 5629499534213120 (1 / 2 ^ 48) _ (by norm_num) (by norm_num)
        (by norm_num) (by norm_num) (by norm_num) (Or.inl (by norm_num)) (by norm_num)
        (by norm_num) (by norm_num) (by norm_num)
    have h5 : (JSNum.fin 20).mul (JSNum.fin 1) =
        JSNum.fin 20 := by
      rw [mul_fin, h4]
    have h6 : round2 20 = 20 := by
      have hfl : ⌊(20 : ℚ) * 100 + 1 / 2⌋ = 2000 := by
        rw [Int.floor_eq_iff]; norm_num
      simp only [round2, hfl]; norm_num
    have h7 : parseFloatToFixed 2 (JSNum.fin 20) =
        roundDouble 20 := by
      rw [parseFloatToFixed_two_of_nonneg (by norm_num) (by norm_num), h6]
    have h8 : roundDouble (20) =
        JSNum.fin 20 :=
      roundDouble_eq _ (4) 5629499534213120 (1 / 2 ^ 48) _ (by norm_num) (by norm_num)
        (by norm_num) (by norm_num) (by norm_num) (Or.inl (by norm_num)) (by norm_num)
        (by norm_num) (by norm_num) (by norm_num)
    have h9 : roundDouble (404 / 1000) =
        JSNum.fin (3638908498915361 / 9007199254740992) :=
      roundDouble_eq _ (-2) 7277816997830722 (1 / 2 ^ 54) _ (by norm_num) (by norm_num)
        (by norm_num) (by norm_num) (by norm_num) (Or.inl (by norm_num)) (by norm_num)
        (by norm_num) (by norm_num) (by norm_num)
    have h10 : roundDouble (20 / (3638908498915361 / 9007199254740992)) =
        JSNum.fin (3483601196914059 / 70368744177664) :=
      roundDouble_eq _ (5) 6967202393828118 (1 / 2 ^ 47) _ (by norm_num) (by norm_num)
        (by norm_num) (by norm_num) (by norm_num) (Or.inl (by norm_num)) (by norm_num)
        (by norm_num) (by norm_num) (by norm_num)
    have h11 : (JSNum.fin 20).div (JSNum.fin (3638908498915361 / 9007199254740992)) =
        JSNum.fin (3483601196914059 / 70368744177664) := by
      rw [div_fin _ _ (by norm_num), h10]
    have h12 : ⌊((3483601196914059 / 70368744177664) : ℚ) + 1 / 2⌋ = 50 := by
      rw [Int.floor_eq_iff]; norm_num
    have h13 : (JSNum.fin (3483601196914059 / 70368744177664)).round = JSNum.fin 50 := by
      simp only [JSNum.round, h12]; norm_num
    have h14 : roundDouble (8 / 10) =
        JSNum.fin (3602879701896397 / 4503599627370496) :=
      roundDouble_eq _ (-1) 7205759403792794 (1 / 2 ^ 53) _ (by norm_num) (by norm_num)
        (by norm_num) (by norm_num) (by norm_num) (Or.inl (by norm_num)) (by norm_num)
        (by norm_num) (by norm_num) (by norm_num)
    have h15 : roundDouble (20 * (3602879701896397 / 4503599627370496)) =
        JSNum.fin 16 :=
      roundDouble_eq _ (4) 4503599627370496 (1 / 2 ^ 48) _ (by norm_num) (by norm_num)
        (by norm_num) (by norm_num) (by norm_num) (Or.inl (by norm_num)) (by norm_num)
        (by norm_num) (by norm_num) (by norm_num)
    have h16 : (JSNum.fin 20).mul (JSNum.fin (3602879701896397 / 4503599627370496)) =
        JSNum.fin 16 := by
      rw [mul_fin, h15]
    have h17 : toFixed 2 (JSNum.fin 16) = "16.00" := by
      rw [toFixed_eq 2 1600 (by norm_num) (by norm_num) (by norm_num) (by norm_num)]
      decide
    have hbody : calculateCarbon
        { distance := some 10, weight := some 2,
          transportMode := some "constructor", fuelType := some "length" } =
        .ok { carbonFootprint := parseFloatToFixed 2
                (((JSNum.fin 10).mul (JSNum.fin 2)).mul (roundDouble 1)),
              carEquivalent :=
                ((((JSNum.fin 10).mul (JSNum.fin 2)).mul (roundDouble 1)).div
                  (roundDouble (404 / 1000))).round,
              suggestions := generateCarbonSuggestions
                (((JSNum.fin 10).mul (JSNum.fin 2)).mul (roundDouble 1))
                "constructor" (JSNum.fin 10) (JSNum.fin 2) } := by
      simp [calculateCarbon, hl, JSVal.truthy, JSVal.toNumber]
    have hsug : generateCarbonSuggestions (JSNum.fin 20) "constructor" (JSNum.fin 10)
        (JSNum.fin 2) =
        [{ type := "Route Optimization",
           suggestion := "Consolidate shipments and optimize routes",
           reduction := "15-25% potential reduction",
           newEmissions := toFixed 2 ((JSNum.fin 20).mul (roundDouble (8 / 10))) }] := by
      simp [generateCarbonSuggestions]
    rw [hbody]
    simp only [h2, h3, h5, h7, h8, h9, h11, h13, h14, h16, h17, hsug]
  · intro table h
    simp [emissionFactors] at h

/-- C4: `generateCarbonSuggestions` returns the entries 'Vehicle Type' and
'Route Optimization' for mode truck, 'Transport Mode' and 'Route Optimization'
for mode air, and 'Route Optimization' alone for every other mode; the
'Route Optimization' entry is always last. -/
theorem generateCarbonSuggestions_types (emissions : JSNum) (mode : String)
    (distance weight : JSNum) :
    (mode = "truck" →
      (generateCarbonSuggestions emissions mode distance weight).map (fun s => s.type) =
        ["Vehicle Type", "Route Optimization"]) ∧
    (mode = "air" →
      (generateCarbonSuggestions emissions mode distance weight).map (fun s => s.type) =
        ["Transport Mode", "Route Optimization"]) ∧
    (mode ≠ "truck" → mode ≠ "air" →
      (generateCarbonSuggestions emissions mode distance weight).map (fun s => s.type) =
        ["Route Optimization"]) ∧
    ((generateCarbonSuggestions emissions mode distance weight).getLast?.map (fun s => s.type) =
        some "Route Optimization") := by
  refine ⟨?_, ?_, ?_, ?_⟩
  · rintro rfl
    simp [generateCarbonSuggestions]
  · rintro rfl
    simp [generateCarbonSuggestions]
  · intro h1 h2
    simp [generateCarbonSuggestions, h1, h2]
  · simp [generateCarbonSuggestions, List.getLast?_append]

theorem generateCarbonSuggestions_types_witness :
    (generateCarbonSuggestions (JSNum.fin 1610) "truck" (JSNum.fin 1000) (JSNum.fin 10)).length = 2 ∧
    (generateCarbonSuggestions (JSNum.fin 570) "air" (JSNum.fin 100) (JSNum.fin 10)).length = 2 ∧
    (generateCarbonSuggestions (JSNum.fin 14) "ship" (JSNum.fin 100) (JSNum.fin 10)).length = 1 := by
  have ht := (generateCarbonSuggestions_types (JSNum.fin 1610) "truck" (JSNum.fin 1000)
    (JSNum.fin 10)).1 rfl
  have ha := (generateCarbonSuggestions_types (JSNum.fin 570) "air" (JSNum.fin 100)
    (JSNum.fin 10)).2.1 rfl
  have hs := (generateCarbonSuggestions_types (JSNum.fin 14) "ship" (JSNum.fin 100)
    (JSNum.fin 10)).2.2.1 (by decide) (by decide)
  refine ⟨?_, ?_, ?_⟩
  · simpa using congrArg List.length ht
  · simpa using congrArg List.length ha
  · simpa using congrArg List.length hs

/-- C5: an accepted packaging request gets a success response whose
recommendations list has at most 3 entries, each with the item type in its
`bestFor`; when no option lists the item type the list is empty. -/
theorem packagingRecommendations_suitable (dimensions : Dimensions) (weight : ℚ)
    (itemType fragility : String) (hw : weight ≠ 0) (hi : itemType ≠ "")
    (hfr : fragility ≠ "") :
    ∃ body, packagingRecommendations
        { dimensions := some dimensions, weight := some weight,
          itemType := some itemType, fragility := some fragility } = .ok body ∧
      body.recommendations.length ≤ 3 ∧
      (∀ r ∈ body.recommendations, itemType ∈ r.bestFor) ∧
      ((∀ entry ∈ packagingOptions, itemType ∉ entry.2.bestFor) →
        body.recommendations = []) := by
  refine ⟨_, packagingRecommendations_accepted dimensions weight itemType fragility hw hi hfr,
    ?_, ?_, ?_⟩
  · simp only [List.length_take]
    omega
  · intro r hr
    have h1 := List.mem_of_mem_take hr
    rw [sortByScore, List.mem_insertionSort] at h1
    exact mem_scored_bestFor h1
  · intro hnone
    have hs : suitable itemType = [] := by
      simp only [suitable, List.filter_eq_nil_iff, decide_eq_true_eq]
      exact hnone
    simp [scored, hs, sortByScore]

theorem packagingRecommendations_suitable_witness :
    ∃ body, packagingRecommendations
        { dimensions := some { length := some 10, width := some 10, height := some 10 },
          weight := some 1, itemType := some "furniture", fragility := some "low" } = .ok body ∧
      body.recommendations = [] := by
  obtain ⟨body, hb, _, _, hempty⟩ := packagingRecommendations_suitable
    { length := some 10, width := some 10, height := some 10 } 1 "furniture" "low"
    (by norm_num) (by decide) (by decide)
  exact ⟨body, hb, hempty (by decide)⟩

/-- C6: for every option of the table, `calculatePackagingScore` is the
option's sustainability plus 10 when fragility is 'high' and the option is
Mushroom Packaging, plus 5 when volume > 1000 and the cost tier is Low, plus 5
when weight > 5 and the option is Recycled Cardboard. -/
theorem calculatePackagingScore_table (key : String) (option : PackagingOption)
    (h : (key, option) ∈ packagingOptions) (volume weight : JSNum) (fragility : String) :
    calculatePackagingScore option volume weight fragility =
      option.sustainability +
        (if fragility = "high" ∧ option.name = "Mushroom Packaging" then 10 else 0) +
        (if volume.gt (JSNum.fin 1000) = true ∧ option.cost = "Low" then 5 else 0) +
        (if weight.gt (JSNum.fin 5) = true ∧ option.name = "Recycled Cardboard" then 5 else 0) := by
  obtain ⟨hm, hc⟩ := includes_table_names h
  simp only [calculatePackagingScore, hm, hc]
  split_ifs <;> rfl

theorem calculatePackagingScore_table_witness :
    calculatePackagingScore
        { name := "Recycled Cardboard", sustainability := 85, cost := "Low",
          recyclable := true, biodegradable := true, co2Impact := 5 / 10,
          bestFor := ["electronics", "clothing", "documents"] }
        (JSNum.fin 2000) (JSNum.fin 6) "high" = 95 := by
  have h := calculatePackagingScore_table "cardboard"
    { name := "Recycled Cardboard", sustainability := 85, cost := "Low",
      recyclable := true, biodegradable := true, co2Impact := 5 / 10,
      bestFor := ["electronics", "clothing", "documents"] }
    (by simp [packagingOptions]) (JSNum.fin 2000) (JSNum.fin 6) "high"
  rw [h]
  norm_num [JSNum.gt]
  decide

/-- C7 (counterexample): for Recycled Cardboard (tier Low), volume 1001 and
weight 5 the double product 2 * 1.001 * 2.5 lies below 5.005 and the cost is
'5.00', whereas the real product 5.005 printed with two decimals is '5.01'. -/
theorem calculatePackagingCost_not_real_product :
    calculatePackagingCost
        { name := "Recycled Cardboard", sustainability := 85, cost := "Low",
          recyclable := true, biodegradable := true, co2Impact := 5 / 10,
          bestFor := ["electronics", "clothing", "documents"] }
        (JSNum.fin 1001) (JSNum.fin 5) = "5.00" ∧
      toFixed 2 (JSNum.fin (2 * max 1 (1001 / 1000) * max 1 (5 / 2))) = "5.01" := by
  have h1 : roundDouble (1001 / 1000) =
      JSNum.fin (2254051613498933 / 2251799813685248) :=
    roundDouble_eq _ (0) 4508103226997866 (1 / 2 ^ 52) _ (by norm_num) (by norm_num)
      (by norm_num) (by norm_num) (by norm_num) (Or.inl (by norm_num)) (by norm_num)
      (by norm_num) (by norm_num) (by norm_num)
  have h2 : (JSNum.fin 1001).div (JSNum.fin 1000) =
      JSNum.fin (2254051613498933 / 2251799813685248) := by
    rw [div_fin _ _ (by norm_num), h1]
  have h3 : roundDouble (5 / 2) =
      JSNum.fin (5 / 2) :=
    roundDouble_eq _ (1) 5629499534213120 (1 / 2 ^ 51) _ (by norm_num) (by norm_num)
      (by norm_num) (by norm_num) (by norm_num) (Or.inl (by norm_num)) (by norm_num)
      (by norm_num) (by norm_num) (by norm_num)
  have h4 : (JSNum.fin 5).div (JSNum.fin 2) =
      JSNum.fin (5 / 2) := by
    rw [div_fin _ _ (by norm_num), h3]
  have h5 : roundDouble (2 * (2254051613498933 / 2251799813685248)) =
      JSNum.fin (2254051613498933 / 1125899906842624) :=
    roundDouble_eq _ (1) 4508103226997866 (1 / 2 ^ 51) _ (by norm_num) (by norm_num)
      (by norm_num) (by norm_num) (by norm_num) (Or.inl (by norm_num)) (by norm_num)
      (by norm_num) (by norm_num) (by norm_num)
  have h6 : (JSNum.fin 2).mul (JSNum.fin (2254051613498933 / 2251799813685248)) =
      JSNum.fin (2254051613498933 / 1125899906842624) := by
    rw [mul_fin, h5]
  have h7 : roundDouble ((2254051613498933 / 1125899906842624) * (5 / 2)) =
      JSNum.fin (1408782258436833 / 281474976710656) :=
    roundDouble_eq_tie _ (2) 5635129033747332 5635129033747332 (1 / 2 ^ 50) _
      (by norm_num) (by norm_num) (by norm_num) (by norm_num) (by norm_num) (Or.inl (by norm_num))
      (by norm_num) (by norm_num) (by norm_num) (Or.inl rfl) (by norm_num)
  have h8 : (JSNum.fin (2254051613498933 / 1125899906842624)).mul (JSNum.fin (5 / 2)) =
      JSNum.fin (1408782258436833 / 281474976710656) := by
    rw [mul_fin, h7]
  have h9 : toFixed 2 (JSNum.fin (1408782258436833 / 281474976710656)) = "5.00" := by
    rw [toFixed_eq 2 500 (by norm_num) (by norm_num) (by norm_num) (by norm_num)]
    decide
  have hmv : max (1 : ℚ) (2254051613498933 / 2251799813685248) =
      (2254051613498933 / 2251799813685248) := max_eq_right (by norm_num)
  have hmw : max (1 : ℚ) (5 / 2) = 5 / 2 := max_eq_right (by norm_num)
  have hb : baseCosts "Low" = JSNum.fin 2 := rfl
  constructor
  · simp only [calculatePackagingCost, hb, h2, h4, max_fin, hmv, hmw, h6, h8, h9]
  · have hv : (2 : ℚ) * max 1 (1001 / 1000) * max 1 (5 / 2) = 1001 / 200 := by
      rw [max_eq_right (by norm_num), max_eq_right (by norm_num)]; norm_num
    rw [hv, toFixed_eq 2 501 (by norm_num) (by norm_num) (by norm_num) (by norm_num)]
    decide

/-- C7 (amended): for every option of the table and every volume and weight,
`calculatePackagingCost` is the base cost of the tier (Low 2, Medium 5,
High 12) times max(1, volume/1000) times max(1, weight/2), each quotient and
product rounded to a double, printed with two decimals; for volume ≤ 1000 and
weight ≤ 2 it is '2.00', '5.00' or '12.00'. -/
theorem calculatePackagingCost_table (key : String) (option : PackagingOption)
    (h : (key, option) ∈ packagingOptions) (volume weight : ℚ) :
    ∃ base : ℚ,
      ((option.cost = "Low" ∧ base = 2) ∨ (option.cost = "Medium" ∧ base = 5) ∨
        (option.cost = "High" ∧ base = 12)) ∧
      calculatePackagingCost option (JSNum.fin volume) (JSNum.fin weight) =
        toFixed 2 (((JSNum.fin base).mul
          (JSNum.max (JSNum.fin 1) ((JSNum.fin volume).div (JSNum.fin 1000)))).mul
          (JSNum.max (JSNum.fin 1) ((JSNum.fin weight).div (JSNum.fin 2)))) ∧
      (volume ≤ 1000 → weight ≤ 2 →
        calculatePackagingCost option (JSNum.fin volume) (JSNum.fin weight) =
          (if option.cost = "Low" then "2.00" else if option.cost = "Medium" then "5.00"
            else "12.00")) := by
  have hcost : ∀ base : ℚ, baseCosts option.cost = JSNum.fin base →
      calculatePackagingCost option (JSNum.fin volume) (JSNum.fin weight) =
        toFixed 2 (((JSNum.fin base).mul
          (JSNum.max (JSNum.fin 1) ((JSNum.fin volume).div (JSNum.fin 1000)))).mul
          (JSNum.max (JSNum.fin 1) ((JSNum.fin weight).div (JSNum.fin 2)))) := by
    intro base hb
    simp only [calculatePackagingCost, hb]
  have hone : ∀ base : ℚ, roundDouble base = JSNum.fin base → volume ≤ 1000 → weight ≤ 2 →
      ((JSNum.fin base).mul
          (JSNum.max (JSNum.fin 1) ((JSNum.fin volume).div (JSNum.fin 1000)))).mul
          (JSNum.max (JSNum.fin 1) ((JSNum.fin weight).div (JSNum.fin 2))) =
        JSNum.fin base := by
    intro base hbase h1 h2
    rw [div_fin _ _ (by norm_num), div_fin _ _ (by norm_num),
      max_one_roundDouble (by rw [div_le_one (by norm_num)]; exact h1),
      max_one_roundDouble (by rw [div_le_one (by norm_num)]; exact h2),
      mul_fin, mul_one, hbase, mul_fin, mul_one, hbase]
  obtain ⟨t2, t5, t12⟩ := toFixed_two_base
  obtain ⟨r2, r5, r12⟩ := roundDouble_base
  rcases baseCosts_table h with ⟨hc, hb⟩ | ⟨hc, hb⟩ | ⟨hc, hb⟩
  · refine ⟨2, Or.inl ⟨hc, rfl⟩, hcost 2 hb, fun h1 h2 => ?_⟩
    rw [hcost 2 hb, hone 2 r2 h1 h2, t2, hc]; rfl
  · refine ⟨5, Or.inr (Or.inl ⟨hc, rfl⟩), hcost 5 hb, fun h1 h2 => ?_⟩
    rw [hcost 5 hb, hone 5 r5 h1 h2, t5, hc]; rfl
  · refine ⟨12, Or.inr (Or.inr ⟨hc, rfl⟩), hcost 12 hb, fun h1 h2 => ?_⟩
    rw [hcost 12 hb, hone 12 r12 h1 h2, t12, hc]; rfl

theorem calculatePackagingCost_table_witness :
    calculatePackagingCost
        { name := "Mushroom Packaging", sustainability := 95, cost := "High",
          recyclable := true, biodegradable := true, co2Impact := 2 / 10,
          bestFor := ["fragile", "electronics", "luxury"] }
        (JSNum.fin 1000) (JSNum.fin 2) = "12.00" ∧
      calculatePackagingCost
        { name := "Recycled Cardboard", sustainability := 85, cost := "Low",
          recyclable := true, biodegradable := true, co2Impact := 5 / 10,
          bestFor := ["electronics", "clothing", "documents"] }
        (JSNum.fin 1005) (JSNum.fin 3) = "3.01" := by
  constructor
  · obtain ⟨base, _, _, hsmall⟩ := calculatePackagingCost_table "mushroom"
      { name := "Mushroom Packaging", sustainability := 95, cost := "High",
        recyclable := true, biodegradable := true, co2Impact := 2 / 10,
        bestFor := ["fragile", "electronics", "luxury"] }
      (by simp [packagingOptions]) 1000 2
    rw [hsmall (le_refl _) (le_refl _)]
    rfl
  · obtain ⟨base, htier, hcost, _⟩ := calculatePackagingCost_table "cardboard"
      { name := "Recycled Cardboard", sustainability := 85, cost := "Low",
        recyclable := true, biodegradable := true, co2Impact := 5 / 10,
        bestFor := ["electronics", "clothing", "documents"] }
      (by simp [packagingOptions]) 1005 3
    have hbase : base = 2 := by
      rcases htier with ⟨_, hb⟩ | ⟨hc, _⟩ | ⟨hc, _⟩
      · exact hb
      · exact absurd hc (by decide)
      · exact absurd hc (by decide)
    have h1 : roundDouble (1005 / 1000) =
        JSNum.fin (1131529406376837 / 1125899906842624) :=
      roundDouble_eq _ (0) 4526117625507348 (1 / 2 ^ 52) _ (by norm_num) (by norm_num)
        (by norm_num) (by norm_num) (by norm_num) (Or.inl (by norm_num)) (by norm_num)
        (by norm_num) (by norm_num) (by norm_num)
    have h2 : (JSNum.fin 1005).div (JSNum.fin 1000) =
        JSNum.fin (1131529406376837 / 1125899906842624) := by
      rw [div_fin _ _ (by norm_num), h1]
    have h3 : roundDouble (3 / 2) =
        JSNum.fin (3 / 2) :=
      roundDouble_eq _ (0) 6755399441055744 (1 / 2 ^ 52) _ (by norm_num) (by norm_num)
        (by norm_num) (by norm_num) (by norm_num) (Or.inl (by norm_num)) (by norm_num)
        (by norm_num) (by norm_num) (by norm_num)
    have h4 : (JSNum.fin 3).div (JSNum.fin 2) =
        JSNum.fin (3 / 2) := by
      rw [div_fin _ _ (by norm_num), h3]
    have h5 : roundDouble (2 * (1131529406376837 / 1125899906842624)) =
        JSNum.fin (1131529406376837 / 562949953421312) :=
      roundDouble_eq _ (1) 4526117625507348 (1 / 2 ^ 51) _ (by norm_num) (by norm_num)
        (by norm_num) (by norm_num) (by norm_num) (Or.inl (by norm_num)) (by norm_num)
        (by norm_num) (by norm_num) (by norm_num)
    have h6 : (JSNum.fin 2).mul (JSNum.fin (1131529406376837 / 1125899906842624)) =
        JSNum.fin (1131529406376837 / 562949953421312) := by
      rw [mul_fin, h5]
    have h7 : roundDouble ((1131529406376837 / 562949953421312) * (3 / 2)) =
        JSNum.fin (3394588219130511 / 1125899906842624) :=
      roundDouble_eq _ (1) 6789176438261022 (1 / 2 ^ 51) _ (by norm_num) (by norm_num)
        (by norm_num) (by norm_num) (by norm_num) (Or.inl (by norm_num)) (by norm_num)
        (by norm_num) (by norm_num) (by norm_num)
    have h8 : (JSNum.fin (1131529406376837 / 562949953421312)).mul (JSNum.fin (3 / 2)) =
        JSNum.fin (3394588219130511 / 1125899906842624) := by
      rw [mul_fin, h7]
    have h9 : toFixed 2 (JSNum.fin (3394588219130511 / 1125899906842624)) = "3.01" := by
      rw [toFixed_eq 2 301 (by norm_num) (by norm_num) (by norm_num) (by norm_num)]
      decide
    have hmv : max (1 : ℚ) (1131529406376837 / 1125899906842624) =
        (1131529406376837 / 1125899906842624) := max_eq_right (by norm_num)
    have hmw : max (1 : ℚ) (3 / 2) = 3 / 2 := max_eq_right (by norm_num)
    rw [hcost, hbase]
    simp only [h2, h4, max_fin, hmv, hmw, h6, h8, h9]

/-- C8: the recommendations of an accepted packaging request are the first
three elements of the candidates sorted by non-increasing score, and two
returned candidates of equal score stand in the order of the
`packagingOptions` table. -/
theorem packagingRecommendations_stable_top3 (dimensions : Dimensions) (weight : ℚ)
    (itemType fragility : String) (hw : weight ≠ 0) (hi : itemType ≠ "")
    (hfr : fragility ≠ "") :
    ∃ (body : PackagingResult) (sorted : List ScoredOption), packagingRecommendations
        { dimensions := some dimensions, weight := some weight,
          itemType := some itemType, fragility := some fragility } = .ok body ∧
      body.recommendations = sorted.take 3 ∧
      sorted.Perm (scored itemType (dimensionsVolume dimensions) (JSNum.fin weight) fragility) ∧
      sorted.Pairwise (fun a b => b.score ≤ a.score) ∧
      (∀ a b, List.Sublist [a, b] body.recommendations → a.score = b.score →
        List.Sublist [a.key, b.key] (packagingOptions.map Prod.fst)) := by
  refine ⟨_, sortByScore (scored itemType (dimensionsVolume dimensions) (JSNum.fin weight) fragility),
    packagingRecommendations_accepted dimensions weight itemType fragility hw hi hfr,
    rfl, List.perm_insertionSort _ _, List.sorted_insertionSort scoreOrder _, ?_⟩
  intro a b hab hs
  exact sortByScore_pair_key_sublist itemType _ _ fragility
    (hab.trans (List.take_sublist 3 _)) hs

theorem packagingRecommendations_stable_top3_witness :
    ∃ body, packagingRecommendations
        { dimensions := some { length := some 10, width := some 10, height := some 20 },
          weight := some 6, itemType := some "electronics", fragility := some "low" } = .ok body ∧
      ∀ a b, List.Sublist [a, b] body.recommendations → a.score = b.score →
        List.Sublist [a.key, b.key] (packagingOptions.map Prod.fst) := by
  obtain ⟨body, _, hb, _, _, _, hst⟩ := packagingRecommendations_stable_top3
    { length := some 10, width := some 10, height := some 20 } 6 "electronics" "low"
    (by norm_num) (by decide) (by decide)
  exact ⟨body, hb, hst⟩

/-- C9 (counterexample): for electronics of volume 2000, weight 6 and low
fragility the returned scores are 95, 95, 90: the first is not strictly
greater than the second. -/
theorem packagingRecommendations_scores_tie :
    ∃ body, packagingRecommendations
        { dimensions := some { length := some 10, width := some 10, height := some 20 },
          weight := some 6, itemType := some "electronics", fragility := some "low" } = .ok body ∧
      body.recommendations.map (fun r => r.key) = ["cardboard", "mushroom", "cornstarch"] ∧
      body.recommendations.map (fun r => r.score) = [95, 95, 90] ∧
      ¬ List.Chain' (fun a b => b.score < a.score) body.recommendations := by
  have hacc := packagingRecommendations_accepted
    { length := some 10, width := some 10, height := some 20 } 6 "electronics" "low"
    (by norm_num) (by decide) (by decide)
  have hsuit : suitable "electronics" =
      [packagingOptions.get ⟨0, by decide⟩, packagingOptions.get ⟨2, by decide⟩,
        packagingOptions.get ⟨4, by decide⟩] := by
    rfl
  have hvol := dimensionsVolume_ten_ten_twenty
  have h56 : (5 : ℚ) < 6 := by norm_num
  have h12 : (1000 : ℚ) < 2000 := by norm_num
  have hm1 : includes "Recycled Cardboard" "Mushroom" = false := by decide
  have hm2 : includes "Recycled Cardboard" "Cardboard" = true := by decide
  have hm3 : includes "Mushroom Packaging" "Mushroom" = true := by decide
  have hm4 : includes "Mushroom Packaging" "Cardboard" = false := by decide
  have hm5 : includes "Cornstarch Packing Peanuts" "Mushroom" = false := by decide
  have hm6 : includes "Cornstarch Packing Peanuts" "Cardboard" = false := by decide
  refine ⟨_, hacc, ?_, ?_, ?_⟩ <;>
  · rw [hvol]
    simp [scored, hsuit, packagingOptions, sortByScore, scoreOrder, calculatePackagingScore,
      JSNum.gt, hm1, hm2, hm3, hm4, hm5, hm6, h56, h12]

/-- C9 (amended): the scores of the returned recommendations are
non-increasing: each returned item's score is at least the score of the item
after it. -/
theorem packagingRecommendations_scores_nonincreasing (dimensions : Dimensions) (weight : ℚ)
    (itemType fragility : String) (hw : weight ≠ 0) (hi : itemType ≠ "")
    (hfr : fragility ≠ "") :
    ∃ body, packagingRecommendations
        { dimensions := some dimensions, weight := some weight,
          itemType := some itemType, fragility := some fragility } = .ok body ∧
      List.Chain' (fun a b => b.score ≤ a.score) body.recommendations := by
  refine ⟨_, packagingRecommendations_accepted dimensions weight itemType fragility hw hi hfr, ?_⟩
  have hs : (sortByScore (scored itemType (dimensionsVolume dimensions) (JSNum.fin weight)
      fragility)).Pairwise scoreOrder := List.sorted_insertionSort scoreOrder _
  exact List.Pairwise.chain' (hs.sublist (List.take_sublist 3 _))

theorem packagingRecommendations_scores_nonincreasing_witness :
    ∃ body, packagingRecommendations
        { dimensions := some { length := some 10, width := some 10, height := some 20 },
          weight := some 6, itemType := some "electronics", fragility := some "low" } = .ok body ∧
      List.Chain' (fun a b => b.score ≤ a.score) body.recommendations :=
  packagingRecommendations_scores_nonincreasing
    { length := some 10, width := some 10, height := some 20 } 6 "electronics" "low"
    (by norm_num) (by decide) (by decide)

/-- C10: for a location list of length n ≥ 1, `analyzeRoutes` returns
originalDistance 800·n, optimizedDistance round(0.75·800·n), originalCO2
round(800·n·0.16), optimizedCO2 round(0.75·currentCO2), co2Savings
round(currentCO2·0.25), costSavings round(co2Savings·2.5), efficiency
round(co2Savings / currentCO2 · 100) and timeSaved '0.5-1 day', where
currentCO2 = 800·n·0.16. -/
theorem analyzeRoutes_values (locations : List String) (h : 1 ≤ locations.length) :
    ∃ (n currentCO2 : ℚ) (co2Savings : ℤ),
      n = locations.length ∧ currentCO2 = 800 * n * (16 / 100) ∧
      (analyzeRoutes locations).originalDistance = JSNum.fin (800 * n) ∧
      (analyzeRoutes locations).optimizedDistance = JSNum.fin (specRound (75 / 100 * 800 * n)) ∧
      (analyzeRoutes locations).originalCO2 = JSNum.fin (specRound currentCO2) ∧
      (analyzeRoutes locations).optimizedCO2 = JSNum.fin (specRound (75 / 100 * currentCO2)) ∧
      co2Savings = specRound (currentCO2 * (25 / 100)) ∧
      (analyzeRoutes locations).co2Savings = JSNum.fin co2Savings ∧
      (analyzeRoutes locations).costSavings = JSNum.fin (specRound (co2Savings * (25 / 10))) ∧
      (analyzeRoutes locations).efficiency =
        JSNum.fin (specRound (co2Savings / currentCO2 * 100)) ∧
      (analyzeRoutes locations).timeSaved = "0.5-1 day" := by
  have hn : (0 : ℚ) < (locations.length : ℚ) := by exact_mod_cast h
  have hcur : (locations.length : ℚ) * 800 * (16 / 100) ≠ 0 := by positivity
  have hsav : specRound (800 * (locations.length : ℚ) * (16 / 100) * (25 / 100)) =
      32 * (locations.length : ℤ) := by
    have : 800 * (locations.length : ℚ) * (16 / 100) * (25 / 100) =
        ((32 * (locations.length : ℤ) : ℤ) : ℚ) := by
      push_cast; ring
    rw [specRound, this, floor_intCast_add_half]
  refine ⟨locations.length, 800 * locations.length * (16 / 100), 32 * (locations.length : ℤ),
    rfl, rfl, ?_, ?_, ?_, ?_, hsav.symm, ?_, ?_, ?_, rfl⟩
  · simp only [analyzeRoutes, JSNum.mulExact]
    congr 1; ring
  · simp only [analyzeRoutes, JSNum.mulExact, JSNum.round, specRound]
    congr 3; ring
  · simp only [analyzeRoutes, JSNum.mulExact, JSNum.round, specRound]
    congr 3; ring
  · simp only [analyzeRoutes, JSNum.mulExact, JSNum.round, specRound]
    congr 3; ring
  · rw [← hsav]
    simp only [analyzeRoutes, JSNum.mulExact, JSNum.subExact, JSNum.round, specRound]
    congr 3; ring
  · simp only [analyzeRoutes, JSNum.mulExact, JSNum.subExact, JSNum.round, specRound]
    congr 3; push_cast; ring
  · simp only [analyzeRoutes, JSNum.mulExact, JSNum.subExact, JSNum.divExact, JSNum.round, specRound,
      if_neg hcur]
    congr 3; push_cast; field_simp; ring

theorem analyzeRoutes_values_witness :
    (analyzeRoutes ["NYC", "LA", "Chicago"]).originalDistance = JSNum.fin 2400 ∧
    (analyzeRoutes ["NYC", "LA", "Chicago"]).optimizedDistance = JSNum.fin 1800 ∧
    (analyzeRoutes ["NYC", "LA", "Chicago"]).originalCO2 = JSNum.fin 384 ∧
    (analyzeRoutes ["NYC", "LA", "Chicago"]).optimizedCO2 = JSNum.fin 288 ∧
    (analyzeRoutes ["NYC", "LA", "Chicago"]).co2Savings = JSNum.fin 96 ∧
    (analyzeRoutes ["NYC", "LA", "Chicago"]).costSavings = JSNum.fin 240 ∧
    (analyzeRoutes ["NYC", "LA", "Chicago"]).efficiency = JSNum.fin 25 := by
  obtain ⟨n, cur, sav, hn, hcur, h1, h2, h3, h4, hs, h5, h6, h7, _⟩ :=
    analyzeRoutes_values ["NYC", "LA", "Chicago"] (by decide)
  have hn3 : n = 3 := by rw [hn]; norm_num
  have hc : cur = 384 := by rw [hcur, hn3]; norm_num
  have fl : ∀ (q : ℚ) (z : ℤ), q = z → specRound q = z := by
    intro q z hq
    rw [specRound, hq, floor_intCast_add_half]
  have hs96 : sav = 96 := by rw [hs, hc]; exact fl _ 96 (by norm_num)
  refine ⟨?_, ?_, ?_, ?_, ?_, ?_, ?_⟩
  · rw [h1, hn3]; norm_num
  · rw [h2, hn3, fl _ 1800 (by norm_num)]; norm_num
  · rw [h3, hc, fl _ 384 (by norm_num)]; norm_num
  · rw [h4, hc, fl _ 288 (by norm_num)]; norm_num
  · rw [h5, hs96]; norm_num
  · rw [h6, hs96, fl _ 240 (by norm_num)]; norm_num
  · rw [h7, hs96, hc, fl _ 25 (by norm_num)]; norm_num

/-- C11 (counterexample): for origin "NYC" and the single destination " LA "
the returned stops are "NYC" and " LA ", the latter with its blanks, not its
trimmed form "LA". -/
theorem optimizeRoute_stops_untrimmed :
    ∃ body, optimizeRoute
        { origin := some "NYC", destinations := some (.list [.string " LA "]) } = .ok body ∧
      body.optimizedRoute.stops = ["NYC", " LA "] ∧
      trim " LA " = "LA" ∧
      body.optimizedRoute.stops ≠ ["NYC", trim " LA "] := by
  have hk : filterDestinations [.string " LA "] = .ok [" LA "] := by
    have hf : [" LA "].filter (fun d => decide (trim d ≠ "")) = [" LA "] := by decide
    have h := filterDestinations_strings [" LA "]
    rwa [hf] at h
  refine ⟨_, optimizeRoute_of_filter "NYC" _ _ (by decide) hk, rfl, by decide, ?_⟩
  show ["NYC", " LA "] ≠ ["NYC", trim " LA "]
  decide

/-- C11 (amended): for a non-empty origin and a list of destination strings,
the stops are the origin followed by exactly those destinations whose trimmed
form is not empty, unchanged and in their original order, and totalLocations
is 1 plus their number. -/
theorem optimizeRoute_stops (origin : String) (ds : List String) (ho : origin ≠ "") :
    ∃ body, optimizeRoute
        { origin := some origin, destinations := some (.list (ds.map JsonEntry.string)) } =
        .ok body ∧
      body.optimizedRoute.stops = origin :: ds.filter (fun d => decide (trim d ≠ "")) ∧
      body.totalLocations = 1 + (ds.filter (fun d => decide (trim d ≠ ""))).length :=
  ⟨_, optimizeRoute_of_filter origin _ _ ho (filterDestinations_strings ds), rfl,
    by simp [Nat.add_comm]⟩

theorem optimizeRoute_stops_witness :
    ∃ body, optimizeRoute
        { origin := some "NYC",
          destinations := some (.list [.string " LA ", .string "  ", .string "", .string "Chicago"]) } =
        .ok body ∧
      body.optimizedRoute.stops = ["NYC", " LA ", "Chicago"] ∧
      body.totalLocations = 3 := by
  obtain ⟨body, hb, hs, ht⟩ := optimizeRoute_stops "NYC" [" LA ", "  ", "", "Chicago"] (by decide)
  have hf : [" LA ", "  ", "", "Chicago"].filter (fun d => decide (trim d ≠ "")) =
      [" LA ", "Chicago"] := by decide
  rw [hf] at hs ht
  exact ⟨body, hb, hs, ht⟩

/-- C12 (counterexample): a non-empty origin with the destination list [5]
gets neither a success nor a 400: `dest.trim` is not a function for the
number 5, the exception is caught and the response is the 500 error. -/
theorem optimizeRoute_number_destination :
    optimizeRoute { origin := some "NYC", destinations := some (.list [.number 5]) } =
      .serverError "Internal server error during route optimization" := by
  have hk : filterDestinations [.number 5] = .error () := by
    simp [filterDestinations, JsonEntry.truthy]
  simp [optimizeRoute, hk]

/-- C12 (amended): the handler answers 400 exactly when origin is absent or
empty or destinations is absent or not a list; a non-empty origin with a list
whose truthy entries are all strings gets a success response. -/
theorem optimizeRoute_validation (req : RouteRequest) :
    ((∃ e, optimizeRoute req = .badRequest e) ↔
      (req.origin = none ∨ req.origin = some "" ∨ req.destinations = none ∨
        req.destinations = some .notList)) ∧
    (∀ origin items, req.origin = some origin → req.destinations = some (.list items) →
      origin ≠ "" → (∀ e ∈ items, e.truthy = true → ∃ s, e = JsonEntry.string s) →
      ∃ body, optimizeRoute req = .ok body) := by
  obtain ⟨origin, destinations⟩ := req
  constructor
  · cases origin with
    | none => simp [optimizeRoute]
    | some o =>
      cases destinations with
      | none => simp [optimizeRoute]
      | some d =>
        cases d with
        | notList => simp [optimizeRoute]
        | list items =>
          by_cases ho : o = ""
          · simp [optimizeRoute, ho]
          · cases hk : filterDestinations items with
            | error e => simp [optimizeRoute, ho, hk]
            | ok kept => simp [optimizeRoute, ho, hk]
  · intro o items h1 h2 ho hitems
    simp only at h1 h2
    subst h1 h2
    obtain ⟨kept, hk⟩ := filterDestinations_ok items hitems
    exact ⟨_, optimizeRoute_of_filter o items kept ho hk⟩

theorem optimizeRoute_validation_witness :
    ∃ body, optimizeRoute { origin := some "NYC", destinations := some (.list []) } = .ok body :=
  (optimizeRoute_validation { origin := some "NYC", destinations := some (.list []) }).2
    "NYC" [] rfl rfl (by decide) (by simp)

/-- C13: `generateRouteRecommendations` returns, in this order, 'Hub
Consolidation' exactly when n > 3, 'Load Optimization', 'Route Sequencing',
and 'Multi-Modal Transport' exactly when n > 2; so 2 entries for n ≤ 2, 3 for
n = 3, 4 for n ≥ 4, and the list depends on the length n alone. -/
theorem generateRouteRecommendations_types (locations : List String) :
    (locations.length ≤ 2 →
      (generateRouteRecommendations locations).map (fun r => r.type) =
        ["Load Optimization", "Route Sequencing"]) ∧
    (locations.length = 3 →
      (generateRouteRecommendations locations).map (fun r => r.type) =
        ["Load Optimization", "Route Sequencing", "Multi-Modal Transport"]) ∧
    (4 ≤ locations.length →
      (generateRouteRecommendations locations).map (fun r => r.type) =
        ["Hub Consolidation", "Load Optimization", "Route Sequencing",
          "Multi-Modal Transport"]) ∧
    (∀ other : List String, other.length = locations.length →
      generateRouteRecommendations other = generateRouteRecommendations locations) := by
  refine ⟨?_, ?_, ?_, ?_⟩
  · intro h
    have h3 : ¬ locations.length > 3 := by omega
    have h2 : ¬ locations.length > 2 := by omega
    simp [generateRouteRecommendations, h3, h2]
  · intro h
    have h3 : ¬ locations.length > 3 := by omega
    have h2 : locations.length > 2 := by omega
    simp [generateRouteRecommendations, h3, h2]
  · intro h
    have h3 : locations.length > 3 := by omega
    have h2 : locations.length > 2 := by omega
    simp [generateRouteRecommendations, h3, h2]
  · intro other h
    simp only [generateRouteRecommendations, h]

theorem generateRouteRecommendations_types_witness :
    (generateRouteRecommendations ["NYC", "LA"]).length = 2 ∧
    (generateRouteRecommendations ["NYC", "LA", "Chicago"]).length = 3 ∧
    (generateRouteRecommendations ["NYC", "LA", "Chicago", "Boston"]).length = 4 ∧
    generateRouteRecommendations ["A", "B", "C"] =
      generateRouteRecommendations ["NYC", "LA", "Chicago"] := by
  have h2 := (generateRouteRecommendations_types ["NYC", "LA"]).1 (by decide)
  have h3 := (generateRouteRecommendations_types ["NYC", "LA", "Chicago"]).2.1 (by decide)
  have h4 := (generateRouteRecommendations_types ["NYC", "LA", "Chicago", "Boston"]).2.2.1
    (by decide)
  have hn := (generateRouteRecommendations_types ["NYC", "LA", "Chicago"]).2.2.2
    ["A", "B", "C"] (by decide)
  refine ⟨?_, ?_, ?_, hn⟩
  · simpa using congrArg List.length h2
  · simpa using congrArg List.length h3
  · simpa using congrArg List.length h4

/-- C14: `findConsolidationOpportunities` returns two entries: 'Regional
Grouping' with shipments ceil(n/2) and the description 'Group k destinations
by region' where k is the decimal numeral of n − 1 ('-1' for the empty list),
then 'Carrier Partnership' with shipments 1; the result depends on the length
n alone. -/
theorem findConsolidationOpportunities_entries (locations : List String) :
    ∃ grouping partnership : ConsolidationOption,
      findConsolidationOpportunities locations = [grouping, partnership] ∧
      grouping.type = "Regional Grouping" ∧
      grouping.shipments = JSNum.fin (⌈(locations.length : ℚ) / 2⌉ : ℤ) ∧
      ⌈(locations.length : ℚ) / 2⌉ = (((locations.length + 1) / 2 : ℕ) : ℤ) ∧
      (1 ≤ locations.length →
        grouping.description =
          "Group " ++ Nat.repr (locations.length - 1) ++ " destinations by region") ∧
      (locations.length = 0 → grouping.description = "Group -1 destinations by region") ∧
      partnership.type = "Carrier Partnership" ∧
      partnership.shipments = JSNum.fin 1 ∧
      (∀ other : List String, other.length = locations.length →
        findConsolidationOpportunities other = findConsolidationOpportunities locations) := by
  refine ⟨_, _, rfl, rfl, ?_, ceil_half_natCast _, ?_, ?_, rfl, rfl, ?_⟩
  · simp [JSNum.divExact, JSNum.ceil]
  · intro h
    have hnn : ¬ ((locations.length : ℤ) - 1 < 0) := by omega
    have hnat : ((locations.length : ℤ) - 1).toNat = locations.length - 1 := by omega
    show "Group " ++ intToString ((locations.length : ℤ) - 1) ++ " destinations by region" = _
    rw [intToString, if_neg hnn, hnat]
  · intro h
    show "Group " ++ intToString ((locations.length : ℤ) - 1) ++ " destinations by region" = _
    rw [h]
    decide
  · intro other h
    simp only [findConsolidationOpportunities, h]

theorem findConsolidationOpportunities_entries_witness :
    ∃ grouping partnership : ConsolidationOption,
      findConsolidationOpportunities ["NYC", "LA", "Chicago"] = [grouping, partnership] ∧
      grouping.type = "Regional Grouping" ∧
      grouping.shipments = JSNum.fin 2 ∧
      grouping.description = "Group 2 destinations by region" ∧
      partnership.type = "Carrier Partnership" ∧
      partnership.shipments = JSNum.fin 1 := by
  obtain ⟨g, p, hl, ht, hs, hc, hd, _, hpt, hps, _⟩ :=
    findConsolidationOpportunities_entries ["NYC", "LA", "Chicago"]
  refine ⟨g, p, hl, ht, ?_, ?_, hpt, hps⟩
  · rw [hs, hc]
    norm_num
  · rw [hd (by decide)]
    decide

/-- C18: every request that the optimize-route handler answers with success
passed a location list of length n ≥ 1 to `analyzeRoutes`; currentCO2 = 128·n
is not zero, originalCO2 is 128·n and efficiency is exactly 25. -/
theorem optimizeRoute_efficiency (req : RouteRequest) (body : RouteResult)
    (h : optimizeRoute req = .ok body) :
    1 ≤ body.optimizedRoute.stops.length ∧
    body.totalLocations = body.optimizedRoute.stops.length ∧
    (128 * (body.totalLocations : ℚ)) ≠ 0 ∧
    body.optimizedRoute.originalCO2 = JSNum.fin (128 * (body.totalLocations : ℚ)) ∧
    body.optimizedRoute.efficiency = JSNum.fin 25 := by
  obtain ⟨origin, destinations⟩ := req
  cases origin with
  | none => simp [optimizeRoute] at h
  | some o =>
    cases destinations with
    | none => simp [optimizeRoute] at h
    | some d =>
      cases d with
      | notList => simp [optimizeRoute] at h
      | list items =>
        by_cases ho : o = ""
        · simp [optimizeRoute, ho] at h
        · cases hk : filterDestinations items with
          | error e => simp [optimizeRoute, ho, hk] at h
          | ok kept =>
            simp only [optimizeRoute, if_neg ho, hk, Response.ok.injEq] at h
            subst h
            obtain ⟨h1, h2, h3⟩ := analyzeRoutes_of_ne_nil (o :: kept) (List.cons_ne_nil _ _)
            exact ⟨by simp [analyzeRoutes], rfl, h2, h1, h3⟩

theorem optimizeRoute_efficiency_witness :
    ∃ body, optimizeRoute
        { origin := some "NYC", destinations := some (.list [.string "LA", .string "Chicago"]) } =
        .ok body ∧
      body.totalLocations = 3 ∧ body.optimizedRoute.efficiency = JSNum.fin 25 := by
  have hf : ["LA", "Chicago"].filter (fun d => decide (trim d ≠ "")) = ["LA", "Chicago"] := by
    decide
  have hk : filterDestinations [.string "LA", .string "Chicago"] = .ok ["LA", "Chicago"] := by
    have h := filterDestinations_strings ["LA", "Chicago"]
    rwa [hf] at h
  have hb := optimizeRoute_of_filter "NYC" _ _ (by decide) hk
  exact ⟨_, hb, rfl, (optimizeRoute_efficiency _ _ hb).2.2.2.2⟩

/-- C15 (counterexample): for distance 3, weight 1 and truck/diesel the
product is about 0.483 and the reported footprint 0.48; the suggestion shows
67.1 %, computed from the product, whereas (0.48 − alt) / 0.48 * 100 with
alt = 3 * 1 * 0.053 gives 66.9. -/
theorem reduction_not_from_rounded_footprint :
    ∃ body s rest, calculateCarbon
        { distance := some 3, weight := some 1,
          transportMode := some "truck", fuelType := some "diesel" } = .ok body ∧
      body.carbonFootprint = roundDouble (12 / 25) ∧
      body.suggestions = s :: rest ∧
      s.reduction = "67.1% reduction" ∧
      toFixed 1 (((body.carbonFootprint.sub
        (((JSNum.fin 3).mul (JSNum.fin 1)).mul (roundDouble (53 / 1000)))).div
          body.carbonFootprint).mul (JSNum.fin 100)) ++ "% reduction" = "66.9% reduction" := by
  have h := calculateCarbon_of_mem_ne 3 1 "truck" "diesel"
    [("diesel", 161 / 1000), ("electric", 53 / 1000), ("hybrid", 95 / 1000)] (161 / 1000)
    (by norm_num) (by norm_num) (by simp [emissionFactors]) (by simp)
  obtain ⟨s, rest, hs, _, hr⟩ := generateCarbonSuggestions_cons
    (((JSNum.fin 3).mul (JSNum.fin 1)).mul (roundDouble (161 / 1000))) (JSNum.fin 3)
    (JSNum.fin 1) "truck" (Or.inl rfl)
  have h1 : roundDouble (3 * 1) =
      JSNum.fin 3 :=
    roundDouble_eq _ (1) 6755399441055744 (1 / 2 ^ 51) _ (by norm_num) (by norm_num)
      (by norm_num) (by norm_num) (by norm_num) (Or.inl (by norm_num)) (by norm_num)
      (by norm_num) (by norm_num) (by norm_num)
  have h2 : (JSNum.fin 3).mul (JSNum.fin 1) =
      JSNum.fin 3 := by
    rw [mul_fin, h1]
  have h3 : roundDouble (161 / 1000) =
      JSNum.fin (5800636320053199 / 36028797018963968) :=
    roundDouble_eq _ (-3) 5800636320053199 (1 / 2 ^ 55) _ (by norm_num) (by norm_num)
      (by norm_num) (by norm_num) (by norm_num) (Or.inl (by norm_num)) (by norm_num)
      (by norm_num) (by norm_num) (by norm_num)
  have h4 : roundDouble (3 * (5800636320053199 / 36028797018963968)) =
      JSNum.fin (4350477240039899 / 9007199254740992) :=
    roundDouble_eq_tie _ (-2) 8700954480079798 8700954480079798 (1 / 2 ^ 54) _
      (by norm_num) (by norm_num) (by norm_num) (by norm_num) (by norm_num) (Or.inl (by norm_num))
      (by norm_num) (by norm_num) (by norm_num) (Or.inl rfl) (by norm_num)
  have h5 : (JSNum.fin 3).mul (JSNum.fin (5800636320053199 / 36028797018963968)) =
      JSNum.fin (4350477240039899 / 9007199254740992) := by
    rw [mul_fin, h4]
  have h6 : roundDouble (53 / 1000) =
      JSNum.fin (7638104968020361 / 144115188075855872) :=
    roundDouble_eq _ (-5) 7638104968020361 (1 / 2 ^ 57) _ (by norm_num) (by norm_num)
      (by norm_num) (by norm_num) (by norm_num) (Or.inl (by norm_num)) (by norm_num)
      (by norm_num) (by norm_num) (by norm_num)
  have h7 : roundDouble (3 * (7638104968020361 / 144115188075855872)) =
      JSNum.fin (5728578726015271 / 36028797018963968) :=
    roundDouble_eq _ (-3) 5728578726015271 (1 / 2 ^ 55) _ (by norm_num) (by norm_num)
      (by norm_num) (by norm_num) (by norm_num) (Or.inl (by norm_num)) (by norm_num)
      (by norm_num) (by norm_num) (by norm_num)
  have h8 : (JSNum.fin 3).mul (JSNum.fin (7638104968020361 / 144115188075855872)) =
      JSNum.fin (5728578726015271 / 36028797018963968) := by
    rw [mul_fin, h7]
  have h9 :
      roundDouble ((4350477240039899 / 9007199254740992) - (5728578726015271 / 36028797018963968)) =
      JSNum.fin (2918332558536081 / 9007199254740992) :=
    roundDouble_eq_tie _ (-2) 5836665117072162 5836665117072162 (1 / 2 ^ 54) _
      (by norm_num) (by norm_num) (by norm_num) (by norm_num) (by norm_num) (Or.inl (by norm_num))
      (by norm_num) (by norm_num) (by norm_num) (Or.inl rfl) (by norm_num)
  have h10 :
      (JSNum.fin (4350477240039899 / 9007199254740992)).sub
        (JSNum.fin (5728578726015271 / 36028797018963968)) =
      JSNum.fin (2918332558536081 / 9007199254740992) := by
    rw [sub_fin, h9]
  have h11 :
      roundDouble ((2918332558536081 / 9007199254740992) / (4350477240039899 / 9007199254740992)) =
      JSNum.fin (188815512327645 / 281474976710656) :=
    roundDouble_eq _ (-1) 6042096394484640 (1 / 2 ^ 53) _ (by norm_num) (by norm_num)
      (by norm_num) (by norm_num) (by norm_num) (Or.inl (by norm_num)) (by norm_num)
      (by norm_num) (by norm_num) (by norm_num)
  have h12 :
      (JSNum.fin (2918332558536081 / 9007199254740992)).div
        (JSNum.fin (4350477240039899 / 9007199254740992)) =
      JSNum.fin (188815512327645 / 281474976710656) := by
    rw [div_fin _ _ (by norm_num), h11]
  have h13 : roundDouble ((188815512327645 / 281474976710656) * 100) =
      JSNum.fin (4720387808191125 / 70368744177664) :=
    roundDouble_eq _ (6) 4720387808191125 (1 / 2 ^ 46) _ (by norm_num) (by norm_num)
      (by norm_num) (by norm_num) (by norm_num) (Or.inl (by norm_num)) (by norm_num)
      (by norm_num) (by norm_num) (by norm_num)
  have h14 : (JSNum.fin (188815512327645 / 281474976710656)).mul (JSNum.fin 100) =
      JSNum.fin (4720387808191125 / 70368744177664) := by
    rw [mul_fin, h13]
  have h15 : toFixed 1 (JSNum.fin (4720387808191125 / 70368744177664)) = "67.1" := by
    rw [toFixed_eq 1 671 (by norm_num) (by norm_num) (by norm_num) (by norm_num)]
    decide
  have h16 : round2 (4350477240039899 / 9007199254740992) = (12 / 25) := by
    have hfl : ⌊((4350477240039899 / 9007199254740992) : ℚ) * 100 + 1 / 2⌋ = 48 := by
      rw [Int.floor_eq_iff]; norm_num
    simp only [round2, hfl]; norm_num
  have h17 : parseFloatToFixed 2 (JSNum.fin (4350477240039899 / 9007199254740992)) =
      roundDouble (12 / 25) := by
    rw [parseFloatToFixed_two_of_nonneg (by norm_num) (by norm_num), h16]
  have h18 : roundDouble ((12 / 25)) =
      JSNum.fin (1080863910568919 / 2251799813685248) :=
    roundDouble_eq _ (-2) 8646911284551352 (1 / 2 ^ 54) _ (by norm_num) (by norm_num)
      (by norm_num) (by norm_num) (by norm_num) (Or.inl (by norm_num)) (by norm_num)
      (by norm_num) (by norm_num) (by norm_num)
  have h19 :
      roundDouble ((1080863910568919 / 2251799813685248) - (5728578726015271 / 36028797018963968)) =
      JSNum.fin (1445655480385929 / 4503599627370496) :=
    roundDouble_eq_tie _ (-2) 5782621921543716 5782621921543716 (1 / 2 ^ 54) _
      (by norm_num) (by norm_num) (by norm_num) (by norm_num) (by norm_num) (Or.inl (by norm_num))
      (by norm_num) (by norm_num) (by norm_num) (Or.inl rfl) (by norm_num)
  have h20 :
      (JSNum.fin (1080863910568919 / 2251799813685248)).sub
        (JSNum.fin (5728578726015271 / 36028797018963968)) =
      JSNum.fin (1445655480385929 / 4503599627370496) := by
    rw [sub_fin, h19]
  have h21 :
      roundDouble ((1445655480385929 / 4503599627370496) / (1080863910568919 / 2251799813685248)) =
      JSNum.fin (3011782250804019 / 4503599627370496) :=
    roundDouble_eq _ (-1) 6023564501608038 (1 / 2 ^ 53) _ (by norm_num) (by norm_num)
      (by norm_num) (by norm_num) (by norm_num) (Or.inl (by norm_num)) (by norm_num)
      (by norm_num) (by norm_num) (by norm_num)
  have h22 :
      (JSNum.fin (1445655480385929 / 4503599627370496)).div
        (JSNum.fin (1080863910568919 / 2251799813685248)) =
      JSNum.fin (3011782250804019 / 4503599627370496) := by
    rw [div_fin _ _ (by norm_num), h21]
  have h23 : roundDouble ((3011782250804019 / 4503599627370496) * 100) =
      JSNum.fin (535 / 8) :=
    roundDouble_eq _ (6) 4705909766881280 (1 / 2 ^ 46) _ (by norm_num) (by norm_num)
      (by norm_num) (by norm_num) (by norm_num) (Or.inl (by norm_num)) (by norm_num)
      (by norm_num) (by norm_num) (by norm_num)
  have h24 : (JSNum.fin (3011782250804019 / 4503599627370496)).mul (JSNum.fin 100) =
      JSNum.fin (535 / 8) := by
    rw [mul_fin, h23]
  have h25 : toFixed 1 (JSNum.fin (535 / 8)) = "66.9" := by
    rw [toFixed_eq 1 669 (by norm_num) (by norm_num) (by norm_num) (by norm_num)]
    decide
  refine ⟨_, s, rest, h, ?_, hs, ?_, ?_⟩
  · simp only [h2, h3, h5, h17]
  · rw [hr, if_pos rfl]
    simp only [h2, h3, h5, h6, h8, h10, h12, h14, h15]
    decide
  · simp only [h2, h3, h5, h17, h6, h8, h18, h20, h22, h24, h25]
    decide

/-- C15 (amended): for positive distance and weight, mode truck (resp. air)
and a fuel of that mode, the first suggestion shows the reduction
(e − alt) / e * 100 with one decimal, where e is the unrounded double product
(distance * weight) * factor, alt is (distance * weight) * 0.053 (resp.
0.014), and every operation is rounded to a double. -/
theorem calculateCarbon_reduction (distance weight : ℚ) (mode fuel : String)
    (table : List (String × ℚ)) (factor : ℚ) (hd : 0 < distance) (hw : 0 < weight)
    (hm : (mode, table) ∈ emissionFactors) (hf : (fuel, factor) ∈ table)
    (hmode : mode = "truck" ∨ mode = "air") :
    ∃ body s rest, calculateCarbon
        { distance := some distance, weight := some weight,
          transportMode := some mode, fuelType := some fuel } = .ok body ∧
      body.suggestions = s :: rest ∧
      s.type = (if mode = "truck" then "Vehicle Type" else "Transport Mode") ∧
      s.reduction =
        toFixed 1 ((((((JSNum.fin distance).mul (JSNum.fin weight)).mul (roundDouble factor)).sub
          (((JSNum.fin distance).mul (JSNum.fin weight)).mul
            (roundDouble (if mode = "truck" then 53 / 1000 else 14 / 1000)))).div
              (((JSNum.fin distance).mul (JSNum.fin weight)).mul (roundDouble factor))).mul
                (JSNum.fin 100)) ++ "% reduction" := by
  obtain ⟨s, rest, hs, ht, hr⟩ := generateCarbonSuggestions_cons
    (((JSNum.fin distance).mul (JSNum.fin weight)).mul (roundDouble factor))
    (JSNum.fin distance) (JSNum.fin weight) mode hmode
  exact ⟨_, s, rest,
    calculateCarbon_of_mem_ne distance weight mode fuel table factor hd.ne' hw.ne' hm hf,
    hs, ht, hr⟩

theorem calculateCarbon_reduction_witness :
    (∃ body s rest, calculateCarbon
        { distance := some 3, weight := some 1,
          transportMode := some "truck", fuelType := some "diesel" } = .ok body ∧
      body.suggestions = s :: rest ∧
      s.type = "Vehicle Type" ∧
      s.reduction = "67.1% reduction") ∧
    (∃ body s rest, calculateCarbon
        { distance := some (1 / 2 ^ 600), weight := some (1 / 2 ^ 600),
          transportMode := some "truck", fuelType := some "diesel" } = .ok body ∧
      body.suggestions = s :: rest ∧
      s.reduction = "NaN% reduction") := by
  constructor
  · obtain ⟨body, s, rest, hb, hs, ht, hr⟩ := calculateCarbon_reduction 3 1 "truck" "diesel"
      [("diesel", 161 / 1000), ("electric", 53 / 1000), ("hybrid", 95 / 1000)] (161 / 1000)
      (by norm_num) (by norm_num) (by simp [emissionFactors]) (by simp) (Or.inl rfl)
    have h1 : roundDouble (3 * 1) =
        JSNum.fin 3 :=
      roundDouble_eq _ (1) 6755399441055744 (1 / 2 ^ 51) _ (by norm_num) (by norm_num)
        (by norm_num) (by norm_num) (by norm_num) (Or.inl (by norm_num)) (by norm_num)
        (by norm_num) (by norm_num) (by norm_num)
    have h2 : (JSNum.fin 3).mul (JSNum.fin 1) =
        JSNum.fin 3 := by
      rw [mul_fin, h1]
    have h3 : roundDouble (161 / 1000) =
        JSNum.fin (5800636320053199 / 36028797018963968) :=
      roundDouble_eq _ (-3) 5800636320053199 (1 / 2 ^ 55) _ (by norm_num) (by norm_num)
        (by norm_num) (by norm_num) (by norm_num) (Or.inl (by norm_num)) (by norm_num)
        (by norm_num) (by norm_num) (by norm_num)
    have h4 : roundDouble (3 * (5800636320053199 / 36028797018963968)) =
        JSNum.fin (4350477240039899 / 9007199254740992) :=
      roundDouble_eq_tie _ (-2) 8700954480079798 8700954480079798 (1 / 2 ^ 54) _
        (by norm_num) (by norm_num) (by norm_num) (by norm_num) (by norm_num) (Or.inl (by norm_num))
        (by norm_num) (by norm_num) (by norm_num) (Or.inl rfl) (by norm_num)
    have h5 : (JSNum.fin 3).mul (JSNum.fin (5800636320053199 / 36028797018963968)) =
        JSNum.fin (4350477240039899 / 9007199254740992) := by
      rw [mul_fin, h4]
    have h6 : roundDouble (53 / 1000) =
        JSNum.fin (7638104968020361 / 144115188075855872) :=
      roundDouble_eq _ (-5) 7638104968020361 (1 / 2 ^ 57) _ (by norm_num) (by norm_num)
        (by norm_num) (by norm_num) (by norm_num) (Or.inl (by norm_num)) (by norm_num)
        (by norm_num) (by norm_num) (by norm_num)
    have h7 : roundDouble (3 * (7638104968020361 / 144115188075855872)) =
        JSNum.fin (5728578726015271 / 36028797018963968) :=
      roundDouble_eq _ (-3) 5728578726015271 (1 / 2 ^ 55) _ (by norm_num) (by norm_num)
        (by norm_num) (by norm_num) (by norm_num) (Or.inl (by norm_num)) (by norm_num)
        (by norm_num) (by norm_num) (by norm_num)
    have h8 : (JSNum.fin 3).mul (JSNum.fin (7638104968020361 / 144115188075855872)) =
        JSNum.fin (5728578726015271 / 36028797018963968) := by
      rw [mul_fin, h7]
    have h9 :
        roundDouble ((4350477240039899 / 9007199254740992) - (5728578726015271 / 36028797018963968)) =
        JSNum.fin (2918332558536081 / 9007199254740992) :=
      roundDouble_eq_tie _ (-2) 5836665117072162 5836665117072162 (1 / 2 ^ 54) _
        (by norm_num) (by norm_num) (by norm_num) (by norm_num) (by norm_num) (Or.inl (by norm_num))
        (by norm_num) (by norm_num) (by norm_num) (Or.inl rfl) (by norm_num)
    have h10 :
        (JSNum.fin (4350477240039899 / 9007199254740992)).sub
          (JSNum.fin (5728578726015271 / 36028797018963968)) =
        JSNum.fin (2918332558536081 / 9007199254740992) := by
      rw [sub_fin, h9]
    have h11 :
        roundDouble ((2918332558536081 / 9007199254740992) / (4350477240039899 / 9007199254740992)) =
        JSNum.fin (188815512327645 / 281474976710656) :=
      roundDouble_eq _ (-1) 6042096394484640 (1 / 2 ^ 53) _ (by norm_num) (by norm_num)
        (by norm_num) (by norm_num) (by norm_num) (Or.inl (by norm_num)) (by norm_num)
        (by norm_num) (by norm_num) (by norm_num)
    have h12 :
        (JSNum.fin (2918332558536081 / 9007199254740992)).div
          (JSNum.fin (4350477240039899 / 9007199254740992)) =
        JSNum.fin (188815512327645 / 281474976710656) := by
      rw [div_fin _ _ (by norm_num), h11]
    have h13 : roundDouble ((188815512327645 / 281474976710656) * 100) =
        JSNum.fin (4720387808191125 / 70368744177664) :=
      roundDouble_eq _ (6) 4720387808191125 (1 / 2 ^ 46) _ (by norm_num) (by norm_num)
        (by norm_num) (by norm_num) (by norm_num) (Or.inl (by norm_num)) (by norm_num)
        (by norm_num) (by norm_num) (by norm_num)
    have h14 : (JSNum.fin (188815512327645 / 281474976710656)).mul (JSNum.fin 100) =
        JSNum.fin (4720387808191125 / 70368744177664) := by
      rw [mul_fin, h13]
    have h15 : toFixed 1 (JSNum.fin (4720387808191125 / 70368744177664)) = "67.1" := by
      rw [toFixed_eq 1 671 (by norm_num) (by norm_num) (by norm_num) (by norm_num)]
      decide
    refine ⟨body, s, rest, hb, hs, by rw [ht]; rfl, ?_⟩
    rw [hr, if_pos rfl]
    simp only [h2, h3, h5, h6, h8, h10, h12, h14, h15]
    decide
  · obtain ⟨body, s, rest, hb, hs, _, hr⟩ := calculateCarbon_reduction (1 / 2 ^ 600)
      (1 / 2 ^ 600) "truck" "diesel"
      [("diesel", 161 / 1000), ("electric", 53 / 1000), ("hybrid", 95 / 1000)] (161 / 1000)
      (by norm_num) (by norm_num) (by simp [emissionFactors]) (by simp) (Or.inl rfl)
    have k1 : roundDouble (1 / 2 ^ 600 * (1 / 2 ^ 600)) =
        JSNum.fin 0 :=
      roundDouble_eq _ (-1022) 0 (1 / 2 ^ 1074) _ (by norm_num) (by norm_num)
        (by norm_num) (by norm_num) (by norm_num) (Or.inr rfl) (by norm_num)
        (by norm_num) (by norm_num) (by norm_num)
    have k2 : roundDouble (161 / 1000) =
        JSNum.fin (5800636320053199 / 36028797018963968) :=
      roundDouble_eq _ (-3) 5800636320053199 (1 / 2 ^ 55) _ (by norm_num) (by norm_num)
        (by norm_num) (by norm_num) (by norm_num) (Or.inl (by norm_num)) (by norm_num)
        (by norm_num) (by norm_num) (by norm_num)
    have k3 : roundDouble (53 / 1000) =
        JSNum.fin (7638104968020361 / 144115188075855872) :=
      roundDouble_eq _ (-5) 7638104968020361 (1 / 2 ^ 57) _ (by norm_num) (by norm_num)
        (by norm_num) (by norm_num) (by norm_num) (Or.inl (by norm_num)) (by norm_num)
        (by norm_num) (by norm_num) (by norm_num)
    have hz : ∀ c : ℚ, (JSNum.fin 0).mul (JSNum.fin c) = JSNum.fin 0 := by
      intro c
      rw [mul_fin, zero_mul, roundDouble_zero]
    have hs0 : (JSNum.fin 0).sub (JSNum.fin 0) = JSNum.fin 0 := by
      rw [sub_fin, sub_self, roundDouble_zero]
    have hd0 : (JSNum.fin 0).div (JSNum.fin 0) = JSNum.nan := by
      simp [JSNum.div]
    refine ⟨body, s, rest, hb, hs, ?_⟩
    rw [hr, if_pos rfl]
    simp only [mul_fin (1 / 2 ^ 600) (1 / 2 ^ 600), k1, k2, k3, hz, hs0, hd0, nan_mul]
    decide

/-- C16 (counterexample): for distance 3, weight 1 and truck/diesel the
reported footprint is 0.48 and 0.48 * 0.8 prints as '0.38', but the
'Route Optimization' suggestion carries '0.39', computed from the unrounded
product. -/
theorem newEmissions_not_from_rounded_footprint :
    ∃ body s, calculateCarbon
        { distance := some 3, weight := some 1,
          transportMode := some "truck", fuelType := some "diesel" } = .ok body ∧
      body.carbonFootprint = roundDouble (12 / 25) ∧
      body.suggestions.getLast? = some s ∧
      s.type = "Route Optimization" ∧
      s.newEmissions = "0.39" ∧
      toFixed 2 (body.carbonFootprint.mul (roundDouble (8 / 10))) = "0.38" := by
  have h := calculateCarbon_of_mem_ne 3 1 "truck" "diesel"
    [("diesel", 161 / 1000), ("electric", 53 / 1000), ("hybrid", 95 / 1000)] (161 / 1000)
    (by norm_num) (by norm_num) (by simp [emissionFactors]) (by simp)
  have h1 : roundDouble (3 * 1) =
      JSNum.fin 3 :=
    roundDouble_eq _ (1) 6755399441055744 (1 / 2 ^ 51) _ (by norm_num) (by norm_num)
      (by norm_num) (by norm_num) (by norm_num) (Or.inl (by norm_num)) (by norm_num)
      (by norm_num) (by norm_num) (by norm_num)
  have h2 : (JSNum.fin 3).mul (JSNum.fin 1) =
      JSNum.fin 3 := by
    rw [mul_fin, h1]
  have h3 : roundDouble (161 / 1000) =
      JSNum.fin (5800636320053199 / 36028797018963968) :=
    roundDouble_eq _ (-3) 5800636320053199 (1 / 2 ^ 55) _ (by norm_num) (by norm_num)
      (by norm_num) (by norm_num) (by norm_num) (Or.inl (by norm_num)) (by norm_num)
      (by norm_num) (by norm_num) (by norm_num)
  have h4 : roundDouble (3 * (5800636320053199 / 36028797018963968)) =
      JSNum.fin (4350477240039899 / 9007199254740992) :=
    roundDouble_eq_tie _ (-2) 8700954480079798 8700954480079798 (1 / 2 ^ 54) _
      (by norm_num) (by norm_num) (by norm_num) (by norm_num) (by norm_num) (Or.inl (by norm_num))
      (by norm_num) (by norm_num) (by norm_num) (Or.inl rfl) (by norm_num)
  have h5 : (JSNum.fin 3).mul (JSNum.fin (5800636320053199 / 36028797018963968)) =
      JSNum.fin (4350477240039899 / 9007199254740992) := by
    rw [mul_fin, h4]
  have h6 : roundDouble (8 / 10) =
      JSNum.fin (3602879701896397 / 4503599627370496) :=
    roundDouble_eq _ (-1) 7205759403792794 (1 / 2 ^ 53) _ (by norm_num) (by norm_num)
      (by norm_num) (by norm_num) (by norm_num) (Or.inl (by norm_num)) (by norm_num)
      (by norm_num) (by norm_num) (by norm_num)
  have h7 :
      roundDouble ((4350477240039899 / 9007199254740992) * (3602879701896397 / 4503599627370496)) =
      JSNum.fin (6960763584063839 / 18014398509481984) :=
    roundDouble_eq _ (-2) 6960763584063839 (1 / 2 ^ 54) _ (by norm_num) (by norm_num)
      (by norm_num) (by norm_num) (by norm_num) (Or.inl (by norm_num)) (by norm_num)
      (by norm_num) (by norm_num) (by norm_num)
  have h8 :
      (JSNum.fin (4350477240039899 / 9007199254740992)).mul
        (JSNum.fin (3602879701896397 / 4503599627370496)) =
      JSNum.fin (6960763584063839 / 18014398509481984) := by
    rw [mul_fin, h7]
  have h9 : toFixed 2 (JSNum.fin (6960763584063839 / 18014398509481984)) = "0.39" := by
    rw [toFixed_eq 2 39 (by norm_num) (by norm_num) (by norm_num) (by norm_num)]
    decide
  have h10 : round2 (4350477240039899 / 9007199254740992) = (12 / 25) := by
    have hfl : ⌊((4350477240039899 / 9007199254740992) : ℚ) * 100 + 1 / 2⌋ = 48 := by
      rw [Int.floor_eq_iff]; norm_num
    simp only [round2, hfl]; norm_num
  have h11 : parseFloatToFixed 2 (JSNum.fin (4350477240039899 / 9007199254740992)) =
      roundDouble (12 / 25) := by
    rw [parseFloatToFixed_two_of_nonneg (by norm_num) (by norm_num), h10]
  have h12 : roundDouble ((12 / 25)) =
      JSNum.fin (1080863910568919 / 2251799813685248) :=
    roundDouble_eq _ (-2) 8646911284551352 (1 / 2 ^ 54) _ (by norm_num) (by norm_num)
      (by norm_num) (by norm_num) (by norm_num) (Or.inl (by norm_num)) (by norm_num)
      (by norm_num) (by norm_num) (by norm_num)
  have h13 :
      roundDouble ((1080863910568919 / 2251799813685248) * (3602879701896397 / 4503599627370496)) =
      JSNum.fin (3458764513820541 / 9007199254740992) :=
    roundDouble_eq _ (-2) 6917529027641082 (1 / 2 ^ 54) _ (by norm_num) (by norm_num)
      (by norm_num) (by norm_num) (by norm_num) (Or.inl (by norm_num)) (by norm_num)
      (by norm_num) (by norm_num) (by norm_num)
  have h14 :
      (JSNum.fin (1080863910568919 / 2251799813685248)).mul
        (JSNum.fin (3602879701896397 / 4503599627370496)) =
      JSNum.fin (3458764513820541 / 9007199254740992) := by
    rw [mul_fin, h13]
  have h15 : toFixed 2 (JSNum.fin (3458764513820541 / 9007199254740992)) = "0.38" := by
    rw [toFixed_eq 2 38 (by norm_num) (by norm_num) (by norm_num) (by norm_num)]
    decide
  refine ⟨_, _, h, ?_, generateCarbonSuggestions_getLast _ _ _ _, rfl, ?_, ?_⟩
  · simp only [h2, h3, h5, h11]
  · simp only [h2, h3, h5, h6, h8, h9]
  · simp only [h2, h3, h5, h11, h12, h6, h14, h15]

/-- C16 (amended): for non-zero distance and weight and a (mode, fuel) pair of
the factor table, the last suggestion is 'Route Optimization' with reduction
text '15-25% potential reduction' and newEmissions equal to the unrounded
double product (distance * weight) * factor times 0.8, printed with two
decimals. -/
theorem calculateCarbon_route_suggestion (distance weight : ℚ) (mode fuel : String)
    (table : List (String × ℚ)) (factor : ℚ) (hd : distance ≠ 0) (hw : weight ≠ 0)
    (hm : (mode, table) ∈ emissionFactors) (hf : (fuel, factor) ∈ table) :
    ∃ body s, calculateCarbon
        { distance := some distance, weight := some weight,
          transportMode := some mode, fuelType := some fuel } = .ok body ∧
      body.suggestions.getLast? = some s ∧
      s.type = "Route Optimization" ∧
      s.reduction = "15-25% potential reduction" ∧
      s.newEmissions =
        toFixed 2 ((((JSNum.fin distance).mul (JSNum.fin weight)).mul (roundDouble factor)).mul
          (roundDouble (8 / 10))) :=
  ⟨_, _, calculateCarbon_of_mem_ne distance weight mode fuel table factor hd hw hm hf,
    generateCarbonSuggestions_getLast _ _ _ _, rfl, rfl, rfl⟩

theorem calculateCarbon_route_suggestion_witness :
    (∃ body s, calculateCarbon
        { distance := some (15 / 4), weight := some 45,
          transportMode := some "truck", fuelType := some "diesel" } = .ok body ∧
      body.suggestions.getLast? = some s ∧
      s.reduction = "15-25% potential reduction" ∧
      s.newEmissions = "21.73") ∧
    (∃ body s, calculateCarbon
        { distance := some 100000000000, weight := some 100000000000,
          transportMode := some "truck", fuelType := some "diesel" } = .ok body ∧
      body.suggestions.getLast? = some s ∧
      s.newEmissions = "1.288e+21") := by
  constructor
  · obtain ⟨body, s, hb, hl, _, hr, hn⟩ := calculateCarbon_route_suggestion (15 / 4) 45
      "truck" "diesel" [("diesel", 161 / 1000), ("electric", 53 / 1000), ("hybrid", 95 / 1000)]
      (161 / 1000) (by norm_num) (by norm_num) (by simp [emissionFactors]) (by simp)
    have h1 : roundDouble ((15 / 4) * 45) =
        JSNum.fin (675 / 4) :=
      roundDouble_eq _ (7) 5937362789990400 (1 / 2 ^ 45) _ (by norm_num) (by norm_num)
        (by norm_num) (by norm_num) (by norm_num) (Or.inl (by norm_num)) (by norm_num)
        (by norm_num) (by norm_num) (by norm_num)
    have h2 : (JSNum.fin (15 / 4)).mul (JSNum.fin 45) =
        JSNum.fin (675 / 4) := by
      rw [mul_fin, h1]
    have h3 : roundDouble (161 / 1000) =
        JSNum.fin (5800636320053199 / 36028797018963968) :=
      roundDouble_eq _ (-3) 5800636320053199 (1 / 2 ^ 55) _ (by norm_num) (by norm_num)
        (by norm_num) (by norm_num) (by norm_num) (Or.inl (by norm_num)) (by norm_num)
        (by norm_num) (by norm_num) (by norm_num)
    have h4 : roundDouble ((675 / 4) * (5800636320053199 / 36028797018963968)) =
        JSNum.fin (7647323273507635 / 281474976710656) :=
      roundDouble_eq _ (4) 7647323273507635 (1 / 2 ^ 48) _ (by norm_num) (by norm_num)
        (by norm_num) (by norm_num) (by norm_num) (Or.inl (by norm_num)) (by norm_num)
        (by norm_num) (by norm_num) (by norm_num)
    have h5 : (JSNum.fin (675 / 4)).mul (JSNum.fin (5800636320053199 / 36028797018963968)) =
        JSNum.fin (7647323273507635 / 281474976710656) := by
      rw [mul_fin, h4]
    have h6 : roundDouble (8 / 10) =
        JSNum.fin (3602879701896397 / 4503599627370496) :=
      roundDouble_eq _ (-1) 7205759403792794 (1 / 2 ^ 53) _ (by norm_num) (by norm_num)
        (by norm_num) (by norm_num) (by norm_num) (Or.inl (by norm_num)) (by norm_num)
        (by norm_num) (by norm_num) (by norm_num)
    have h7 :
        roundDouble ((7647323273507635 / 281474976710656) * (3602879701896397 / 4503599627370496)) =
        JSNum.fin (1529464654701527 / 70368744177664) :=
      roundDouble_eq _ (4) 6117858618806108 (1 / 2 ^ 48) _ (by norm_num) (by norm_num)
        (by norm_num) (by norm_num) (by norm_num) (Or.inl (by norm_num)) (by norm_num)
        (by norm_num) (by norm_num) (by norm_num)
    have h8 :
        (JSNum.fin (7647323273507635 / 281474976710656)).mul
          (JSNum.fin (3602879701896397 / 4503599627370496)) =
        JSNum.fin (1529464654701527 / 70368744177664) := by
      rw [mul_fin, h7]
    have h9 : toFixed 2 (JSNum.fin (1529464654701527 / 70368744177664)) = "21.73" := by
      rw [toFixed_eq 2 2173 (by norm_num) (by norm_num) (by norm_num) (by norm_num)]
      decide
    refine ⟨body, s, hb, hl, hr, ?_⟩
    rw [hn]
    simp only [h2, h3, h5, h6, h8, h9]
  · obtain ⟨body, s, hb, hl, _, _, hn⟩ := calculateCarbon_route_suggestion 100000000000
      100000000000 "truck" "diesel"
      [("diesel", 161 / 1000), ("electric", 53 / 1000), ("hybrid", 95 / 1000)] (161 / 1000)
      (by norm_num) (by norm_num) (by simp [emissionFactors]) (by simp)
    have k1 : roundDouble (100000000000 * 100000000000) =
        JSNum.fin 10000000000000000000000 :=
      roundDouble_eq _ (73) 4768371582031250 (2 ^ 21) _ (by norm_num) (by norm_num)
        (by norm_num) (by norm_num) (by norm_num) (Or.inl (by norm_num)) (by norm_num)
        (by norm_num) (by norm_num) (by norm_num)
    have k2 : (JSNum.fin 100000000000).mul (JSNum.fin 100000000000) =
        JSNum.fin 10000000000000000000000 := by
      rw [mul_fin, k1]
    have k3 : roundDouble (161 / 1000) =
        JSNum.fin (5800636320053199 / 36028797018963968) :=
      roundDouble_eq _ (-3) 5800636320053199 (1 / 2 ^ 55) _ (by norm_num) (by norm_num)
        (by norm_num) (by norm_num) (by norm_num) (Or.inl (by norm_num)) (by norm_num)
        (by norm_num) (by norm_num) (by norm_num)
    have k4 : roundDouble (10000000000000000000000 * (5800636320053199 / 36028797018963968)) =
        JSNum.fin 1610000000000000000000 :=
      roundDouble_eq _ (70) 6141662597656250 (2 ^ 18) _ (by norm_num) (by norm_num)
        (by norm_num) (by norm_num) (by norm_num) (Or.inl (by norm_num)) (by norm_num)
        (by norm_num) (by norm_num) (by norm_num)
    have k5 :
        (JSNum.fin 10000000000000000000000).mul
          (JSNum.fin (5800636320053199 / 36028797018963968)) =
        JSNum.fin 1610000000000000000000 := by
      rw [mul_fin, k4]
    have k6 : roundDouble (8 / 10) =
        JSNum.fin (3602879701896397 / 4503599627370496) :=
      roundDouble_eq _ (-1) 7205759403792794 (1 / 2 ^ 53) _ (by norm_num) (by norm_num)
        (by norm_num) (by norm_num) (by norm_num) (Or.inl (by norm_num)) (by norm_num)
        (by norm_num) (by norm_num) (by norm_num)
    have k7 : roundDouble (1610000000000000000000 * (3602879701896397 / 4503599627370496)) =
        JSNum.fin 1288000000000000000000 :=
      roundDouble_eq _ (70) 4913330078125000 (2 ^ 18) _ (by norm_num) (by norm_num)
        (by norm_num) (by norm_num) (by norm_num) (Or.inl (by norm_num)) (by norm_num)
        (by norm_num) (by norm_num) (by norm_num)
    have k8 :
        (JSNum.fin 1610000000000000000000).mul
          (JSNum.fin (3602879701896397 / 4503599627370496)) =
        JSNum.fin 1288000000000000000000 := by
      rw [mul_fin, k7]
    refine ⟨body, s, hb, hl, ?_⟩
    rw [hn]
    simp only [k2, k3, k5, k6, k8, toFixed_large_example]

/-- C17 (failing input): a request whose `dimensions` object lacks `length`
passes the validation; the volume is NaN and the handler answers 200 with
three recommendations whose estimated cost is 'NaN'. -/
theorem packagingRecommendations_missing_length :
    ∃ body, packagingRecommendations
        { dimensions := some { length := none, width := some 10, height := some 10 },
          weight := some 1, itemType := some "electronics", fragility := some "low" } =
        .ok body ∧
      body.volume = JSNum.nan ∧
      body.recommendations.map (fun r => r.key) = ["mushroom", "cornstarch", "cardboard"] ∧
      body.recommendations.map (fun r => r.estimatedCost) = ["NaN", "NaN", "NaN"] := by
  have hacc := packagingRecommendations_accepted
    { length := none, width := some 10, height := some 10 } 1 "electronics" "low"
    (by norm_num) (by decide) (by decide)
  have hvol : dimensionsVolume { length := none, width := some 10, height := some 10 } =
      JSNum.nan := rfl
  have hm1 : includes "Recycled Cardboard" "Mushroom" = false := by decide
  have hm2 : includes "Recycled Cardboard" "Cardboard" = true := by decide
  have hm3 : includes "Mushroom Packaging" "Mushroom" = true := by decide
  have hm4 : includes "Mushroom Packaging" "Cardboard" = false := by decide
  have hm5 : includes "Cornstarch Packing Peanuts" "Mushroom" = false := by decide
  have hm6 : includes "Cornstarch Packing Peanuts" "Cardboard" = false := by decide
  have h15 : ¬ ((5 : ℚ) < 1) := by norm_num
  refine ⟨_, hacc, ?_, ?_, ?_⟩
  · rw [hvol]; rfl
  · rw [hvol]
    simp [scored, suitable_electronics, packagingOptions, sortByScore, scoreOrder,
      calculatePackagingScore, JSNum.gt, hm1, hm2, hm3, hm4, hm5, hm6, h15]
  · rw [hvol]
    simp [scored, suitable_electronics, packagingOptions, sortByScore, scoreOrder,
      calculatePackagingScore, calculatePackagingCost_nan, JSNum.gt, hm1, hm2, hm3, hm4, hm5,
      hm6, h15]

/-- C19: for item type 'electronics' the first recommendation is Recycled
Cardboard exactly when volume > 1000, weight > 5 and fragility is not 'high';
in every other case it is Mushroom Packaging. -/
theorem electronics_first_recommendation (dimensions : Dimensions) (weight : ℚ)
    (fragility : String) (hw : weight ≠ 0) (hfr : fragility ≠ "") :
    ∃ body, packagingRecommendations
        { dimensions := some dimensions, weight := some weight,
          itemType := some "electronics", fragility := some fragility } = .ok body ∧
      (body.recommendations.head?.map (fun r => r.name) = some "Recycled Cardboard" ↔
        ((dimensionsVolume dimensions).gt (JSNum.fin 1000) = true ∧
          (JSNum.fin weight).gt (JSNum.fin 5) = true ∧ fragility ≠ "high")) ∧
      (¬ ((dimensionsVolume dimensions).gt (JSNum.fin 1000) = true ∧
          (JSNum.fin weight).gt (JSNum.fin 5) = true ∧ fragility ≠ "high") →
        body.recommendations.head?.map (fun r => r.name) = some "Mushroom Packaging") := by
  refine ⟨_, packagingRecommendations_accepted dimensions weight "electronics" fragility hw
    (by decide) hfr, ?_, ?_⟩
  · show ((sortByScore (scored "electronics" (dimensionsVolume dimensions) (JSNum.fin weight)
      fragility)).take 3).head?.map (fun r => r.name) = some "Recycled Cardboard" ↔ _
    rw [sorted_electronics_head]
    by_cases hc : (dimensionsVolume dimensions).gt (JSNum.fin 1000) = true ∧
        (JSNum.fin weight).gt (JSNum.fin 5) = true ∧ fragility ≠ "high"
    · rw [if_pos hc]
      exact ⟨fun _ => hc, fun _ => rfl⟩
    · rw [if_neg hc]
      constructor
      · intro h
        exact absurd (Option.some.inj h) (by decide)
      · intro h
        exact absurd h hc
  · intro hc
    show ((sortByScore (scored "electronics" (dimensionsVolume dimensions) (JSNum.fin weight)
      fragility)).take 3).head?.map (fun r => r.name) = some "Mushroom Packaging"
    rw [sorted_electronics_head, if_neg hc]

theorem electronics_first_recommendation_witness :
    (∃ body, packagingRecommendations
        { dimensions := some { length := some 10, width := some 10, height := some 20 },
          weight := some 6, itemType := some "electronics", fragility := some "low" } = .ok body ∧
      body.recommendations.head?.map (fun r => r.name) = some "Recycled Cardboard") ∧
    (∃ body, packagingRecommendations
        { dimensions := some { length := some 10, width := some 10, height := some 20 },
          weight := some 6, itemType := some "electronics", fragility := some "high" } = .ok body ∧
      body.recommendations.head?.map (fun r => r.name) = some "Mushroom Packaging") := by
  have hvol := dimensionsVolume_ten_ten_twenty
  have hv : (JSNum.fin 2000).gt (JSNum.fin 1000) = true := by
    simp only [JSNum.gt, decide_eq_true_eq]; norm_num
  have hw : (JSNum.fin 6).gt (JSNum.fin 5) = true := by
    simp only [JSNum.gt, decide_eq_true_eq]; norm_num
  constructor
  · obtain ⟨body, hb, hiff, _⟩ := electronics_first_recommendation
      { length := some 10, width := some 10, height := some 20 } 6 "low"
      (by norm_num) (by decide)
    exact ⟨body, hb, hiff.mpr ⟨by rw [hvol]; exact hv, hw, by decide⟩⟩
  · obtain ⟨body, hb, _, hnot⟩ := electronics_first_recommendation
      { length := some 10, width := some 10, height := some 20 } 6 "high"
      (by norm_num) (by decide)
    exact ⟨body, hb, hnot (fun h => h.2.2 rfl)⟩

/-- C20: at most 3 of the five packaging options list any given item type in
`bestFor`, so the cut to the first three removes nothing: the recommendations
of an accepted request are a permutation of all candidates. -/
theorem packagingRecommendations_all_candidates (dimensions : Dimensions) (weight : ℚ)
    (itemType fragility : String) (hw : weight ≠ 0) (hi : itemType ≠ "")
    (hfr : fragility ≠ "") :
    (packagingOptions.filter (fun entry => decide (itemType ∈ entry.2.bestFor))).length ≤ 3 ∧
    ∃ body, packagingRecommendations
        { dimensions := some dimensions, weight := some weight,
          itemType := some itemType, fragility := some fragility } = .ok body ∧
      body.recommendations.Perm
        (scored itemType (dimensionsVolume dimensions) (JSNum.fin weight) fragility) ∧
      body.recommendations.length =
        (packagingOptions.filter (fun entry => decide (itemType ∈ entry.2.bestFor))).length := by
  have hlen := suitable_length_le itemType
  have hsl : (sortByScore (scored itemType (dimensionsVolume dimensions) (JSNum.fin weight)
      fragility)).length ≤ 3 := by
    rw [sortByScore, List.length_insertionSort]
    simpa [scored] using hlen
  have htake := List.take_of_length_le hsl
  refine ⟨hlen, _,
    packagingRecommendations_accepted dimensions weight itemType fragility hw hi hfr, ?_, ?_⟩
  · show ((sortByScore _).take 3).Perm _
    rw [htake]
    exact List.perm_insertionSort _ _
  · show ((sortByScore _).take 3).length = _
    rw [htake, sortByScore, List.length_insertionSort]
    simp [scored, suitable]

theorem packagingRecommendations_all_candidates_witness :
    ∃ body, packagingRecommendations
        { dimensions := some { length := some 10, width := some 10, height := some 20 },
          weight := some 6, itemType := some "fragile", fragility := some "high" } = .ok body ∧
      body.recommendations.length = 3 := by
  obtain ⟨_, body, hb, _, hl⟩ := packagingRecommendations_all_candidates
    { length := some 10, width := some 10, height := some 20 } 6 "fragile" "high"
    (by norm_num) (by decide) (by decide)
  refine ⟨body, hb, hl.trans ?_⟩
  decide

end CarbonFoot
